import Mathlib

/-!
# Photoresistor traffic light: scheduler, period reduction and the four state machines

A shallow embedding of `photoresistorTrafficLight.c` (ATmega1284, avr-gcc).

* `unsigned char` variables and the 8-bit I/O registers are natural numbers, every
  store being reduced modulo `2 ^ 8`; `uint16_t` is reduced modulo `2 ^ 16` and
  `unsigned long` modulo `2 ^ 32`.
* State codes are `Int`, as in the C signature `int SMTickN(int state)`.
* A `switch` is a chain of `if state = code then ... else ...` ending in the `default`
  branch.
* The value returned by `read_adc(channel)` is an input of the tick function; the ADC
  control registers written by `ADC7_init` and `read_adc`, the data direction registers and
  `PORTA` (written once by `main`, never read) are not modelled.
-/

namespace TrafficLight

/-! ## Period reduction -/

/-- The C function `findGCD`. The loop `while(1) { c = a % b; if (c == 0) return b; a = b; b = c; }`
is a recursion on `b`, which strictly decreases; `a % 0` is undefined in C and gives `none`. -/
def findGCD (a b : Nat) : Option Nat :=
  if b = 0 then none
  else
    let c := a % b
    if c = 0 then some b
    else findGCD b c
termination_by b
decreasing_by exact Nat.mod_lt a (Nat.pos_of_ne_zero ‹¬b = 0›)

/-- The period computation of `main`: the three chained `findGCD` calls and the four
divisions. The result is `(GCD, SMTick1_period, SMTick2_period, SMTick3_period, SMTick4_period)`. -/
def reducePeriods (SMTick1_calc SMTick2_calc SMTick3_calc SMTick4_calc : Nat) :
    Option (Nat × Nat × Nat × Nat × Nat) :=
  match findGCD SMTick1_calc SMTick2_calc with
  | none => none
  | some t1 =>
    match findGCD t1 SMTick3_calc with
    | none => none
    | some t2 =>
      match findGCD t2 SMTick4_calc with
      | none => none
      | some GCD =>
        some (GCD, SMTick1_calc / GCD, SMTick2_calc / GCD, SMTick3_calc / GCD, SMTick4_calc / GCD)

/-! ## Task scheduler -/

/-- The C struct `task`; the tick function reads an input of type `I` (the sensor readings
of the current pulse) and acts on the global variables and registers `W`. -/
structure task (I W : Type) where
  state : Int
  period : Nat
  elapsedTime : Nat
  TickFct : I → Int → W → Int × W

/-- Conversion of an `int` to `signed char` (the type of `task.state`). -/
def toSChar (x : Int) : Int := (x + 128) % 256 - 128

/-- The body of the scheduler's `for` loop for one task:
`if (elapsedTime == period) { state = TickFct(state); elapsedTime = 0; } elapsedTime += 1;` -/
def schedTask {I W : Type} (inp : I) (t : task I W) (w : W) : task I W × W :=
  if t.elapsedTime = t.period then
    let r := t.TickFct inp t.state w
    ({ t with state := toSChar r.1, elapsedTime := (0 + 1) % 2 ^ 32 }, r.2)
  else
    ({ t with elapsedTime := (t.elapsedTime + 1) % 2 ^ 32 }, w)

/-- One scheduler pulse: the `for` loop over the task array, in list order. -/
def pulse {I W : Type} (inp : I) : List (task I W) → W → List (task I W) × W
  | [], w => ([], w)
  | t :: ts, w =>
    let r := schedTask inp t w
    let rs := pulse inp ts r.2
    (r.1 :: rs.1, rs.2)

/-- The state after `n` iterations of the scheduler's `while(1)` loop; pulse `k` (counted
from 0) reads the input `inps k`. -/
def runPulses {I W : Type} (inps : Nat → I) : Nat → List (task I W) × W → List (task I W) × W
  | 0, s => s
  | n + 1, s => pulse (inps n) (runPulses inps n s).1 (runPulses inps n s).2

/-- Observation of tick-function calls: the task behaves as `t`, and every call of its
tick function appends the task index `i` to a call log carried next to the world. -/
def logged {I W : Type} (i : Nat) (t : task I W) : task I (W × List Nat) where
  state := t.state
  period := t.period
  elapsedTime := t.elapsedTime
  TickFct := fun inp s wl => ((t.TickFct inp s wl.1).1, ((t.TickFct inp s wl.1).2, wl.2 ++ [i]))

/-- Every task of the list observed by `logged`, numbered from `k` on. -/
def logAll {I W : Type} : Nat → List (task I W) → List (task I (W × List Nat))
  | _, [] => []
  | k, t :: ts => logged k t :: logAll (k + 1) ts

/-! ## Global variables and registers -/

/-- The global variables of the program and the three output registers. -/
structure Machine where
  PORTB : Nat
  PORTC : Nat
  PORTD : Nat
  car_waiting : Nat
  car_waiting1 : Nat
  good_to_go : Nat
  gtg : Nat
  cnt : Nat
  cnt_SM2 : Nat
  cnt_SM3 : Nat
  cnt_SM4 : Nat
  adc0_value : Nat
  adc6_value : Nat
deriving DecidableEq, Repr

def SM1_init : Int := 0
def SM1_wait : Int := 1
def SM1_sensed_car : Int := 2
def SM1_moving_car : Int := 3
def SM1_moving_car_8 : Int := 4
def SM1_waited : Int := 5

def SM2_init : Int := 0
def SM2_wait : Int := 1
def SM2_green : Int := 2
def SM2_stillgreen : Int := 3
def SM2_greener : Int := 4
def SM2_yellow : Int := 5

def SM3_init : Int := 0
def SM3_wait : Int := 1
def SM3_sensed_car : Int := 2
def SM3_moving_car : Int := 3
def SM3_moving_car_8 : Int := 4
def SM3_waited : Int := 5

def SM4_init : Int := 0
def SM4_wait : Int := 1
def SM4_green : Int := 2
def SM4_stillgreen : Int := 3
def SM4_greener : Int := 4
def SM4_yellow : Int := 5

/-- The constant `min_val` of `SMTick1` and `SMTick3`. -/
def min_val : Nat := 0x0030

/-- The local `almost = min_val + 0x05` of `SMTick1` and `SMTick3` (an `unsigned short`). -/
def almost : Nat := (min_val + 0x05) % 2 ^ 16

/-! ## Lane 1: approach machine -/

/-- The first `switch` of `SMTick1` (transitions); `s` is the sensor reading. -/
def SMTick1_transitions (s : Nat) (state : Int) (m : Machine) : Int × Machine :=
  if state = SM1_init then (SM1_wait, m)
  else if state = SM1_wait then
    let m1 := if m.cnt > 10 then { m with PORTD := (m.PORTD &&& 0xBF) % 256 } else m
    let m2 := { m1 with cnt := (m1.cnt + 1) % 256 }
    if s < almost then (SM1_sensed_car, { m2 with cnt := 0 })
    else if s ≥ almost then (SM1_wait, m2)
    else (state, m2)
  else if state = SM1_sensed_car then (SM1_moving_car, m)
  else if state = SM1_moving_car then
    if m.PORTB = 0x80 then (SM1_moving_car_8, { m with cnt := 0 })
    else (SM1_moving_car, m)
  else if state = SM1_moving_car_8 then
    let r : Int × Machine := if m.cnt < 10 then (SM1_moving_car_8, m) else (SM1_waited, m)
    (r.1, { r.2 with cnt := (r.2.cnt + 1) % 256 })
  else if state = SM1_waited then
    if m.good_to_go = 1 then
      (SM1_wait, { m with PORTB := 0, PORTD := ((m.PORTD &&& 0xBF) ||| 0x40) % 256,
                          car_waiting := 0, cnt := 0 })
    else (SM1_waited, m)
  else (SM1_init, m)

/-- The second `switch` of `SMTick1` (actions). -/
def SMTick1_actions (state : Int) (m : Machine) : Int × Machine :=
  if state = SM1_wait then (state, m)
  else if state = SM1_sensed_car then (state, { m with PORTB := 0x01 })
  else if state = SM1_moving_car then (state, { m with PORTB := (m.PORTB <<< 1) % 256 })
  else if state = SM1_moving_car_8 then (state, m)
  else if state = SM1_waited then (state, { m with car_waiting := 1 })
  else (SM1_wait, m)

/-- The C function `SMTick1`; `adc0` is the value returned by `read_adc(0)`. -/
def SMTick1 (adc0 : Nat) (state : Int) (m : Machine) : Int × Machine :=
  let m0 := { m with adc0_value := adc0 % 2 ^ 16 }
  let r := SMTick1_transitions m0.adc0_value state m0
  SMTick1_actions r.1 r.2

/-! ## Lane 1: light machine -/

/-- The first `switch` of `SMTick2` (transitions). -/
def SMTick2_transitions (state : Int) (m : Machine) : Int × Machine :=
  if state = SM2_init then (SM2_wait, { m with PORTD := 0x24 })
  else if state = SM2_wait then
    if m.car_waiting = 0 then (SM2_wait, m)
    else if m.car_waiting = 1 ∧ m.cnt_SM2 < 2 then
      (SM2_wait, { m with cnt_SM2 := (m.cnt_SM2 + 1) % 256 })
    else if m.car_waiting = 1 ∧ m.cnt_SM2 ≥ 2 then (SM2_green, m)
    else (state, m)
  else if state = SM2_green then (SM2_stillgreen, m)
  else if state = SM2_stillgreen then
    (SM2_greener, { m with PORTD := (m.PORTD &&& 0xBF) % 256, cnt_SM2 := 0 })
  else if state = SM2_greener then
    let r : Int × Machine :=
      if m.cnt_SM2 < 4 then (SM2_greener, m)
      else if m.cnt_SM2 ≥ 4 then
        (SM2_yellow, { m with PORTD := ((m.PORTD &&& 0xF8) ||| 0x02) % 256, cnt_SM2 := 0 })
      else (state, m)
    (r.1, { r.2 with cnt_SM2 := (r.2.cnt_SM2 + 1) % 256 })
  else if state = SM2_yellow then
    let r : Int × Machine :=
      if m.cnt_SM2 < 4 then (SM2_yellow, m)
      else if m.cnt_SM2 ≥ 4 then
        (SM2_wait, { m with PORTD := ((m.PORTD &&& 0xF8) ||| 0x04) % 256, cnt_SM2 := 0,
                            good_to_go := 0 })
      else (state, m)
    (r.1, { r.2 with cnt_SM2 := (r.2.cnt_SM2 + 1) % 256 })
  else (SM2_init, m)

/-- The second `switch` of `SMTick2` (actions). -/
def SMTick2_actions (state : Int) (m : Machine) : Int × Machine :=
  if state = SM2_init then (state, m)
  else if state = SM2_wait then (state, m)
  else if state = SM2_green then (state, { m with PORTD := ((m.PORTD &&& 0xF8) ||| 0x01) % 256 })
  else if state = SM2_stillgreen then (state, { m with good_to_go := 1 })
  else if state = SM2_greener then (state, m)
  else if state = SM2_yellow then (state, m)
  else (state, m)

/-- The C function `SMTick2`. -/
def SMTick2 (state : Int) (m : Machine) : Int × Machine :=
  let r := SMTick2_transitions state m
  SMTick2_actions r.1 r.2

/-! ## Lane 2: approach machine -/

/-- The first `switch` of `SMTick3` (transitions); `s` is the sensor reading. -/
def SMTick3_transitions (s : Nat) (state : Int) (m : Machine) : Int × Machine :=
  if state = SM3_init then (SM3_wait, m)
  else if state = SM3_wait then
    let m1 := if m.cnt_SM3 > 10 then { m with PORTD := (m.PORTD &&& 0x7F) % 256 } else m
    let m2 := { m1 with cnt_SM3 := (m1.cnt_SM3 + 1) % 256 }
    if s < almost then (SM3_sensed_car, { m2 with cnt_SM3 := 0 })
    else if s ≥ almost then (SM3_wait, m2)
    else (state, m2)
  else if state = SM3_sensed_car then (SM3_moving_car, { m with cnt_SM3 := 0 })
  else if state = SM3_moving_car then
    if m.PORTC = 0x80 then (SM3_moving_car_8, { m with cnt_SM3 := 0 })
    else (SM3_moving_car, m)
  else if state = SM3_moving_car_8 then
    let r : Int × Machine := if m.cnt_SM3 < 10 then (SM3_moving_car_8, m) else (SM3_waited, m)
    (r.1, { r.2 with cnt_SM3 := (r.2.cnt_SM3 + 1) % 256 })
  else if state = SM3_waited then
    if m.gtg = 1 then
      (SM3_wait, { m with PORTC := 0, PORTD := ((m.PORTD &&& 0x7F) ||| 0x80) % 256,
                          car_waiting1 := 0, cnt_SM3 := 0 })
    else (SM3_waited, m)
  else (SM3_init, m)

/-- The second `switch` of `SMTick3` (actions). -/
def SMTick3_actions (state : Int) (m : Machine) : Int × Machine :=
  if state = SM3_wait then (state, m)
  else if state = SM3_sensed_car then (state, { m with PORTC := 0x01 })
  else if state = SM3_moving_car then (state, { m with PORTC := (m.PORTC <<< 1) % 256 })
  else if state = SM3_moving_car_8 then (state, m)
  else if state = SM3_waited then (state, { m with car_waiting1 := 1 })
  else (SM3_wait, m)

/-- The C function `SMTick3`; `adc6` is the value returned by `read_adc(6)`. -/
def SMTick3 (adc6 : Nat) (state : Int) (m : Machine) : Int × Machine :=
  let m0 := { m with adc6_value := adc6 % 2 ^ 16 }
  let r := SMTick3_transitions m0.adc6_value state m0
  SMTick3_actions r.1 r.2

/-! ## Lane 2: light machine -/

/-- The first `switch` of `SMTick4` (transitions). -/
def SMTick4_transitions (state : Int) (m : Machine) : Int × Machine :=
  if state = SM4_init then (SM4_wait, m)
  else if state = SM4_wait then
    if m.car_waiting1 = 0 then (SM4_wait, m)
    else if m.car_waiting1 = 1 ∧ m.cnt_SM4 < 2 then
      (SM4_wait, { m with cnt_SM4 := (m.cnt_SM4 + 1) % 256 })
    else if m.car_waiting1 = 1 ∧ m.cnt_SM4 ≥ 2 then (SM4_green, m)
    else (state, m)
  else if state = SM4_green then (SM4_stillgreen, m)
  else if state = SM4_stillgreen then
    (SM4_greener, { m with PORTD := (m.PORTD &&& 0x7F) % 256, cnt_SM4 := 0 })
  else if state = SM4_greener then
    let r : Int × Machine :=
      if m.cnt_SM4 < 4 then (SM4_greener, m)
      else if m.cnt_SM4 ≥ 4 then
        (SM4_yellow, { m with PORTD := ((m.PORTD &&& 0xC7) ||| 0x10) % 256, cnt_SM4 := 0 })
      else (state, m)
    (r.1, { r.2 with cnt_SM4 := (r.2.cnt_SM4 + 1) % 256 })
  else if state = SM4_yellow then
    let r : Int × Machine :=
      if m.cnt_SM4 < 4 then (SM4_yellow, m)
      else if m.cnt_SM4 ≥ 4 then
        (SM4_wait, { m with PORTD := ((m.PORTD &&& 0xC7) ||| 0x20) % 256, cnt_SM4 := 0,
                            gtg := 0 })
      else (state, m)
    (r.1, { r.2 with cnt_SM4 := (r.2.cnt_SM4 + 1) % 256 })
  else (SM4_init, m)

/-- The second `switch` of `SMTick4` (actions). -/
def SMTick4_actions (state : Int) (m : Machine) : Int × Machine :=
  if state = SM4_init then (state, m)
  else if state = SM4_wait then (state, m)
  else if state = SM4_green then (state, { m with PORTD := ((m.PORTD &&& 0xC7) ||| 0x08) % 256 })
  else if state = SM4_stillgreen then (state, { m with gtg := 1 })
  else if state = SM4_greener then (state, m)
  else if state = SM4_yellow then (state, m)
  else (state, m)

/-- The C function `SMTick4`. -/
def SMTick4 (state : Int) (m : Machine) : Int × Machine :=
  let r := SMTick4_transitions state m
  SMTick4_actions r.1 r.2

/-! ## The program -/

/-- The registers and globals when `main` enters the scheduler loop: `PORTB = PORTC = PORTD = 0`
and every global variable holds its initialiser `0`. -/
def initMachine : Machine :=
  { PORTB := 0x00, PORTC := 0x00, PORTD := 0x00, car_waiting := 0, car_waiting1 := 0,
    good_to_go := 0, gtg := 0, cnt := 0, cnt_SM2 := 0, cnt_SM3 := 0, cnt_SM4 := 0,
    adc0_value := 0, adc6_value := 0 }

/-- The array `tasks` as `main` initialises it, for the four reduced periods. The input of a
pulse is the function `read_adc` (channel to conversion result) as it answers during that pulse. -/
def mainTasks (SMTick1_period SMTick2_period SMTick3_period SMTick4_period : Nat) :
    List (task (Nat → Nat) Machine) :=
  [ { state := SM1_init, period := SMTick1_period, elapsedTime := SMTick1_period,
      TickFct := fun read_adc => SMTick1 (read_adc 0) },
    { state := SM2_init, period := SMTick2_period, elapsedTime := SMTick2_period,
      TickFct := fun _ => SMTick2 },
    { state := SM3_init, period := SMTick3_period, elapsedTime := SMTick3_period,
      TickFct := fun read_adc => SMTick3 (read_adc 6) },
    { state := SM4_init, period := SMTick4_period, elapsedTime := SMTick4_period,
      TickFct := fun _ => SMTick4 } ]

/-- The set-up part of `main`, up to the scheduler loop: the timer base `GCD` handed to
`TimerSet`, the task array and the initial registers. -/
def mainSetup : Option (Nat × List (task (Nat → Nat) Machine) × Machine) :=
  match reducePeriods 50 500 50 500 with
  | none => none
  | some (GCD, p1, p2, p3, p4) => some (GCD, mainTasks p1 p2 p3 p4, initMachine)

/-! ## Auxiliary notions used in the statements -/

/-- The scheduling data of a task: its period and its elapsed time. -/
def sched {I W : Type} (t : task I W) : Nat × Nat := (t.period, t.elapsedTime)

/-- The elapsed time the loop body of the scheduler leaves in a task of period `P`. -/
def nextElapsed (P e : Nat) : Nat :=
  if e = P then (0 + 1) % 2 ^ 32 else (e + 1) % 2 ^ 32

/-- The indices, counted from `k`, of the entries `(period, elapsedTime)` with
`elapsedTime = period`. -/
def dueIdx : Nat → List (Nat × Nat) → List Nat
  | _, [] => []
  | k, p :: ps => (if p.2 = p.1 then [k] else []) ++ dueIdx (k + 1) ps

/-- Successive calls of `SMTick1`, each on the state code the previous call returned.
Before call `k` the environment supplies `(env k).1` as the result of `read_adc(0)` and has
left `good_to_go = (env k).2` (the variable is written by the light machine). -/
def approachRun (env : Nat → Nat × Nat) : Nat → Int × Machine → Int × Machine
  | 0, s => s
  | n + 1, s =>
    SMTick1 (env n).1 (approachRun env n s).1
      { (approachRun env n s).2 with good_to_go := (env n).2 }

/-- Successive calls of `SMTick2`, each on the state code the previous call returned.
Before call `k` the environment has left `car_waiting = cw k` (the variable is written by the
approach machine). -/
def lightRun (cw : Nat → Nat) : Nat → Int × Machine → Int × Machine
  | 0, s => s
  | n + 1, s => SMTick2 (lightRun cw n s).1 { (lightRun cw n s).2 with car_waiting := cw n }

/-- Successive calls of `SMTick2` serving one request: `car_waiting` is 1 before every call
until `good_to_go` has been seen set after some call, and 0 before every later call. The
last component records whether `good_to_go = 1` has been seen. -/
def lightCycle : Nat → Int × Machine → Int × Machine × Bool
  | 0, s => (s.1, s.2, decide (s.2.good_to_go = 1))
  | n + 1, s =>
    let p := lightCycle n s
    let r := SMTick2 p.1 { p.2.1 with car_waiting := if p.2.2 then 0 else 1 }
    (r.1, r.2, p.2.2 || decide (r.2.good_to_go = 1))

/-- The summary of a state of `lightCycle` used in the proofs: state code, `cnt_SM2`,
`good_to_go`, the lane-1 phase bits `PORTD & 0x07`, and whether `good_to_go` has been seen. -/
def LightAt (p : Int × Machine × Bool) (st : Int) (c g ph : Nat) (seen : Bool) : Prop :=
  p.1 = st ∧ p.2.1.cnt_SM2 = c ∧ p.2.1.good_to_go = g ∧ p.2.1.PORTD &&& 0x07 = ph ∧ p.2.2 = seen

/-! ## Example states -/

/-- The registers once the light machine has left `SM2_init`: both lanes red. -/
def bothRed : Machine := { initMachine with PORTD := 0x24 }

/-- A vehicle of lane 1 at the stop line, lane 1 green and passage granted. -/
def atLineGranted : Machine :=
  { initMachine with PORTB := 0x80, PORTD := 0x21, car_waiting := 1, good_to_go := 1, cnt := 11 }

/-- A vehicle of lane 1 at the stop line, both lanes red and passage not granted. -/
def atLineWaiting : Machine :=
  { initMachine with PORTB := 0x80, PORTD := 0x24, car_waiting := 1, good_to_go := 0, cnt := 11 }

/-- Both lanes red, the debounce count of the lane-1 light at 2, the request standing. -/
def debouncedRequest : Machine := { initMachine with PORTD := 0x24, cnt_SM2 := 2, car_waiting := 1 }

/-- Both lanes red, the debounce count of the lane-1 light at 2, no request. -/
def debouncedNoRequest : Machine := { initMachine with PORTD := 0x24, cnt_SM2 := 2 }

/-- Lane 1 green with passage granted and the pass indicator of lane 1 lit, the light
machine about to leave `SM2_stillgreen`. -/
def passShown : Machine := { initMachine with PORTD := 0x61, good_to_go := 1, cnt_SM2 := 2 }

/-- Successive calls of `SMTick3`, each on the state code the previous call returned.
Before call `k` the environment supplies `(env k).1` as the result of `read_adc(6)` and has
left `gtg = (env k).2` (the variable is written by the lane-2 light machine). -/
def approachRun3 (env : Nat → Nat × Nat) : Nat → Int × Machine → Int × Machine
  | 0, s => s
  | n + 1, s =>
    SMTick3 (env n).1 (approachRun3 env n s).1
      { (approachRun3 env n s).2 with gtg := (env n).2 }

/-- The lane renaming between a state of the lane-1 approach machine and a state of the
lane-2 approach machine: same state code, `PORTB` for `PORTC`, bit 6 of `PORTD` for bit 7,
`car_waiting` for `car_waiting1`, `cnt` for `cnt_SM3`. -/
def LaneRel (p q : Int × Machine) : Prop :=
  p.1 = q.1 ∧ p.2.PORTB = q.2.PORTC ∧ p.2.PORTD.testBit 6 = q.2.PORTD.testBit 7 ∧
  p.2.car_waiting = q.2.car_waiting1 ∧ p.2.cnt = q.2.cnt_SM3

/-! ## The complete system -/

/-- The task array of `main` (periods 1, 10, 1, 10) with the given state codes and elapsed
times; `mainTasks 1 10 1 10` is `sysTasks SM1_init SM2_init SM3_init SM4_init 1 10 1 10`. -/
def sysTasks (st1 st2 st3 st4 : Int) (e1 e2 e3 e4 : Nat) : List (task (Nat → Nat) Machine) :=
  [ { state := st1, period := 1, elapsedTime := e1,
      TickFct := fun read_adc => SMTick1 (read_adc 0) },
    { state := st2, period := 10, elapsedTime := e2,
      TickFct := fun _ => SMTick2 },
    { state := st3, period := 1, elapsedTime := e3,
      TickFct := fun read_adc => SMTick3 (read_adc 6) },
    { state := st4, period := 10, elapsedTime := e4,
      TickFct := fun _ => SMTick4 } ]

/-- The state code and the registers a task of period `P` with tick function `f` is left with
by the loop body of the scheduler. -/
def stepTask (P : Nat) (f : Int → Machine → Int × Machine) (st : Int) (e : Nat) (m : Machine) :
    Int × Machine :=
  if e = P then (toSChar (f st m).1, (f st m).2) else (st, m)

/-- What the lane-1 light machine guarantees in each of its states: `good_to_go` is 0 in
`SM2_init`, `SM2_wait` and `SM2_green`, and 1 in the other states; lane 1 shows green in
`SM2_green`, `SM2_stillgreen` and `SM2_greener` and yellow in `SM2_yellow`. -/
def Light1Inv (st : Int) (m : Machine) : Prop :=
  if st = SM2_init ∨ st = SM2_wait then m.good_to_go = 0
  else if st = SM2_green then m.good_to_go = 0 ∧ m.PORTD &&& 0x07 = 0x01
  else if st = SM2_stillgreen ∨ st = SM2_greener then
    m.good_to_go = 1 ∧ m.PORTD &&& 0x07 = 0x01
  else if st = SM2_yellow then m.good_to_go = 1 ∧ m.PORTD &&& 0x07 = 0x02
  else False

/-- What the lane-2 light machine guarantees in each of its states; see `Light1Inv`. -/
def Light2Inv (st : Int) (m : Machine) : Prop :=
  if st = SM4_init ∨ st = SM4_wait then m.gtg = 0
  else if st = SM4_green then m.gtg = 0 ∧ m.PORTD &&& 0x38 = 0x08
  else if st = SM4_stillgreen ∨ st = SM4_greener then m.gtg = 1 ∧ m.PORTD &&& 0x38 = 0x08
  else if st = SM4_yellow then m.gtg = 1 ∧ m.PORTD &&& 0x38 = 0x10
  else False

/-- Each lane shows exactly one of green, yellow and red. -/
def PhasesValid (m : Machine) : Prop :=
  (m.PORTD &&& 0x07 = 0x01 ∨ m.PORTD &&& 0x07 = 0x02 ∨ m.PORTD &&& 0x07 = 0x04) ∧
  (m.PORTD &&& 0x38 = 0x08 ∨ m.PORTD &&& 0x38 = 0x10 ∨ m.PORTD &&& 0x38 = 0x20)

/-- The readings of a run in which a vehicle stands in front of both sensors at every pulse:
`read_adc` returns `0x20` on every channel. -/
def carsWaiting : Nat → Nat → Nat := fun _ _ => 0x20

/-- The registers the complete system reaches after `n` scheduler pulses followed by the
first `j` tasks of the next pulse (`j = 0`: at the pulse boundary), for the readings
`read_adc`. -/
def reachedRegs (read_adc : Nat → Nat → Nat) (n j : Nat) : Machine :=
  (pulse (read_adc n) ((runPulses read_adc n (mainTasks 1 10 1 10, initMachine)).1.take j)
    (runPulses read_adc n (mainTasks 1 10 1 10, initMachine)).2).2

/-! ## Scheduler: elapsed time and observed calls -/

theorem pulse_sched {I W : Type} (inp : I) (ts : List (task I W)) (w : W) :
    (pulse inp ts w).1.map sched = (ts.map sched).map (fun p => (p.1, nextElapsed p.1 p.2)) := by
  induction ts generalizing w with
  | nil => rfl
  | cons t ts ih =>
    simp only [pulse, List.map_cons, ih, List.cons.injEq, and_true]
    unfold schedTask sched nextElapsed
    split_ifs <;> rfl

theorem runPulses_sched {I W : Type} (inps : Nat → I) (n : Nat) (ts : List (task I W)) (w : W) :
    (runPulses inps n (ts, w)).1.map sched
      = (ts.map sched).map (fun p => (p.1, (nextElapsed p.1)^[n] p.2)) := by
  induction n with
  | zero => simp [runPulses]
  | succ n ih =>
    simp only [runPulses, pulse_sched, ih, List.map_map]
    apply List.map_congr_left
    intro p _
    simp [Function.iterate_succ_apply']

theorem pulse_logAll {I W : Type} (inp : I) (ts : List (task I W)) (k : Nat) (w : W)
    (l : List Nat) :
    pulse inp (logAll k ts) (w, l)
      = (logAll k (pulse inp ts w).1, ((pulse inp ts w).2, l ++ dueIdx k (ts.map sched))) := by
  induction ts generalizing k w l with
  | nil => simp [pulse, logAll, dueIdx]
  | cons t ts ih =>
    simp only [pulse, logAll, List.map_cons, dueIdx]
    by_cases h : t.elapsedTime = t.period
    · have h1 : schedTask inp (logged k t) (w, l)
          = (logged k (schedTask inp t w).1, ((schedTask inp t w).2, l ++ [k])) := by
        simp [schedTask, logged, h]
      rw [h1, ih]
      simp [sched, h, List.append_assoc]
    · have h1 : schedTask inp (logged k t) (w, l)
          = (logged k (schedTask inp t w).1, ((schedTask inp t w).2, l)) := by
        simp [schedTask, logged, h]
      rw [h1, ih]
      simp [sched, h]

theorem runPulses_logAll {I W : Type} (inps : Nat → I) (n : Nat) (ts : List (task I W)) (w : W)
    (l : List Nat) :
    ∃ l', runPulses inps n (logAll 0 ts, (w, l))
      = (logAll 0 (runPulses inps n (ts, w)).1, ((runPulses inps n (ts, w)).2, l')) := by
  induction n with
  | zero => exact ⟨l, rfl⟩
  | succ n ih =>
    obtain ⟨l', h⟩ := ih
    refine ⟨l' ++ dueIdx 0 ((runPulses inps n (ts, w)).1.map sched), ?_⟩
    simp only [runPulses, h, pulse_logAll]

theorem dueIdx_ge (ps : List (Nat × Nat)) (k i : Nat) (h : i ∈ dueIdx k ps) : k ≤ i := by
  induction ps generalizing k with
  | nil => simp [dueIdx] at h
  | cons p ps ih =>
    simp only [dueIdx, List.mem_append] at h
    rcases h with h | h
    · split_ifs at h <;> simp at h
      omega
    · have := ih (k + 1) h
      omega

theorem dueIdx_nodup (ps : List (Nat × Nat)) (k : Nat) : (dueIdx k ps).Nodup := by
  induction ps generalizing k with
  | nil => simp [dueIdx]
  | cons p ps ih =>
    simp only [dueIdx]
    refine List.Nodup.append ?_ (ih (k + 1)) ?_
    · split_ifs <;> simp
    · intro a ha hb
      have h1 := dueIdx_ge ps (k + 1) a hb
      split_ifs at ha <;> simp at ha
      omega

theorem mem_dueIdx (ps : List (Nat × Nat)) (k i : Nat) (p : Nat × Nat) (h : ps[i]? = some p) :
    k + i ∈ dueIdx k ps ↔ p.2 = p.1 := by
  induction ps generalizing k i with
  | nil => simp at h
  | cons q ps ih =>
    simp only [dueIdx, List.mem_append]
    cases i with
    | zero =>
      simp only [List.getElem?_cons_zero, Option.some.injEq] at h
      subst h
      constructor
      · rintro (h | h)
        · split_ifs at h with hq
          · exact hq
          · simp at h
        · have := dueIdx_ge ps (k + 1) _ h
          omega
      · intro hq
        left
        simp [hq]
    | succ i =>
      simp only [List.getElem?_cons_succ] at h
      have := ih (k + 1) i h
      have e : k + (i + 1) = k + 1 + i := by omega
      rw [e]
      constructor
      · rintro (h' | h')
        · split_ifs at h' <;> simp at h'
          omega
        · exact this.mp h'
      · intro hp
        right
        exact this.mpr hp

theorem nextElapsed_le (P e : Nat) (hP : 1 ≤ P) (he : e ≤ P) : nextElapsed P e ≤ P := by
  unfold nextElapsed
  split_ifs with h
  · simpa using hP
  · have : (e + 1) % 2 ^ 32 ≤ e + 1 := Nat.mod_le _ _
    omega

theorem iterate_nextElapsed_le (P : Nat) (hP : 1 ≤ P) (n : Nat) :
    (nextElapsed P)^[n] P ≤ P := by
  induction n with
  | zero => simp
  | succ n ih =>
    rw [Function.iterate_succ_apply']
    exact nextElapsed_le P _ hP ih

theorem runPulses_getElem? {I W : Type} (inps : Nat → I) (n : Nat) (ts : List (task I W)) (w : W)
    (i : Nat) (t0 : task I W) (h : ts[i]? = some t0) :
    ∃ t, (runPulses inps n (ts, w)).1[i]? = some t ∧ t.period = t0.period ∧
      t.elapsedTime = (nextElapsed t0.period)^[n] t0.elapsedTime := by
  have key := congrArg (fun l => l[i]?) (runPulses_sched inps n ts w)
  simp only [List.getElem?_map, h, Option.map_some'] at key
  cases hr : (runPulses inps n (ts, w)).1[i]? with
  | none => simp [hr] at key
  | some t =>
    refine ⟨t, rfl, ?_⟩
    simp only [hr, Option.map_some', Option.some.injEq, sched, Prod.mk.injEq] at key
    exact key

/-- C1. Scheduler invariant: when every task starts with `elapsedTime = period` and
`period ≥ 1`, then after any number `n` of pulses every task still has its period and
`0 ≤ elapsedTime ≤ period`; and in the pulse that follows, the tick function of task `i` is
called (its index enters the call log, at most once) exactly when `elapsedTime = period`
holds for it at the start of that pulse. -/
theorem scheduler_invariant {I W : Type} (ts : List (task I W)) (w : W) (inps : Nat → I)
    (h : ∀ t ∈ ts, 1 ≤ t.period ∧ t.elapsedTime = t.period) (n : Nat) :
    (∀ (i : Nat) (t0 : task I W), ts[i]? = some t0 →
      ∃ t : task I W, (runPulses inps n (ts, w)).1[i]? = some t ∧ t.period = t0.period ∧
        0 ≤ t.elapsedTime ∧ t.elapsedTime ≤ t0.period) ∧
    (∀ l : List Nat, ∃ added : List Nat,
      (pulse (inps n) (logAll 0 (runPulses inps n (ts, w)).1)
          ((runPulses inps n (ts, w)).2, l)).2.2 = l ++ added ∧
      added.Nodup ∧
      ∀ (i : Nat) (t : task I W), (runPulses inps n (ts, w)).1[i]? = some t →
        (i ∈ added ↔ t.elapsedTime = t.period)) := by
  constructor
  · intro i t0 hi
    obtain ⟨t, ht, hp, he⟩ := runPulses_getElem? inps n ts w i t0 hi
    have hmem : t0 ∈ ts := List.getElem?_mem hi
    obtain ⟨h1, h2⟩ := h t0 hmem
    refine ⟨t, ht, hp, Nat.zero_le _, ?_⟩
    rw [he, h2]
    exact iterate_nextElapsed_le _ h1 n
  · intro l
    refine ⟨dueIdx 0 ((runPulses inps n (ts, w)).1.map sched), ?_, dueIdx_nodup _ _, ?_⟩
    · rw [pulse_logAll]
    · intro i t hi
      have hm : ((runPulses inps n (ts, w)).1.map sched)[i]? = some (sched t) := by
        simp [List.getElem?_map, hi]
      have := mem_dueIdx _ 0 i (sched t) hm
      simpa [sched] using this

/-- A witness of `scheduler_invariant`: the task array of `main` with the reduced periods
`1, 10, 1, 10`, after three pulses with both sensors reading `0x50`. -/
theorem scheduler_invariant_witness :
    (∀ t ∈ mainTasks 1 10 1 10, 1 ≤ t.period ∧ t.elapsedTime = t.period) ∧
    ((∀ (i : Nat) (t0 : task (Nat → Nat) Machine), (mainTasks 1 10 1 10)[i]? = some t0 →
      ∃ t : task (Nat → Nat) Machine,
        (runPulses (fun _ _ => 0x50) 3 (mainTasks 1 10 1 10, initMachine)).1[i]? = some t ∧
        t.period = t0.period ∧ 0 ≤ t.elapsedTime ∧ t.elapsedTime ≤ t0.period) ∧
    (∀ l : List Nat, ∃ added : List Nat,
      (pulse ((fun _ _ => 0x50 : Nat → Nat → Nat) 3)
          (logAll 0 (runPulses (fun _ _ => 0x50) 3 (mainTasks 1 10 1 10, initMachine)).1)
          ((runPulses (fun _ _ => 0x50) 3 (mainTasks 1 10 1 10, initMachine)).2, l)).2.2
        = l ++ added ∧
      added.Nodup ∧
      ∀ (i : Nat) (t : task (Nat → Nat) Machine),
        (runPulses (fun _ _ => 0x50) 3 (mainTasks 1 10 1 10, initMachine)).1[i]? = some t →
        (i ∈ added ↔ t.elapsedTime = t.period))) :=
  ⟨by simp [mainTasks],
   scheduler_invariant (mainTasks 1 10 1 10) initMachine (fun _ _ => 0x50)
    (by simp [mainTasks]) 3⟩

/-! ## Period reduction: `findGCD` computes the greatest common divisor -/

theorem findGCD_eq_gcd (a b : Nat) (hb : 0 < b) : findGCD a b = some (Nat.gcd a b) := by
  induction b using Nat.strong_induction_on generalizing a with
  | _ b ih =>
    rw [findGCD]
    have hb0 : b ≠ 0 := Nat.pos_iff_ne_zero.mp hb
    simp only [hb0, if_false]
    by_cases hc : a % b = 0
    · simp only [hc, if_true]
      rw [Nat.gcd_eq_right (Nat.dvd_of_mod_eq_zero hc)]
    · simp only [hc, if_false]
      rw [ih (a % b) (Nat.mod_lt a hb) b (Nat.pos_of_ne_zero hc)]
      congr 1
      rw [Nat.gcd_comm a b, Nat.gcd_rec b a, Nat.gcd_comm]

theorem reducePeriods_eq (p1 p2 p3 p4 : Nat) (h2 : 0 < p2) (h3 : 0 < p3) (h4 : 0 < p4) :
    reducePeriods p1 p2 p3 p4
      = some (Nat.gcd (Nat.gcd (Nat.gcd p1 p2) p3) p4,
          p1 / Nat.gcd (Nat.gcd (Nat.gcd p1 p2) p3) p4,
          p2 / Nat.gcd (Nat.gcd (Nat.gcd p1 p2) p3) p4,
          p3 / Nat.gcd (Nat.gcd (Nat.gcd p1 p2) p3) p4,
          p4 / Nat.gcd (Nat.gcd (Nat.gcd p1 p2) p3) p4) := by
  simp only [reducePeriods, findGCD_eq_gcd _ _ h2, findGCD_eq_gcd _ _ h3, findGCD_eq_gcd _ _ h4]

theorem mainSetup_eq : mainSetup = some (50, mainTasks 1 10 1 10, initMachine) := by
  have h := reducePeriods_eq 50 500 50 500 (by decide) (by decide) (by decide)
  norm_num at h
  unfold mainSetup
  rw [h]

/-- C3. Period Reducer correctness: for all positive periods the three chained `findGCD`
calls of `main` all return (no division by zero, and the loop terminates since `findGCD` is a
total function), the result `g` divides each period, every common divisor of the four
periods divides `g`, each tick count `p / g` is exact and at least 1; for the configured
periods 50, 500, 50, 500 the base unit is 50 and the tick counts are 1, 10, 1, 10. -/
theorem period_reducer_correct :
    (∀ p1 p2 p3 p4 : Nat, 0 < p1 → 0 < p2 → 0 < p3 → 0 < p4 →
      ∃ t1 t2 g : Nat, findGCD p1 p2 = some t1 ∧ findGCD t1 p3 = some t2 ∧
        findGCD t2 p4 = some g ∧
        reducePeriods p1 p2 p3 p4 = some (g, p1 / g, p2 / g, p3 / g, p4 / g) ∧
        g ∣ p1 ∧ g ∣ p2 ∧ g ∣ p3 ∧ g ∣ p4 ∧
        (∀ d : Nat, d ∣ p1 → d ∣ p2 → d ∣ p3 → d ∣ p4 → d ∣ g) ∧
        p1 / g * g = p1 ∧ p2 / g * g = p2 ∧ p3 / g * g = p3 ∧ p4 / g * g = p4 ∧
        1 ≤ p1 / g ∧ 1 ≤ p2 / g ∧ 1 ≤ p3 / g ∧ 1 ≤ p4 / g) ∧
    reducePeriods 50 500 50 500 = some (50, 1, 10, 1, 10) := by
  constructor
  · intro p1 p2 p3 p4 h1 h2 h3 h4
    have d12 : Nat.gcd (Nat.gcd (Nat.gcd p1 p2) p3) p4 ∣ Nat.gcd p1 p2 :=
      (Nat.gcd_dvd_left _ p4).trans (Nat.gcd_dvd_left _ p3)
    have d1 : Nat.gcd (Nat.gcd (Nat.gcd p1 p2) p3) p4 ∣ p1 := d12.trans (Nat.gcd_dvd_left p1 p2)
    have d2 : Nat.gcd (Nat.gcd (Nat.gcd p1 p2) p3) p4 ∣ p2 := d12.trans (Nat.gcd_dvd_right p1 p2)
    have d3 : Nat.gcd (Nat.gcd (Nat.gcd p1 p2) p3) p4 ∣ p3 :=
      (Nat.gcd_dvd_left _ p4).trans (Nat.gcd_dvd_right _ p3)
    have d4 : Nat.gcd (Nat.gcd (Nat.gcd p1 p2) p3) p4 ∣ p4 := Nat.gcd_dvd_right _ p4
    have gpos : 0 < Nat.gcd (Nat.gcd (Nat.gcd p1 p2) p3) p4 := Nat.gcd_pos_of_pos_right _ h4
    refine ⟨Nat.gcd p1 p2, Nat.gcd (Nat.gcd p1 p2) p3, Nat.gcd (Nat.gcd (Nat.gcd p1 p2) p3) p4,
      findGCD_eq_gcd _ _ h2, findGCD_eq_gcd _ _ h3, findGCD_eq_gcd _ _ h4,
      reducePeriods_eq p1 p2 p3 p4 h2 h3 h4, d1, d2, d3, d4, ?_,
      Nat.div_mul_cancel d1, Nat.div_mul_cancel d2, Nat.div_mul_cancel d3, Nat.div_mul_cancel d4,
      ?_, ?_, ?_, ?_⟩
    · intro d e1 e2 e3 e4
      exact Nat.dvd_gcd (Nat.dvd_gcd (Nat.dvd_gcd e1 e2) e3) e4
    · exact (Nat.one_le_div_iff gpos).mpr (Nat.le_of_dvd h1 d1)
    · exact (Nat.one_le_div_iff gpos).mpr (Nat.le_of_dvd h2 d2)
    · exact (Nat.one_le_div_iff gpos).mpr (Nat.le_of_dvd h3 d3)
    · exact (Nat.one_le_div_iff gpos).mpr (Nat.le_of_dvd h4 d4)
  · have h := reducePeriods_eq 50 500 50 500 (by decide) (by decide) (by decide)
    norm_num at h
    exact h

/-- A witness of `period_reducer_correct` at the periods 12, 18, 30, 42. -/
theorem period_reducer_correct_witness :
    ∃ t1 t2 g : Nat, findGCD 12 18 = some t1 ∧ findGCD t1 30 = some t2 ∧
      findGCD t2 42 = some g ∧
      reducePeriods 12 18 30 42 = some (g, 12 / g, 18 / g, 30 / g, 42 / g) ∧
      g ∣ 12 ∧ g ∣ 18 ∧ g ∣ 30 ∧ g ∣ 42 ∧
      (∀ d : Nat, d ∣ 12 → d ∣ 18 → d ∣ 30 → d ∣ 42 → d ∣ g) ∧
      12 / g * g = 12 ∧ 18 / g * g = 18 ∧ 30 / g * g = 30 ∧ 42 / g * g = 42 ∧
      1 ≤ 12 / g ∧ 1 ≤ 18 / g ∧ 1 ≤ 30 / g ∧ 1 ≤ 42 / g :=
  period_reducer_correct.1 12 18 30 42 (by decide) (by decide) (by decide) (by decide)

/-! ## Periodic firing -/

theorem succ_mod_cases (n P : Nat) (hP : 1 ≤ P) :
    (n % P + 1 = P ∧ (n + 1) % P = 0) ∨ (n % P + 1 < P ∧ (n + 1) % P = n % P + 1) := by
  have hr : n % P < P := Nat.mod_lt n hP
  have hdm : P * (n / P) + n % P = n := Nat.div_add_mod n P
  by_cases h2 : n % P + 1 = P
  · left
    refine ⟨h2, ?_⟩
    have e : n + 1 = P * (n / P + 1) := by
      rw [Nat.mul_add, Nat.mul_one]
      omega
    rw [e, Nat.mul_mod_right]
  · right
    have hlt : n % P + 1 < P := by omega
    refine ⟨hlt, ?_⟩
    have e : n + 1 = n % P + 1 + P * (n / P) := by omega
    rw [e, Nat.add_mul_mod_self_left, Nat.mod_eq_of_lt hlt]

theorem iterate_nextElapsed_eq (P : Nat) (hP : 1 ≤ P) (hlt : P < 2 ^ 32) (n : Nat) :
    (nextElapsed P)^[n] P = if n % P = 0 then P else n % P := by
  induction n with
  | zero => simp
  | succ n ih =>
    rw [Function.iterate_succ_apply', ih]
    have hr : n % P < P := Nat.mod_lt n hP
    rcases succ_mod_cases n P hP with ⟨h1, h2⟩ | ⟨h1, h2⟩
    · have h0 : n % P ≠ 0 ∨ P = 1 := by omega
      rcases h0 with h0 | h0
      · have hne : n % P ≠ P := by omega
        have hsmall : (n % P + 1) % 2 ^ 32 = n % P + 1 := Nat.mod_eq_of_lt (by omega)
        simp only [h0, if_false, nextElapsed, hne, hsmall, h2, if_true, h1, Nat.mod_eq_of_lt hlt]
      · subst h0
        simp [nextElapsed, Nat.mod_one]
    · have hs : (n + 1) % P ≠ 0 := by omega
      simp only [h2, Nat.succ_ne_zero, if_false]
      by_cases h0 : n % P = 0
      · simp [h0, nextElapsed]
      · have hne : n % P ≠ P := by omega
        have hsmall : (n % P + 1) % 2 ^ 32 = n % P + 1 := Nat.mod_eq_of_lt (by omega)
        simp only [h0, if_false, nextElapsed, hne, hsmall]

theorem runPulses_log_succ {I W : Type} (inps : Nat → I) (n : Nat) (ts : List (task I W))
    (w : W) (l0 : List Nat) :
    (runPulses inps (n + 1) (logAll 0 ts, (w, l0))).2.2
      = (runPulses inps n (logAll 0 ts, (w, l0))).2.2
          ++ dueIdx 0 ((ts.map sched).map (fun p => (p.1, (nextElapsed p.1)^[n] p.2))) := by
  obtain ⟨l', h⟩ := runPulses_logAll inps n ts w l0
  simp only [runPulses, h, pulse_logAll, runPulses_sched]

/-- C2. Periodic firing: when every task starts with `elapsedTime = period`, with
`1 ≤ period < 2 ^ 32`, the calls observed during pulse `n` (pulses counted from 0) are
those of the tasks whose period divides `n`, each called once. For the program itself
(`mainSetup`, reduced periods 1, 10, 1, 10) the calls of pulse `n` are, in order, those of
tasks 0 to 3 (`SMTick1`, `SMTick2`, `SMTick3`, `SMTick4`) when 10 divides `n` and those of
tasks 0 and 2 (`SMTick1`, `SMTick3`) otherwise. -/
theorem periodic_firing {I W : Type} (ts : List (task I W)) (w : W) (inps : Nat → I)
    (h : ∀ t ∈ ts, 1 ≤ t.period ∧ t.period < 2 ^ 32 ∧ t.elapsedTime = t.period) (n : Nat) :
    (∃ added : List Nat,
      (runPulses inps (n + 1) (logAll 0 ts, (w, []))).2.2
        = (runPulses inps n (logAll 0 ts, (w, []))).2.2 ++ added ∧
      added.Nodup ∧
      ∀ (i : Nat) (t : task I W), ts[i]? = some t → (i ∈ added ↔ t.period ∣ n)) ∧
    (∃ (g : Nat) (tsM : List (task (Nat → Nat) Machine)) (m0 : Machine),
      mainSetup = some (g, tsM, m0) ∧
      tsM.map (fun t => t.period) = [1, 10, 1, 10] ∧
      ∀ read_adc : Nat → Nat → Nat,
        (runPulses read_adc (n + 1) (logAll 0 tsM, (m0, []))).2.2
          = (runPulses read_adc n (logAll 0 tsM, (m0, []))).2.2
              ++ (if 10 ∣ n then [0, 1, 2, 3] else [0, 2])) := by
  constructor
  · refine ⟨_, runPulses_log_succ inps n ts w [], dueIdx_nodup _ _, ?_⟩
    intro i t hi
    obtain ⟨h1, h2, h3⟩ := h t (List.getElem?_mem hi)
    have hm : ((ts.map sched).map (fun p => (p.1, (nextElapsed p.1)^[n] p.2)))[i]?
        = some (t.period, (nextElapsed t.period)^[n] t.elapsedTime) := by
      simp [List.getElem?_map, hi, sched]
    have key := mem_dueIdx _ 0 i _ hm
    rw [Nat.zero_add] at key
    rw [key, h3, iterate_nextElapsed_eq _ h1 h2, Nat.dvd_iff_mod_eq_zero]
    have hr : n % t.period < t.period := Nat.mod_lt n h1
    constructor
    · intro e
      by_contra hne
      simp only [hne, if_false] at e
      omega
    · intro e
      simp [e]
  · refine ⟨50, mainTasks 1 10 1 10, initMachine, mainSetup_eq, by simp [mainTasks], ?_⟩
    intro read_adc
    rw [runPulses_log_succ]
    congr 1
    have e1 := iterate_nextElapsed_eq 1 (by decide) (by decide) n
    have e10 := iterate_nextElapsed_eq 10 (by decide) (by decide) n
    simp only [Nat.mod_one, if_true] at e1
    have hr : n % 10 < 10 := Nat.mod_lt n (by decide)
    by_cases hd : 10 ∣ n
    · have h0 : n % 10 = 0 := Nat.mod_eq_zero_of_dvd hd
      simp only [h0, if_true] at e10
      simp [mainTasks, sched, dueIdx, e1, e10, hd]
    · have h0 : n % 10 ≠ 0 := fun e => hd (Nat.dvd_of_mod_eq_zero e)
      simp only [h0, if_false] at e10
      have hne : n % 10 ≠ 10 := by omega
      simp [mainTasks, sched, dueIdx, e1, e10, hd, hne]

/-- A witness of `periodic_firing`: the task array of `main` at pulse 20. -/
theorem periodic_firing_witness :
    (∀ t ∈ mainTasks 1 10 1 10, 1 ≤ t.period ∧ t.period < 2 ^ 32 ∧ t.elapsedTime = t.period) ∧
    ((∃ added : List Nat,
      (runPulses (fun _ _ => 0x20) (20 + 1) (logAll 0 (mainTasks 1 10 1 10), (initMachine, []))).2.2
        = (runPulses (fun _ _ => 0x20) 20
            (logAll 0 (mainTasks 1 10 1 10), (initMachine, []))).2.2 ++ added ∧
      added.Nodup ∧
      ∀ (i : Nat) (t : task (Nat → Nat) Machine), (mainTasks 1 10 1 10)[i]? = some t →
        (i ∈ added ↔ t.period ∣ 20)) ∧
    (∃ (g : Nat) (tsM : List (task (Nat → Nat) Machine)) (m0 : Machine),
      mainSetup = some (g, tsM, m0) ∧
      tsM.map (fun t => t.period) = [1, 10, 1, 10] ∧
      ∀ read_adc : Nat → Nat → Nat,
        (runPulses read_adc (20 + 1) (logAll 0 tsM, (m0, []))).2.2
          = (runPulses read_adc 20 (logAll 0 tsM, (m0, []))).2.2
              ++ (if 10 ∣ 20 then [0, 1, 2, 3] else [0, 2]))) :=
  ⟨by simp [mainTasks],
   periodic_firing (mainTasks 1 10 1 10) initMachine (fun _ _ => 0x20) (by simp [mainTasks]) 20⟩

/-! ## Approach machine, lane 1 -/

theorem land_BF_lor_40_testBit (x i : Nat) (hi : i < 8) :
    (((x &&& 0xBF) ||| 0x40) % 256).testBit i = (decide (i = 6) || x.testBit i) := by
  simp only [show (256 : Nat) = 2 ^ 8 from rfl, Nat.testBit_mod_two_pow, Nat.testBit_or,
    Nat.testBit_and]
  interval_cases i <;> simp [Nat.testBit]

/-- C4. Grant step of the approach machine: a call of `SMTick1` in `SM1_waited` with
`good_to_go = 1` returns `SM1_wait`, clears `PORTB`, sets bit 6 of `PORTD` and leaves the
other bits of the 8-bit register as they were, clears `car_waiting` and resets `cnt`; with
`good_to_go = 0` it returns `SM1_waited` with `car_waiting = 1` and `PORTB`, `PORTD` and
`cnt` unchanged. -/
theorem grant_step (adc0 : Nat) (m : Machine) :
    (m.good_to_go = 1 →
      (SMTick1 adc0 SM1_waited m).1 = SM1_wait ∧
      (SMTick1 adc0 SM1_waited m).2.PORTB = 0 ∧
      (SMTick1 adc0 SM1_waited m).2.PORTD.testBit 6 = true ∧
      (∀ i : Nat, i < 8 → i ≠ 6 →
        (SMTick1 adc0 SM1_waited m).2.PORTD.testBit i = m.PORTD.testBit i) ∧
      (SMTick1 adc0 SM1_waited m).2.PORTD < 256 ∧
      (SMTick1 adc0 SM1_waited m).2.car_waiting = 0 ∧
      (SMTick1 adc0 SM1_waited m).2.cnt = 0) ∧
    (m.good_to_go = 0 →
      (SMTick1 adc0 SM1_waited m).1 = SM1_waited ∧
      (SMTick1 adc0 SM1_waited m).2.car_waiting = 1 ∧
      (SMTick1 adc0 SM1_waited m).2.PORTB = m.PORTB ∧
      (SMTick1 adc0 SM1_waited m).2.PORTD = m.PORTD ∧
      (SMTick1 adc0 SM1_waited m).2.cnt = m.cnt) := by
  constructor
  · intro hg
    have e : SMTick1 adc0 SM1_waited m
        = (SM1_wait, { m with adc0_value := adc0 % 2 ^ 16, PORTB := 0,
                              PORTD := ((m.PORTD &&& 0xBF) ||| 0x40) % 256,
                              car_waiting := 0, cnt := 0 }) := by
      simp [SMTick1, SMTick1_transitions, SMTick1_actions, SM1_init, SM1_wait, SM1_sensed_car,
        SM1_moving_car, SM1_moving_car_8, SM1_waited, hg]
    rw [e]
    refine ⟨rfl, rfl, ?_, ?_, ?_, rfl, rfl⟩
    · simp only [land_BF_lor_40_testBit m.PORTD 6 (by decide)]
      simp
    · intro i hi h6
      simp only [land_BF_lor_40_testBit m.PORTD i hi]
      simp [h6]
    · exact Nat.mod_lt _ (by decide)
  · intro hg
    have e : SMTick1 adc0 SM1_waited m
        = (SM1_waited, { m with adc0_value := adc0 % 2 ^ 16, car_waiting := 1 }) := by
      simp [SMTick1, SMTick1_transitions, SMTick1_actions, SM1_init, SM1_wait, SM1_sensed_car,
        SM1_moving_car, SM1_moving_car_8, SM1_waited, hg]
    rw [e]
    exact ⟨rfl, rfl, rfl, rfl, rfl⟩

/-- A witness of `grant_step`: a vehicle at the line with the light granted (first part) and
with the light not yet granted (second part). -/
theorem grant_step_witness :
    (atLineGranted.good_to_go = 1 ∧
      (SMTick1 0x20 SM1_waited atLineGranted).1 = SM1_wait ∧
      (SMTick1 0x20 SM1_waited atLineGranted).2.PORTB = 0 ∧
      (SMTick1 0x20 SM1_waited atLineGranted).2.PORTD = 0x61 ∧
      (SMTick1 0x20 SM1_waited atLineGranted).2.car_waiting = 0 ∧
      (SMTick1 0x20 SM1_waited atLineGranted).2.cnt = 0) ∧
    (atLineWaiting.good_to_go = 0 ∧
      (SMTick1 0x20 SM1_waited atLineWaiting).1 = SM1_waited ∧
      (SMTick1 0x20 SM1_waited atLineWaiting).2.car_waiting = 1 ∧
      (SMTick1 0x20 SM1_waited atLineWaiting).2.PORTB = 0x80 ∧
      (SMTick1 0x20 SM1_waited atLineWaiting).2.PORTD = 0x24 ∧
      (SMTick1 0x20 SM1_waited atLineWaiting).2.cnt = 11) := by
  have hG := (grant_step 0x20 atLineGranted).1 rfl
  have hW := (grant_step 0x20 atLineWaiting).2 rfl
  refine ⟨⟨rfl, hG.1, hG.2.1, by decide, hG.2.2.2.2.2.1, hG.2.2.2.2.2.2⟩,
    ⟨rfl, hW.1, hW.2.1, hW.2.2.1, hW.2.2.2.1, hW.2.2.2.2⟩⟩

theorem tick1_init (s : Nat) (m : Machine) :
    SMTick1 s SM1_init m = (SM1_wait, { m with adc0_value := s % 2 ^ 16 }) := by
  simp [SMTick1, SMTick1_transitions, SMTick1_actions, SM1_init, SM1_wait]

theorem tick1_wait_lt (s : Nat) (m : Machine) (h : s % 2 ^ 16 < 0x35) :
    (SMTick1 s SM1_wait m).1 = SM1_sensed_car ∧ (SMTick1 s SM1_wait m).2.PORTB = 1 ∧
    (SMTick1 s SM1_wait m).2.cnt = 0 ∧
    (SMTick1 s SM1_wait m).2.car_waiting = m.car_waiting := by
  have ha : s % 65536 < almost := by simpa [almost, min_val] using h
  by_cases hc : 10 < m.cnt <;>
    simp [SMTick1, SMTick1_transitions, SMTick1_actions, SM1_init, SM1_wait, SM1_sensed_car,
      SM1_moving_car, SM1_moving_car_8, SM1_waited, ha, hc]

theorem tick1_wait_ge (s : Nat) (m : Machine) (h : ¬ s % 2 ^ 16 < 0x35) :
    (SMTick1 s SM1_wait m).1 = SM1_wait ∧ (SMTick1 s SM1_wait m).2.PORTB = m.PORTB ∧
    (SMTick1 s SM1_wait m).2.cnt = (m.cnt + 1) % 256 ∧
    (SMTick1 s SM1_wait m).2.car_waiting = m.car_waiting := by
  have ha : ¬ s % 65536 < almost := by simpa [almost, min_val] using h
  have hb : almost ≤ s % 65536 := Nat.le_of_not_lt ha
  by_cases hc : 10 < m.cnt <;>
    simp [SMTick1, SMTick1_transitions, SMTick1_actions, SM1_init, SM1_wait, SM1_sensed_car,
      SM1_moving_car, SM1_moving_car_8, SM1_waited, ha, hb, hc]

theorem tick1_sensed (s : Nat) (m : Machine) :
    SMTick1 s SM1_sensed_car m
      = (SM1_moving_car, { m with adc0_value := s % 2 ^ 16, PORTB := (m.PORTB <<< 1) % 256 }) := by
  simp [SMTick1, SMTick1_transitions, SMTick1_actions, SM1_init, SM1_wait, SM1_sensed_car,
    SM1_moving_car, SM1_moving_car_8, SM1_waited]

theorem tick1_moving (s : Nat) (m : Machine) (h : m.PORTB ≠ 0x80) :
    SMTick1 s SM1_moving_car m
      = (SM1_moving_car, { m with adc0_value := s % 2 ^ 16, PORTB := (m.PORTB <<< 1) % 256 }) := by
  simp [SMTick1, SMTick1_transitions, SMTick1_actions, SM1_init, SM1_wait, SM1_sensed_car,
    SM1_moving_car, SM1_moving_car_8, SM1_waited, h]

theorem tick1_moving_end (s : Nat) (m : Machine) (h : m.PORTB = 0x80) :
    SMTick1 s SM1_moving_car m
      = (SM1_moving_car_8, { m with adc0_value := s % 2 ^ 16, cnt := 0 }) := by
  simp [SMTick1, SMTick1_transitions, SMTick1_actions, SM1_init, SM1_wait, SM1_sensed_car,
    SM1_moving_car, SM1_moving_car_8, SM1_waited, h]

theorem tick1_hold (s : Nat) (m : Machine) (h : m.cnt < 10) :
    SMTick1 s SM1_moving_car_8 m
      = (SM1_moving_car_8, { m with adc0_value := s % 2 ^ 16, cnt := (m.cnt + 1) % 256 }) := by
  simp [SMTick1, SMTick1_transitions, SMTick1_actions, SM1_init, SM1_wait, SM1_sensed_car,
    SM1_moving_car, SM1_moving_car_8, SM1_waited, h]

theorem tick1_hold_end (s : Nat) (m : Machine) (h : ¬ m.cnt < 10) :
    SMTick1 s SM1_moving_car_8 m
      = (SM1_waited, { m with adc0_value := s % 2 ^ 16, cnt := (m.cnt + 1) % 256,
                              car_waiting := 1 }) := by
  simp [SMTick1, SMTick1_transitions, SMTick1_actions, SM1_init, SM1_wait, SM1_sensed_car,
    SM1_moving_car, SM1_moving_car_8, SM1_waited, h]

theorem tick1_waited_no (s : Nat) (m : Machine) (h : m.good_to_go ≠ 1) :
    SMTick1 s SM1_waited m
      = (SM1_waited, { m with adc0_value := s % 2 ^ 16, car_waiting := 1 }) := by
  simp [SMTick1, SMTick1_transitions, SMTick1_actions, SM1_init, SM1_wait, SM1_sensed_car,
    SM1_moving_car, SM1_moving_car_8, SM1_waited, h]

theorem tick1_waited_go (s : Nat) (m : Machine) (h : m.good_to_go = 1) :
    SMTick1 s SM1_waited m
      = (SM1_wait, { m with adc0_value := s % 2 ^ 16, PORTB := 0,
                            PORTD := ((m.PORTD &&& 0xBF) ||| 0x40) % 256,
                            car_waiting := 0, cnt := 0 }) := by
  simp [SMTick1, SMTick1_transitions, SMTick1_actions, SM1_init, SM1_wait, SM1_sensed_car,
    SM1_moving_car, SM1_moving_car_8, SM1_waited, h]

/-- C9. Vehicle detection threshold: for every 16-bit reading `s`, a call of `SMTick1` in
`SM1_wait` returns `SM1_sensed_car` exactly when `s < 0x35` and returns `SM1_wait`
otherwise; with 16-bit readings that all are at least `0x35`, the machine started in
`SM1_wait` is in `SM1_wait` after any number of calls, whatever the counter `cnt` (an
8-bit counter that wraps) and the other variables hold. -/
theorem detection_threshold :
    (∀ (s : Nat) (m : Machine), s < 2 ^ 16 →
      ((SMTick1 s SM1_wait m).1 = SM1_sensed_car ↔ s < 0x35) ∧
      (¬ s < 0x35 → (SMTick1 s SM1_wait m).1 = SM1_wait)) ∧
    (∀ (env : Nat → Nat × Nat) (m : Machine) (n : Nat),
      (∀ k, (env k).1 < 2 ^ 16 ∧ 0x35 ≤ (env k).1) →
      (approachRun env n (SM1_wait, m)).1 = SM1_wait) := by
  constructor
  · intro s m hs
    have hm : s % 2 ^ 16 = s := Nat.mod_eq_of_lt hs
    by_cases h : s < 0x35
    · have := tick1_wait_lt s m (by rw [hm]; exact h)
      simp [this.1, h]
    · have := tick1_wait_ge s m (by rw [hm]; exact h)
      rw [this.1]
      simp [h, SM1_wait, SM1_sensed_car]
  · intro env m n henv
    induction n with
    | zero => rfl
    | succ n ih =>
      obtain ⟨h1, h2⟩ := henv n
      have hm : (env n).1 % 2 ^ 16 = (env n).1 := Nat.mod_eq_of_lt h1
      rw [approachRun, ih]
      exact (tick1_wait_ge _ _ (by rw [hm]; omega)).1

/-- A witness of `detection_threshold`: the readings `0x34` and `0x35`, and 300 calls with
the reading `0x50` from a counter about to wrap. -/
theorem detection_threshold_witness :
    ((0x34 < 2 ^ 16 ∧ (SMTick1 0x34 SM1_wait initMachine).1 = SM1_sensed_car) ∧
     (0x35 < 2 ^ 16 ∧ ¬ 0x35 < 0x35 ∧ (SMTick1 0x35 SM1_wait initMachine).1 = SM1_wait)) ∧
    ((∀ k : Nat, ((fun _ => (0x50, 0) : Nat → Nat × Nat) k).1 < 2 ^ 16 ∧
        0x35 ≤ ((fun _ => (0x50, 0) : Nat → Nat × Nat) k).1) ∧
      (approachRun (fun _ => (0x50, 0)) 300 (SM1_wait, { initMachine with cnt := 250 })).1
        = SM1_wait) :=
  ⟨⟨⟨by decide, ((detection_threshold.1 0x34 initMachine (by decide)).1).mpr (by decide)⟩,
    ⟨by decide, by decide,
      (detection_threshold.1 0x35 initMachine (by decide)).2 (by decide)⟩⟩,
   ⟨fun _ => ⟨by norm_num, by norm_num⟩,
    detection_threshold.2 (fun _ => (0x50, 0)) { initMachine with cnt := 250 } 300
      (fun _ => ⟨by norm_num, by norm_num⟩)⟩⟩

theorem approach_inv (env : Nat → Nat × Nat) (m : Machine) (hB : m.PORTB = 0) (n : Nat) :
    ((approachRun env n (SM1_init, m)).1 = SM1_init ∧
        (approachRun env n (SM1_init, m)).2.PORTB = 0) ∨
    ((approachRun env n (SM1_init, m)).1 = SM1_wait ∧
        (approachRun env n (SM1_init, m)).2.PORTB = 0) ∨
    ((approachRun env n (SM1_init, m)).1 = SM1_sensed_car ∧
        (approachRun env n (SM1_init, m)).2.PORTB = 1) ∨
    ((approachRun env n (SM1_init, m)).1 = SM1_moving_car ∧
        ∃ k, 1 ≤ k ∧ k ≤ 7 ∧ (approachRun env n (SM1_init, m)).2.PORTB = 2 ^ k) ∨
    ((approachRun env n (SM1_init, m)).1 = SM1_moving_car_8 ∧
        (approachRun env n (SM1_init, m)).2.PORTB = 0x80) ∨
    ((approachRun env n (SM1_init, m)).1 = SM1_waited ∧
        (approachRun env n (SM1_init, m)).2.PORTB = 0x80) := by
  induction n with
  | zero => exact Or.inl ⟨rfl, hB⟩
  | succ n ih =>
    generalize hp : approachRun env n (SM1_init, m) = p at ih
    have hstep : approachRun env (n + 1) (SM1_init, m)
        = SMTick1 (env n).1 p.1 { p.2 with good_to_go := (env n).2 } := by
      rw [approachRun, hp]
    rw [hstep]
    rcases ih with ⟨h1, h2⟩ | ⟨h1, h2⟩ | ⟨h1, h2⟩ | ⟨h1, k, hk1, hk7, h2⟩ | ⟨h1, h2⟩ | ⟨h1, h2⟩
    · rw [h1, tick1_init]
      exact Or.inr (Or.inl ⟨rfl, h2⟩)
    · rw [h1]
      by_cases hs : (env n).1 % 2 ^ 16 < 0x35
      · have := tick1_wait_lt (env n).1 { p.2 with good_to_go := (env n).2 } hs
        exact Or.inr (Or.inr (Or.inl ⟨this.1, this.2.1⟩))
      · have := tick1_wait_ge (env n).1 { p.2 with good_to_go := (env n).2 } hs
        exact Or.inr (Or.inl ⟨this.1, this.2.1.trans h2⟩)
    · rw [h1, tick1_sensed]
      refine Or.inr (Or.inr (Or.inr (Or.inl ⟨rfl, 1, le_refl 1, by decide, ?_⟩)))
      simp [h2]
    · rw [h1]
      by_cases h80 : p.2.PORTB = 0x80
      · rw [tick1_moving_end _ _ (by simpa using h80)]
        exact Or.inr (Or.inr (Or.inr (Or.inr (Or.inl ⟨rfl, h80⟩))))
      · rw [tick1_moving _ _ (by simpa using h80)]
        have hk6 : k ≤ 6 := by
          by_contra hc
          have : k = 7 := by omega
          subst this
          exact h80 (by rw [h2]; rfl)
        refine Or.inr (Or.inr (Or.inr (Or.inl ⟨rfl, k + 1, by omega, by omega, ?_⟩)))
        simp only [h2]
        interval_cases k <;> rfl
    · rw [h1]
      by_cases hc : p.2.cnt < 10
      · rw [tick1_hold _ _ (by simpa using hc)]
        exact Or.inr (Or.inr (Or.inr (Or.inr (Or.inl ⟨rfl, h2⟩))))
      · rw [tick1_hold_end _ _ (by simpa using hc)]
        exact Or.inr (Or.inr (Or.inr (Or.inr (Or.inr ⟨rfl, h2⟩))))
    · rw [h1]
      by_cases hg : (env n).2 = 1
      · rw [tick1_waited_go _ _ (by simpa using hg)]
        exact Or.inr (Or.inl ⟨rfl, rfl⟩)
      · rw [tick1_waited_no _ _ (by simpa using hg)]
        exact Or.inr (Or.inr (Or.inr (Or.inr (Or.inr ⟨rfl, h2⟩))))

/-- C10. Position indicator invariant: in every state the approach machine reaches from
`SM1_init` with `PORTB = 0` (and `cnt = 0` or any other counter value), under any sensor
readings and any values of `good_to_go`, `PORTB` is 0 or a single bit of the 8-bit field;
it is 0 whenever the state is `SM1_wait`, and a single bit `2 ^ k`, `k < 8`, whenever the
state is `SM1_sensed_car`, `SM1_moving_car`, `SM1_moving_car_8` or `SM1_waited`. -/
theorem position_indicator_invariant (env : Nat → Nat × Nat) (m : Machine) (n : Nat)
    (hB : m.PORTB = 0) :
    ((approachRun env n (SM1_init, m)).2.PORTB = 0 ∨
      ∃ k, k < 8 ∧ (approachRun env n (SM1_init, m)).2.PORTB = 2 ^ k) ∧
    ((approachRun env n (SM1_init, m)).1 = SM1_wait →
      (approachRun env n (SM1_init, m)).2.PORTB = 0) ∧
    ((approachRun env n (SM1_init, m)).1 = SM1_sensed_car ∨
      (approachRun env n (SM1_init, m)).1 = SM1_moving_car ∨
      (approachRun env n (SM1_init, m)).1 = SM1_moving_car_8 ∨
      (approachRun env n (SM1_init, m)).1 = SM1_waited →
      ∃ k, k < 8 ∧ (approachRun env n (SM1_init, m)).2.PORTB = 2 ^ k) := by
  have inv := approach_inv env m hB n
  generalize approachRun env n (SM1_init, m) = p at inv
  have ne : ∀ a b : Int, p.1 = a → p.1 = b → a = b := fun a b ha hb => ha.symm.trans hb
  rcases inv with ⟨h1, h2⟩ | ⟨h1, h2⟩ | ⟨h1, h2⟩ | ⟨h1, k, hk1, hk7, h2⟩ | ⟨h1, h2⟩ | ⟨h1, h2⟩
  · refine ⟨Or.inl h2, fun _ => h2, ?_⟩
    rintro (h | h | h | h) <;> exact absurd (ne _ _ h1 h) (by decide)
  · refine ⟨Or.inl h2, fun _ => h2, ?_⟩
    rintro (h | h | h | h) <;> exact absurd (ne _ _ h1 h) (by decide)
  · have hk : ∃ k, k < 8 ∧ p.2.PORTB = 2 ^ k := ⟨0, by decide, h2⟩
    exact ⟨Or.inr hk, fun h => absurd (ne _ _ h1 h) (by decide), fun _ => hk⟩
  · have hk : ∃ k, k < 8 ∧ p.2.PORTB = 2 ^ k := ⟨k, by omega, h2⟩
    exact ⟨Or.inr hk, fun h => absurd (ne _ _ h1 h) (by decide), fun _ => hk⟩
  · have hk : ∃ k, k < 8 ∧ p.2.PORTB = 2 ^ k := ⟨7, by decide, h2⟩
    exact ⟨Or.inr hk, fun h => absurd (ne _ _ h1 h) (by decide), fun _ => hk⟩
  · have hk : ∃ k, k < 8 ∧ p.2.PORTB = 2 ^ k := ⟨7, by decide, h2⟩
    exact ⟨Or.inr hk, fun h => absurd (ne _ _ h1 h) (by decide), fun _ => hk⟩

/-- A witness of `position_indicator_invariant`: five calls from the initial state of `main`
with a vehicle in front of the sensor; the machine is advancing and shows a single bit. -/
theorem position_indicator_invariant_witness :
    initMachine.PORTB = 0 ∧
    (approachRun (fun _ => (0x20, 0)) 5 (SM1_init, initMachine)).1 = SM1_moving_car ∧
    ∃ k, k < 8 ∧ (approachRun (fun _ => (0x20, 0)) 5 (SM1_init, initMachine)).2.PORTB = 2 ^ k :=
  ⟨rfl, by decide,
   (position_indicator_invariant (fun _ => (0x20, 0)) initMachine 5 rfl).2.2
    (Or.inr (Or.inl (by decide)))⟩

theorem approachRun_succ (env : Nat → Nat × Nat) (n : Nat) (s0 : Int × Machine) :
    approachRun env (n + 1) s0
      = SMTick1 (env n).1 (approachRun env n s0).1
          { (approachRun env n s0).2 with good_to_go := (env n).2 } := rfl

theorem approach_advancing (env : Nat → Nat × Nat) (s0 : Int × Machine) (b : Nat)
    (hb : (approachRun env b s0).1 = SM1_sensed_car ∧ (approachRun env b s0).2.PORTB = 1)
    (k : Nat) (hk1 : 1 ≤ k) (hk7 : k ≤ 7) :
    (approachRun env (b + k) s0).1 = SM1_moving_car ∧
    (approachRun env (b + k) s0).2.PORTB = 2 ^ k := by
  induction k with
  | zero => omega
  | succ k ih =>
    rw [← Nat.add_assoc, approachRun_succ]
    by_cases h0 : k = 0
    · subst h0
      rw [Nat.add_zero, hb.1, tick1_sensed]
      simp [hb.2]
    · obtain ⟨i1, i2⟩ := ih (by omega) (by omega)
      have hne : (approachRun env (b + k) s0).2.PORTB ≠ 0x80 := by
        rw [i2]
        have : k ≤ 6 := by omega
        interval_cases k <;> decide
      rw [i1, tick1_moving _ _ (by simpa using hne)]
      refine ⟨rfl, ?_⟩
      simp only [i2]
      have : k ≤ 6 := by omega
      interval_cases k <;> rfl

theorem approach_holding (env : Nat → Nat × Nat) (s0 : Int × Machine) (b : Nat)
    (hb : (approachRun env b s0).1 = SM1_moving_car_8 ∧ (approachRun env b s0).2.cnt = 0)
    (j : Nat) (hj : j ≤ 10) :
    (approachRun env (b + j) s0).1 = SM1_moving_car_8 ∧
    (approachRun env (b + j) s0).2.cnt = j := by
  induction j with
  | zero => exact hb
  | succ j ih =>
    obtain ⟨i1, i2⟩ := ih (by omega)
    rw [← Nat.add_assoc, approachRun_succ, i1, tick1_hold _ _ (by simp only [i2]; omega)]
    refine ⟨rfl, ?_⟩
    simp only [i2]
    omega

theorem approach_waiting (env : Nat → Nat × Nat) (s0 : Int × Machine) (b : Nat)
    (hg : ∀ k, (env k).2 = 0)
    (hb : (approachRun env b s0).1 = SM1_waited ∧ (approachRun env b s0).2.car_waiting = 1)
    (n : Nat) (hn : b ≤ n) :
    (approachRun env n s0).1 = SM1_waited ∧ (approachRun env n s0).2.car_waiting = 1 := by
  induction n with
  | zero =>
    have : b = 0 := by omega
    subst this
    exact hb
  | succ n ih =>
    by_cases hbn : b = n + 1
    · subst hbn
      exact hb
    · obtain ⟨i1, _⟩ := ih (by omega)
      rw [approachRun_succ, i1, tick1_waited_no _ _ (by simp [hg n])]
      exact ⟨rfl, rfl⟩

/-- C8. Approach end-to-end trace: started in `SM1_wait` (with `PORTB = 0` and `cnt = 0`, or
any other values of the registers and variables), with `good_to_go = 0` before every call
and the sensor reading `0x50`, then `0x20`, then anything, the successive calls of
`SMTick1` return `SM1_wait`; then `SM1_sensed_car` with
`PORTB = 0x01`; then `SM1_moving_car` on the next 7 calls with `PORTB = 2 ^ k` after the
`k`-th of them (so `0x80` on the 7th and not earlier); then `SM1_moving_car_8` on the next
11 calls (calls 10 to 20); then `SM1_waited` with `car_waiting = 1` on every later call. -/
theorem approach_trace (r : Nat → Nat) (m : Machine) (h0 : r 0 = 0x50) (h1 : r 1 = 0x20) :
    (approachRun (fun k => (r k, 0)) 1 (SM1_wait, m)).1 = SM1_wait ∧
    ((approachRun (fun k => (r k, 0)) 2 (SM1_wait, m)).1 = SM1_sensed_car ∧
      (approachRun (fun k => (r k, 0)) 2 (SM1_wait, m)).2.PORTB = 0x01) ∧
    (∀ k, 1 ≤ k → k ≤ 7 →
      (approachRun (fun k => (r k, 0)) (2 + k) (SM1_wait, m)).1 = SM1_moving_car ∧
      (approachRun (fun k => (r k, 0)) (2 + k) (SM1_wait, m)).2.PORTB = 2 ^ k) ∧
    (∀ n, 10 ≤ n → n ≤ 20 →
      (approachRun (fun k => (r k, 0)) n (SM1_wait, m)).1 = SM1_moving_car_8 ∧
      (approachRun (fun k => (r k, 0)) n (SM1_wait, m)).2.PORTB = 0x80) ∧
    (∀ n, 21 ≤ n →
      (approachRun (fun k => (r k, 0)) n (SM1_wait, m)).1 = SM1_waited ∧
      (approachRun (fun k => (r k, 0)) n (SM1_wait, m)).2.car_waiting = 1) := by
  have t1 := tick1_wait_ge (r 0) { m with good_to_go := 0 } (by rw [h0]; decide)
  have e1 : approachRun (fun k => (r k, 0)) 1 (SM1_wait, m)
      = SMTick1 (r 0) SM1_wait { m with good_to_go := 0 } := rfl
  rw [← e1] at t1
  have t2 := tick1_wait_lt (r 1)
    { (approachRun (fun k => (r k, 0)) 1 (SM1_wait, m)).2 with good_to_go := 0 }
    (by rw [h1]; decide)
  have e2 : approachRun (fun k => (r k, 0)) 2 (SM1_wait, m)
      = SMTick1 (r 1) SM1_wait
          { (approachRun (fun k => (r k, 0)) 1 (SM1_wait, m)).2 with good_to_go := 0 } := by
    rw [approachRun_succ, t1.1]
  rw [← e2] at t2
  have adv := approach_advancing (fun k => (r k, 0)) (SM1_wait, m) 2 ⟨t2.1, t2.2.1⟩
  have a7 := adv 7 (by decide) (by decide)
  have e10 : approachRun (fun k => (r k, 0)) 10 (SM1_wait, m)
      = (SM1_moving_car_8,
          { (approachRun (fun k => (r k, 0)) 9 (SM1_wait, m)).2 with
              good_to_go := 0, adc0_value := r 9 % 2 ^ 16, cnt := 0 }) := by
    rw [approachRun_succ, a7.1, tick1_moving_end _ _ (by simpa using a7.2)]
  have hold := approach_holding (fun k => (r k, 0)) (SM1_wait, m) 10 (by rw [e10]; exact ⟨rfl, rfl⟩)
  have b10 : (approachRun (fun k => (r k, 0)) 10 (SM1_wait, m)).2.PORTB = 0x80 := by
    rw [e10]
    simpa using a7.2
  have h20 := hold 10 (le_refl 10)
  have e21 : approachRun (fun k => (r k, 0)) 21 (SM1_wait, m)
      = (SM1_waited,
          { (approachRun (fun k => (r k, 0)) 20 (SM1_wait, m)).2 with
              good_to_go := 0, adc0_value := r 20 % 2 ^ 16,
              cnt := ((approachRun (fun k => (r k, 0)) 20 (SM1_wait, m)).2.cnt + 1) % 256,
              car_waiting := 1 }) := by
    rw [approachRun_succ, h20.1, tick1_hold_end _ _ (by simp only [h20.2]; decide)]
  refine ⟨t1.1, ⟨t2.1, t2.2.1⟩, adv, ?_, ?_⟩
  · intro n hn1 hn2
    obtain ⟨j, rfl⟩ : ∃ j, n = 10 + j := ⟨n - 10, by omega⟩
    refine ⟨(hold j (by omega)).1, ?_⟩
    clear h20 e21
    induction j with
    | zero => exact b10
    | succ j ih =>
      have hj := hold j (by omega)
      rw [← Nat.add_assoc, approachRun_succ, hj.1,
        tick1_hold _ _ (by simp only [hj.2]; omega)]
      exact ih (by omega) (by omega)
  · intro n hn
    exact approach_waiting (fun k => (r k, 0)) (SM1_wait, m) 21 (fun _ => rfl)
      (by rw [e21]; exact ⟨rfl, rfl⟩) n hn

/-- A witness of `approach_trace`: the reading `0x50` once and `0x20` from then on, from the
initial registers of `main`. -/
theorem approach_trace_witness :
    (fun k => if k = 0 then 0x50 else 0x20 : Nat → Nat) 0 = 0x50 ∧
    (fun k => if k = 0 then 0x50 else 0x20 : Nat → Nat) 1 = 0x20 ∧
    (approachRun (fun k => ((fun k => if k = 0 then 0x50 else 0x20 : Nat → Nat) k, 0)) (2 + 7)
      (SM1_wait, initMachine)).2.PORTB = 2 ^ 7 ∧
    (approachRun (fun k => ((fun k => if k = 0 then 0x50 else 0x20 : Nat → Nat) k, 0)) 20
      (SM1_wait, initMachine)).1 = SM1_moving_car_8 ∧
    (approachRun (fun k => ((fun k => if k = 0 then 0x50 else 0x20 : Nat → Nat) k, 0)) 21
      (SM1_wait, initMachine)).1 = SM1_waited :=
  ⟨rfl, rfl,
   ((approach_trace (fun k => if k = 0 then 0x50 else 0x20) initMachine rfl rfl).2.2.1 7
      (by decide) (by decide)).2,
   ((approach_trace (fun k => if k = 0 then 0x50 else 0x20) initMachine rfl rfl).2.2.2.1 20
      (by decide) (by decide)).1,
   ((approach_trace (fun k => if k = 0 then 0x50 else 0x20) initMachine rfl rfl).2.2.2.2 21
      (by decide)).1⟩

/-! ## Light machine, lane 1 -/

theorem bits_small (c i : Nat) (hc : c < 256) (hi : ¬ i < 8) : c.testBit i = false :=
  Nat.testBit_lt_two_pow
    (lt_of_lt_of_le hc (Nat.pow_le_pow_right (Nat.succ_pos 1) (Nat.le_of_not_lt hi)))

theorem phase_set (x v : Nat) (hv : v < 8) : ((x &&& 0xF8) ||| v) % 256 &&& 0x07 = v := by
  apply Nat.eq_of_testBit_eq
  intro i
  simp only [Nat.testBit_and, Nat.testBit_or, show (256 : Nat) = 2 ^ 8 from rfl,
    Nat.testBit_mod_two_pow]
  by_cases h : i < 8
  · interval_cases v <;> interval_cases i <;> simp [Nat.testBit]
  · simp [h, bits_small 7 i (by decide) h, bits_small v i (by omega) h]

theorem phase_keep (x : Nat) : (x &&& 0xBF) % 256 &&& 0x07 = x &&& 0x07 := by
  apply Nat.eq_of_testBit_eq
  intro i
  simp only [Nat.testBit_and, show (256 : Nat) = 2 ^ 8 from rfl, Nat.testBit_mod_two_pow]
  by_cases h : i < 8
  · interval_cases i <;> simp [Nat.testBit]
  · simp [h, bits_small 7 i (by decide) h]

theorem tick2_init (m : Machine) : SMTick2 SM2_init m = (SM2_wait, { m with PORTD := 0x24 }) := by
  simp [SMTick2, SMTick2_transitions, SMTick2_actions, SM2_init, SM2_wait, SM2_green,
    SM2_stillgreen, SM2_greener, SM2_yellow]

theorem tick2_wait_idle (m : Machine) (h : m.car_waiting = 0) :
    SMTick2 SM2_wait m = (SM2_wait, m) := by
  simp [SMTick2, SMTick2_transitions, SMTick2_actions, SM2_init, SM2_wait, SM2_green,
    SM2_stillgreen, SM2_greener, SM2_yellow, h]

theorem tick2_wait_count (m : Machine) (h : m.car_waiting = 1) (hc : m.cnt_SM2 < 2) :
    SMTick2 SM2_wait m = (SM2_wait, { m with cnt_SM2 := (m.cnt_SM2 + 1) % 256 }) := by
  simp [SMTick2, SMTick2_transitions, SMTick2_actions, SM2_init, SM2_wait, SM2_green,
    SM2_stillgreen, SM2_greener, SM2_yellow, h, hc]

theorem tick2_wait_grant (m : Machine) (h : m.car_waiting = 1) (hc : 2 ≤ m.cnt_SM2) :
    SMTick2 SM2_wait m
      = (SM2_green, { m with PORTD := ((m.PORTD &&& 0xF8) ||| 0x01) % 256 }) := by
  have hn : ¬ m.cnt_SM2 < 2 := Nat.not_lt.mpr hc
  simp [SMTick2, SMTick2_transitions, SMTick2_actions, SM2_init, SM2_wait, SM2_green,
    SM2_stillgreen, SM2_greener, SM2_yellow, h, hc, hn]

theorem tick2_green (m : Machine) :
    SMTick2 SM2_green m = (SM2_stillgreen, { m with good_to_go := 1 }) := by
  simp [SMTick2, SMTick2_transitions, SMTick2_actions, SM2_init, SM2_wait, SM2_green,
    SM2_stillgreen, SM2_greener, SM2_yellow]

theorem tick2_stillgreen (m : Machine) :
    SMTick2 SM2_stillgreen m
      = (SM2_greener, { m with PORTD := (m.PORTD &&& 0xBF) % 256, cnt_SM2 := 0 }) := by
  simp [SMTick2, SMTick2_transitions, SMTick2_actions, SM2_init, SM2_wait, SM2_green,
    SM2_stillgreen, SM2_greener, SM2_yellow]

theorem tick2_greener_dwell (m : Machine) (hc : m.cnt_SM2 < 4) :
    SMTick2 SM2_greener m = (SM2_greener, { m with cnt_SM2 := (m.cnt_SM2 + 1) % 256 }) := by
  simp [SMTick2, SMTick2_transitions, SMTick2_actions, SM2_init, SM2_wait, SM2_green,
    SM2_stillgreen, SM2_greener, SM2_yellow, hc]

theorem tick2_greener_end (m : Machine) (hc : 4 ≤ m.cnt_SM2) :
    SMTick2 SM2_greener m
      = (SM2_yellow, { m with PORTD := ((m.PORTD &&& 0xF8) ||| 0x02) % 256, cnt_SM2 := 1 }) := by
  have hn : ¬ m.cnt_SM2 < 4 := Nat.not_lt.mpr hc
  simp [SMTick2, SMTick2_transitions, SMTick2_actions, SM2_init, SM2_wait, SM2_green,
    SM2_stillgreen, SM2_greener, SM2_yellow, hc, hn]

theorem tick2_yellow_dwell (m : Machine) (hc : m.cnt_SM2 < 4) :
    SMTick2 SM2_yellow m = (SM2_yellow, { m with cnt_SM2 := (m.cnt_SM2 + 1) % 256 }) := by
  simp [SMTick2, SMTick2_transitions, SMTick2_actions, SM2_init, SM2_wait, SM2_green,
    SM2_stillgreen, SM2_greener, SM2_yellow, hc]

theorem tick2_yellow_end (m : Machine) (hc : 4 ≤ m.cnt_SM2) :
    SMTick2 SM2_yellow m
      = (SM2_wait, { m with PORTD := ((m.PORTD &&& 0xF8) ||| 0x04) % 256, cnt_SM2 := 1,
                            good_to_go := 0 }) := by
  have hn : ¬ m.cnt_SM2 < 4 := Nat.not_lt.mpr hc
  simp [SMTick2, SMTick2_transitions, SMTick2_actions, SM2_init, SM2_wait, SM2_green,
    SM2_stillgreen, SM2_greener, SM2_yellow, hc, hn]

theorem lightRun_succ (cw : Nat → Nat) (n : Nat) (s0 : Int × Machine) :
    lightRun cw (n + 1) s0
      = SMTick2 (lightRun cw n s0).1 { (lightRun cw n s0).2 with car_waiting := cw n } := rfl

/-- C6, the claim as stated fails: in `SM2_wait` with the debounce count satisfied
(`cnt_SM2 = 2`) and `car_waiting` back at 0, `SMTick2` does not return `SM2_green`; it
returns `SM2_wait` and changes nothing. -/
theorem latched_commitment_fails :
    2 ≤ debouncedNoRequest.cnt_SM2 ∧
    debouncedNoRequest.car_waiting = 0 ∧
    (SMTick2 SM2_wait debouncedNoRequest).1 ≠ SM2_green ∧
    SMTick2 SM2_wait debouncedNoRequest
      = (SM2_wait, debouncedNoRequest) := by
  decide

/-- C6, amended. The light machine checks `car_waiting` on every call in `SM2_wait`: with
the debounce count satisfied (`cnt_SM2 ≥ 2`), `SMTick2` returns `SM2_green` (and shows
green on lane 1) when `car_waiting = 1`, and returns `SM2_wait` with every variable and
register unchanged when `car_waiting = 0`. -/
theorem grant_needs_request (m : Machine) (hc : 2 ≤ m.cnt_SM2) :
    (m.car_waiting = 1 →
      (SMTick2 SM2_wait m).1 = SM2_green ∧ (SMTick2 SM2_wait m).2.PORTD &&& 0x07 = 0x01) ∧
    (m.car_waiting = 0 → SMTick2 SM2_wait m = (SM2_wait, m)) := by
  constructor
  · intro h
    rw [tick2_wait_grant m h hc]
    exact ⟨rfl, phase_set _ 1 (by decide)⟩
  · intro h
    exact tick2_wait_idle m h

/-- A witness of `grant_needs_request`: the debounce count at 2, once with the request
standing and once with it withdrawn. -/
theorem grant_needs_request_witness :
    (2 ≤ debouncedRequest.cnt_SM2 ∧
      debouncedRequest.car_waiting = 1 ∧
      (SMTick2 SM2_wait debouncedRequest).1
        = SM2_green) ∧
    (2 ≤ debouncedNoRequest.cnt_SM2 ∧
      debouncedNoRequest.car_waiting = 0 ∧
      SMTick2 SM2_wait debouncedNoRequest
        = (SM2_wait, debouncedNoRequest)) :=
  ⟨⟨by decide, rfl,
    ((grant_needs_request debouncedRequest
      (by decide)).1 rfl).1⟩,
   ⟨by decide, rfl,
    (grant_needs_request debouncedNoRequest (by decide)).2 rfl⟩⟩

theorem lightCycle_succ (n : Nat) (s0 : Int × Machine) :
    lightCycle (n + 1) s0
      = ((SMTick2 (lightCycle n s0).1
            { (lightCycle n s0).2.1 with
                car_waiting := if (lightCycle n s0).2.2 then 0 else 1 }).1,
         (SMTick2 (lightCycle n s0).1
            { (lightCycle n s0).2.1 with
                car_waiting := if (lightCycle n s0).2.2 then 0 else 1 }).2,
         ((lightCycle n s0).2.2 ||
            decide ((SMTick2 (lightCycle n s0).1
              { (lightCycle n s0).2.1 with
                  car_waiting := if (lightCycle n s0).2.2 then 0 else 1 }).2.good_to_go = 1))) :=
  rfl

theorem cycle_wait_count (n : Nat) (s0 : Int × Machine) (c ph : Nat)
    (h : LightAt (lightCycle n s0) SM2_wait c 0 ph false) (hc : c < 2) :
    LightAt (lightCycle (n + 1) s0) SM2_wait (c + 1) 0 ph false := by
  obtain ⟨h1, h2, h3, h4, h5⟩ := h
  rw [lightCycle_succ, h1, h5]
  simp only [Bool.false_eq_true, if_false]
  rw [tick2_wait_count _ rfl (by simpa [h2] using hc)]
  refine ⟨rfl, ?_, h3, h4, ?_⟩
  · simp only [h2]
    omega
  · simp [h3]

theorem cycle_wait_grant (n : Nat) (s0 : Int × Machine) (c ph : Nat)
    (h : LightAt (lightCycle n s0) SM2_wait c 0 ph false) (hc : 2 ≤ c) :
    LightAt (lightCycle (n + 1) s0) SM2_green c 0 1 false := by
  obtain ⟨h1, h2, h3, h4, h5⟩ := h
  rw [lightCycle_succ, h1, h5]
  simp only [Bool.false_eq_true, if_false]
  rw [tick2_wait_grant _ rfl (by simpa [h2] using hc)]
  refine ⟨rfl, h2, h3, phase_set _ 1 (by decide), ?_⟩
  simp [h3]

theorem cycle_green (n : Nat) (s0 : Int × Machine) (c g ph : Nat) (seen : Bool)
    (h : LightAt (lightCycle n s0) SM2_green c g ph seen) :
    LightAt (lightCycle (n + 1) s0) SM2_stillgreen c 1 ph true := by
  obtain ⟨h1, h2, h3, h4, h5⟩ := h
  rw [lightCycle_succ, h1, tick2_green]
  refine ⟨rfl, h2, rfl, h4, ?_⟩
  simp

theorem cycle_stillgreen (n : Nat) (s0 : Int × Machine) (c g ph : Nat)
    (h : LightAt (lightCycle n s0) SM2_stillgreen c g ph true) :
    LightAt (lightCycle (n + 1) s0) SM2_greener 0 g ph true := by
  obtain ⟨h1, h2, h3, h4, h5⟩ := h
  rw [lightCycle_succ, h1, tick2_stillgreen]
  refine ⟨rfl, rfl, h3, ?_, ?_⟩
  · exact (phase_keep _).trans h4
  · simp [h5]

theorem cycle_greener_dwell (n : Nat) (s0 : Int × Machine) (c g ph : Nat)
    (h : LightAt (lightCycle n s0) SM2_greener c g ph true) (hc : c < 4) :
    LightAt (lightCycle (n + 1) s0) SM2_greener (c + 1) g ph true := by
  obtain ⟨h1, h2, h3, h4, h5⟩ := h
  rw [lightCycle_succ, h1, tick2_greener_dwell _ (by simpa [h2] using hc)]
  refine ⟨rfl, ?_, h3, h4, ?_⟩
  · simp only [h2]
    omega
  · simp [h5]

theorem cycle_greener_end (n : Nat) (s0 : Int × Machine) (c g ph : Nat)
    (h : LightAt (lightCycle n s0) SM2_greener c g ph true) (hc : 4 ≤ c) :
    LightAt (lightCycle (n + 1) s0) SM2_yellow 1 g 2 true := by
  obtain ⟨h1, h2, h3, h4, h5⟩ := h
  rw [lightCycle_succ, h1, tick2_greener_end _ (by simpa [h2] using hc)]
  refine ⟨rfl, rfl, h3, phase_set _ 2 (by decide), ?_⟩
  simp [h5]

theorem cycle_yellow_dwell (n : Nat) (s0 : Int × Machine) (c g ph : Nat)
    (h : LightAt (lightCycle n s0) SM2_yellow c g ph true) (hc : c < 4) :
    LightAt (lightCycle (n + 1) s0) SM2_yellow (c + 1) g ph true := by
  obtain ⟨h1, h2, h3, h4, h5⟩ := h
  rw [lightCycle_succ, h1, tick2_yellow_dwell _ (by simpa [h2] using hc)]
  refine ⟨rfl, ?_, h3, h4, ?_⟩
  · simp only [h2]
    omega
  · simp [h5]

theorem cycle_yellow_end (n : Nat) (s0 : Int × Machine) (c g ph : Nat)
    (h : LightAt (lightCycle n s0) SM2_yellow c g ph true) (hc : 4 ≤ c) :
    LightAt (lightCycle (n + 1) s0) SM2_wait 1 0 4 true := by
  obtain ⟨h1, h2, h3, h4, h5⟩ := h
  rw [lightCycle_succ, h1, tick2_yellow_end _ (by simpa [h2] using hc)]
  refine ⟨rfl, rfl, rfl, phase_set _ 4 (by decide), ?_⟩
  simp [h5]

theorem cycle_wait_served (n : Nat) (s0 : Int × Machine) (c g ph : Nat)
    (h : LightAt (lightCycle n s0) SM2_wait c g ph true) :
    LightAt (lightCycle (n + 1) s0) SM2_wait c g ph true := by
  obtain ⟨h1, h2, h3, h4, h5⟩ := h
  rw [lightCycle_succ, h1, h5]
  simp only [if_true]
  rw [tick2_wait_idle _ rfl]
  exact ⟨rfl, h2, h3, h4, by simp⟩

/-- C7. Full light cycle: from `SM2_wait` with lane 1 red (`PORTD & 0x07 = 0x04`),
`cnt_SM2 = 0` and `good_to_go = 0`, with `car_waiting = 1` until `good_to_go` has been set
and 0 afterwards, the lane-1 phase after `n` calls of `SMTick2` is red for `n < 3`, green
for `3 ≤ n < 10`, yellow for `10 ≤ n < 14` and red for every `n ≥ 14`; `good_to_go` is 1
exactly for `4 ≤ n < 14` (set during the green run, cleared by call 14, which restores
red); from call 14 on the machine is in `SM2_wait`. -/
theorem full_light_cycle (m : Machine) (hR : m.PORTD &&& 0x07 = 0x04) (hc : m.cnt_SM2 = 0)
    (hg : m.good_to_go = 0) (n : Nat) :
    (lightCycle n (SM2_wait, m)).2.1.PORTD &&& 0x07
        = (if n < 3 then 0x04 else if n < 10 then 0x01 else if n < 14 then 0x02 else 0x04) ∧
    (lightCycle n (SM2_wait, m)).2.1.good_to_go = (if 4 ≤ n ∧ n < 14 then 1 else 0) ∧
    (14 ≤ n → (lightCycle n (SM2_wait, m)).1 = SM2_wait) := by
  have a0 : LightAt (lightCycle 0 (SM2_wait, m)) SM2_wait 0 0 4 false :=
    ⟨rfl, hc, hg, hR, by simp [lightCycle, hg]⟩
  have a1 := cycle_wait_count 0 _ _ _ a0 (by decide)
  have a2 := cycle_wait_count 1 _ _ _ a1 (by decide)
  have a3 := cycle_wait_grant 2 _ _ _ a2 (by decide)
  have a4 := cycle_green 3 _ _ _ _ _ a3
  have a5 := cycle_stillgreen 4 _ _ _ _ a4
  have a6 := cycle_greener_dwell 5 _ _ _ _ a5 (by decide)
  have a7 := cycle_greener_dwell 6 _ _ _ _ a6 (by decide)
  have a8 := cycle_greener_dwell 7 _ _ _ _ a7 (by decide)
  have a9 := cycle_greener_dwell 8 _ _ _ _ a8 (by decide)
  have a10 := cycle_greener_end 9 _ _ _ _ a9 (by decide)
  have a11 := cycle_yellow_dwell 10 _ _ _ _ a10 (by decide)
  have a12 := cycle_yellow_dwell 11 _ _ _ _ a11 (by decide)
  have a13 := cycle_yellow_dwell 12 _ _ _ _ a12 (by decide)
  have a14 := cycle_yellow_end 13 _ _ _ _ a13 (by decide)
  have tail : ∀ k, LightAt (lightCycle (14 + k) (SM2_wait, m)) SM2_wait 1 0 4 true := by
    intro k
    induction k with
    | zero => exact a14
    | succ k ih => exact cycle_wait_served (14 + k) _ _ _ _ ih
  by_cases h14 : 14 ≤ n
  · obtain ⟨k, rfl⟩ : ∃ k, n = 14 + k := ⟨n - 14, by omega⟩
    have t := tail k
    have e1 : ¬ 14 + k < 3 := by omega
    have e2 : ¬ 14 + k < 10 := by omega
    have e3 : ¬ 14 + k < 14 := by omega
    refine ⟨?_, ?_, fun _ => t.1⟩
    · simp only [e1, e2, e3, if_false]
      exact t.2.2.2.1
    · simp only [e3, and_false, if_false]
      exact t.2.2.1
  · have hn : n < 14 := Nat.lt_of_not_le h14
    interval_cases n
    · exact ⟨by simpa using a0.2.2.2.1, by simpa using a0.2.2.1, fun h => absurd h (by decide)⟩
    · exact ⟨by simpa using a1.2.2.2.1, by simpa using a1.2.2.1, fun h => absurd h (by decide)⟩
    · exact ⟨by simpa using a2.2.2.2.1, by simpa using a2.2.2.1, fun h => absurd h (by decide)⟩
    · exact ⟨by simpa using a3.2.2.2.1, by simpa using a3.2.2.1, fun h => absurd h (by decide)⟩
    · exact ⟨by simpa using a4.2.2.2.1, by simpa using a4.2.2.1, fun h => absurd h (by decide)⟩
    · exact ⟨by simpa using a5.2.2.2.1, by simpa using a5.2.2.1, fun h => absurd h (by decide)⟩
    · exact ⟨by simpa using a6.2.2.2.1, by simpa using a6.2.2.1, fun h => absurd h (by decide)⟩
    · exact ⟨by simpa using a7.2.2.2.1, by simpa using a7.2.2.1, fun h => absurd h (by decide)⟩
    · exact ⟨by simpa using a8.2.2.2.1, by simpa using a8.2.2.1, fun h => absurd h (by decide)⟩
    · exact ⟨by simpa using a9.2.2.2.1, by simpa using a9.2.2.1, fun h => absurd h (by decide)⟩
    · exact ⟨by simpa using a10.2.2.2.1, by simpa using a10.2.2.1, fun h => absurd h (by decide)⟩
    · exact ⟨by simpa using a11.2.2.2.1, by simpa using a11.2.2.1, fun h => absurd h (by decide)⟩
    · exact ⟨by simpa using a12.2.2.2.1, by simpa using a12.2.2.1, fun h => absurd h (by decide)⟩
    · exact ⟨by simpa using a13.2.2.2.1, by simpa using a13.2.2.1, fun h => absurd h (by decide)⟩

/-- A witness of `full_light_cycle`: the registers after the light machine's first call in
`main` (both lanes red), observed after 9 calls (still green) and after 14 (red again). -/
theorem full_light_cycle_witness :
    bothRed.PORTD &&& 0x07 = 0x04 ∧
    bothRed.cnt_SM2 = 0 ∧
    bothRed.good_to_go = 0 ∧
    ((lightCycle 9 (SM2_wait, bothRed)).2.1.PORTD &&& 0x07
        = (if 9 < 3 then 0x04 else if 9 < 10 then 0x01 else if 9 < 14 then 0x02 else 0x04) ∧
    (lightCycle 9 (SM2_wait, bothRed)).2.1.good_to_go = (if 4 ≤ 9 ∧ 9 < 14 then 1 else 0) ∧
    (14 ≤ 9 → (lightCycle 9 (SM2_wait, bothRed)).1 = SM2_wait)) ∧
    ((lightCycle 14 (SM2_wait, bothRed)).2.1.PORTD &&& 0x07
        = (if 14 < 3 then 0x04 else if 14 < 10 then 0x01 else if 14 < 14 then 0x02 else 0x04) ∧
    (lightCycle 14 (SM2_wait, bothRed)).2.1.good_to_go = (if 4 ≤ 14 ∧ 14 < 14 then 1 else 0) ∧
    (14 ≤ 14 → (lightCycle 14 (SM2_wait, bothRed)).1 = SM2_wait)) :=
  ⟨by decide, rfl, rfl,
   full_light_cycle bothRed (by decide) rfl rfl 9,
   full_light_cycle bothRed (by decide) rfl rfl 14⟩

/-! ## The handshake flags and the idle light -/

theorem lightRun_idle (m : Machine) (n : Nat) :
    (lightRun (fun _ => 0) n (SM2_wait, m)).1 = SM2_wait ∧
    (lightRun (fun _ => 0) n (SM2_wait, m)).2.PORTD = m.PORTD ∧
    (lightRun (fun _ => 0) n (SM2_wait, m)).2.good_to_go = m.good_to_go ∧
    (lightRun (fun _ => 0) n (SM2_wait, m)).2.cnt_SM2 = m.cnt_SM2 := by
  induction n with
  | zero => exact ⟨rfl, rfl, rfl, rfl⟩
  | succ n ih =>
    rw [lightRun_succ, ih.1, tick2_wait_idle _ rfl]
    exact ⟨rfl, ih.2.1, ih.2.2.1, ih.2.2.2⟩

/-- C11. No grant without a request: with `car_waiting = 0` before every call, each of the
first `n` calls of `SMTick2` from `SM2_wait` returns `SM2_wait` and leaves `PORTD`,
`good_to_go` and `cnt_SM2` as they were at the start, whatever `cnt_SM2` holds; so a lane-1
phase that is red (`PORTD & 0x07 = 0x04`) stays red. -/
theorem no_grant_without_request (m : Machine) (n : Nat) :
    (∀ k, k ≤ n →
      (lightRun (fun _ => 0) k (SM2_wait, m)).1 = SM2_wait ∧
      (lightRun (fun _ => 0) k (SM2_wait, m)).2.PORTD = m.PORTD ∧
      (lightRun (fun _ => 0) k (SM2_wait, m)).2.good_to_go = m.good_to_go ∧
      (lightRun (fun _ => 0) k (SM2_wait, m)).2.cnt_SM2 = m.cnt_SM2) ∧
    (m.PORTD &&& 0x07 = 0x04 →
      ∀ k, k ≤ n → (lightRun (fun _ => 0) k (SM2_wait, m)).2.PORTD &&& 0x07 = 0x04) := by
  refine ⟨fun k _ => lightRun_idle m k, fun hR k _ => ?_⟩
  rw [(lightRun_idle m k).2.1]
  exact hR

/-- A witness of `no_grant_without_request`: 1000 calls from both lanes red. -/
theorem no_grant_without_request_witness :
    bothRed.PORTD &&& 0x07 = 0x04 ∧
    ((lightRun (fun _ => 0) 1000 (SM2_wait, bothRed)).1 = SM2_wait ∧
      (lightRun (fun _ => 0) 1000 (SM2_wait, bothRed)).2.PORTD = bothRed.PORTD ∧
      (lightRun (fun _ => 0) 1000 (SM2_wait, bothRed)).2.good_to_go = bothRed.good_to_go ∧
      (lightRun (fun _ => 0) 1000 (SM2_wait, bothRed)).2.cnt_SM2 = bothRed.cnt_SM2) ∧
    (lightRun (fun _ => 0) 1000 (SM2_wait, bothRed)).2.PORTD &&& 0x07 = 0x04 :=
  ⟨by decide,
   (no_grant_without_request bothRed 1000).1 1000 (le_refl 1000),
   (no_grant_without_request bothRed 1000).2 (by decide) 1000 (le_refl 1000)⟩

/-! ## Every branch of the four tick functions -/

theorem tick1_wait_sensed (s : Nat) (m : Machine) (h : s % 2 ^ 16 < 0x35) :
    SMTick1 s SM1_wait m
      = (SM1_sensed_car,
        { m with
            adc0_value := s % 2 ^ 16,
            PORTD := if 10 < m.cnt then (m.PORTD &&& 0xBF) % 256 else m.PORTD,
            cnt := 0,
            PORTB := 0x01 }) := by
  have ha : s % 65536 < almost := by simpa [almost, min_val] using h
  by_cases hc : 10 < m.cnt <;>
    simp [SMTick1, SMTick1_transitions, SMTick1_actions, SM1_init, SM1_wait,
    SM1_sensed_car, SM1_moving_car, SM1_moving_car_8, SM1_waited, ha, hc]

theorem tick1_wait_stay (s : Nat) (m : Machine) (h : ¬ s % 2 ^ 16 < 0x35) :
    SMTick1 s SM1_wait m
      = (SM1_wait,
        { m with
            adc0_value := s % 2 ^ 16,
            PORTD := if 10 < m.cnt then (m.PORTD &&& 0xBF) % 256 else m.PORTD,
            cnt := (m.cnt + 1) % 256 }) := by
  have ha : ¬ s % 65536 < almost := by simpa [almost, min_val] using h
  have hb : almost ≤ s % 65536 := Nat.le_of_not_lt ha
  by_cases hc : 10 < m.cnt <;>
    simp [SMTick1, SMTick1_transitions, SMTick1_actions, SM1_init, SM1_wait,
    SM1_sensed_car, SM1_moving_car, SM1_moving_car_8, SM1_waited, ha, hb, hc]

theorem tick1_default (s : Nat) (state : Int) (m : Machine) (h0 : state ≠ SM1_init)
    (h1 : state ≠ SM1_wait) (h2 : state ≠ SM1_sensed_car) (h3 : state ≠ SM1_moving_car)
    (h4 : state ≠ SM1_moving_car_8) (h5 : state ≠ SM1_waited) :
    SMTick1 s state m = (SM1_wait, { m with adc0_value := s % 2 ^ 16 }) := by
  simp only [SM1_init, SM1_wait, SM1_sensed_car, SM1_moving_car, SM1_moving_car_8,
    SM1_waited] at h0 h1 h2 h3 h4 h5
  simp [SMTick1, SMTick1_transitions, SMTick1_actions, SM1_init, SM1_wait,
    SM1_sensed_car, SM1_moving_car, SM1_moving_car_8, SM1_waited, h0, h1, h2, h3, h4, h5]

theorem tick2_wait_other (m : Machine) (h0 : m.car_waiting ≠ 0) (h1 : m.car_waiting ≠ 1) :
    SMTick2 SM2_wait m
      = (SM2_wait, m) := by
  simp [SMTick2, SMTick2_transitions, SMTick2_actions, SM2_init, SM2_wait, SM2_green,
    SM2_stillgreen, SM2_greener, SM2_yellow, h0, h1]

theorem tick2_default (state : Int) (m : Machine) (h0 : state ≠ SM2_init) (h1 : state ≠ SM2_wait)
    (h2 : state ≠ SM2_green) (h3 : state ≠ SM2_stillgreen) (h4 : state ≠ SM2_greener)
    (h5 : state ≠ SM2_yellow) :
    SMTick2 state m = (SM2_init, m) := by
  simp only [SM2_init, SM2_wait, SM2_green, SM2_stillgreen, SM2_greener,
    SM2_yellow] at h0 h1 h2 h3 h4 h5
  simp [SMTick2, SMTick2_transitions, SMTick2_actions, SM2_init, SM2_wait, SM2_green,
    SM2_stillgreen, SM2_greener, SM2_yellow, h0, h1, h2, h3, h4, h5]

theorem tick3_init (s : Nat) (m : Machine) :
    SMTick3 s SM3_init m
      = (SM3_wait, { m with adc6_value := s % 2 ^ 16 }) := by
  simp [SMTick3, SMTick3_transitions, SMTick3_actions, SM3_init, SM3_wait,
    SM3_sensed_car, SM3_moving_car, SM3_moving_car_8, SM3_waited]

theorem tick3_sensed (s : Nat) (m : Machine) :
    SMTick3 s SM3_sensed_car m
      = (SM3_moving_car,
        { m with
            adc6_value := s % 2 ^ 16,
            PORTC := (m.PORTC <<< 1) % 256,
            cnt_SM3 := 0 }) := by
  simp [SMTick3, SMTick3_transitions, SMTick3_actions, SM3_init, SM3_wait,
    SM3_sensed_car, SM3_moving_car, SM3_moving_car_8, SM3_waited]

theorem tick3_moving (s : Nat) (m : Machine) (h : m.PORTC ≠ 0x80) :
    SMTick3 s SM3_moving_car m
      = (SM3_moving_car, { m with adc6_value := s % 2 ^ 16, PORTC := (m.PORTC <<< 1) % 256 }) := by
  simp [SMTick3, SMTick3_transitions, SMTick3_actions, SM3_init, SM3_wait,
    SM3_sensed_car, SM3_moving_car, SM3_moving_car_8, SM3_waited, h]

theorem tick3_moving_end (s : Nat) (m : Machine) (h : m.PORTC = 0x80) :
    SMTick3 s SM3_moving_car m
      = (SM3_moving_car_8, { m with adc6_value := s % 2 ^ 16, cnt_SM3 := 0 }) := by
  simp [SMTick3, SMTick3_transitions, SMTick3_actions, SM3_init, SM3_wait,
    SM3_sensed_car, SM3_moving_car, SM3_moving_car_8, SM3_waited, h]

theorem tick3_hold (s : Nat) (m : Machine) (h : m.cnt_SM3 < 10) :
    SMTick3 s SM3_moving_car_8 m
      = (SM3_moving_car_8,
        { m with
            adc6_value := s % 2 ^ 16,
            cnt_SM3 := (m.cnt_SM3 + 1) % 256 }) := by
  simp [SMTick3, SMTick3_transitions, SMTick3_actions, SM3_init, SM3_wait,
    SM3_sensed_car, SM3_moving_car, SM3_moving_car_8, SM3_waited, h]

theorem tick3_hold_end (s : Nat) (m : Machine) (h : ¬ m.cnt_SM3 < 10) :
    SMTick3 s SM3_moving_car_8 m
      = (SM3_waited, { m with adc6_value := s % 2 ^ 16, cnt_SM3 := (m.cnt_SM3 + 1) % 256,
                              car_waiting1 := 1 }) := by
  simp [SMTick3, SMTick3_transitions, SMTick3_actions, SM3_init, SM3_wait,
    SM3_sensed_car, SM3_moving_car, SM3_moving_car_8, SM3_waited, h]

theorem tick3_waited_no (s : Nat) (m : Machine) (h : m.gtg ≠ 1) :
    SMTick3 s SM3_waited m
      = (SM3_waited, { m with adc6_value := s % 2 ^ 16, car_waiting1 := 1 }) := by
  simp [SMTick3, SMTick3_transitions, SMTick3_actions, SM3_init, SM3_wait,
    SM3_sensed_car, SM3_moving_car, SM3_moving_car_8, SM3_waited, h]

theorem tick3_waited_go (s : Nat) (m : Machine) (h : m.gtg = 1) :
    SMTick3 s SM3_waited m
      = (SM3_wait, { m with adc6_value := s % 2 ^ 16, PORTC := 0,
                            PORTD := ((m.PORTD &&& 0x7F) ||| 0x80) % 256,
                            car_waiting1 := 0, cnt_SM3 := 0 }) := by
  simp [SMTick3, SMTick3_transitions, SMTick3_actions, SM3_init, SM3_wait,
    SM3_sensed_car, SM3_moving_car, SM3_moving_car_8, SM3_waited, h]

theorem tick3_wait_sensed (s : Nat) (m : Machine) (h : s % 2 ^ 16 < 0x35) :
    SMTick3 s SM3_wait m
      = (SM3_sensed_car,
        { m with
            adc6_value := s % 2 ^ 16,
            PORTD := if 10 < m.cnt_SM3 then (m.PORTD &&& 0x7F) % 256 else m.PORTD,
            cnt_SM3 := 0,
            PORTC := 0x01 }) := by
  have ha : s % 65536 < almost := by simpa [almost, min_val] using h
  by_cases hc : 10 < m.cnt_SM3 <;>
    simp [SMTick3, SMTick3_transitions, SMTick3_actions, SM3_init, SM3_wait,
    SM3_sensed_car, SM3_moving_car, SM3_moving_car_8, SM3_waited, ha, hc]

theorem tick3_wait_stay (s : Nat) (m : Machine) (h : ¬ s % 2 ^ 16 < 0x35) :
    SMTick3 s SM3_wait m
      = (SM3_wait,
        { m with
            adc6_value := s % 2 ^ 16,
            PORTD := if 10 < m.cnt_SM3 then (m.PORTD &&& 0x7F) % 256 else m.PORTD,
            cnt_SM3 := (m.cnt_SM3 + 1) % 256 }) := by
  have ha : ¬ s % 65536 < almost := by simpa [almost, min_val] using h
  have hb : almost ≤ s % 65536 := Nat.le_of_not_lt ha
  by_cases hc : 10 < m.cnt_SM3 <;>
    simp [SMTick3, SMTick3_transitions, SMTick3_actions, SM3_init, SM3_wait,
    SM3_sensed_car, SM3_moving_car, SM3_moving_car_8, SM3_waited, ha, hb, hc]

theorem tick3_default (s : Nat) (state : Int) (m : Machine) (h0 : state ≠ SM3_init)
    (h1 : state ≠ SM3_wait) (h2 : state ≠ SM3_sensed_car) (h3 : state ≠ SM3_moving_car)
    (h4 : state ≠ SM3_moving_car_8) (h5 : state ≠ SM3_waited) :
    SMTick3 s state m = (SM3_wait, { m with adc6_value := s % 2 ^ 16 }) := by
  simp only [SM3_init, SM3_wait, SM3_sensed_car, SM3_moving_car, SM3_moving_car_8,
    SM3_waited] at h0 h1 h2 h3 h4 h5
  simp [SMTick3, SMTick3_transitions, SMTick3_actions, SM3_init, SM3_wait,
    SM3_sensed_car, SM3_moving_car, SM3_moving_car_8, SM3_waited, h0, h1, h2, h3, h4, h5]

theorem tick4_init (m : Machine) :
    SMTick4 SM4_init m
      = (SM4_wait, m) := by
  simp [SMTick4, SMTick4_transitions, SMTick4_actions, SM4_init, SM4_wait, SM4_green,
    SM4_stillgreen, SM4_greener, SM4_yellow]

theorem tick4_wait_idle (m : Machine) (h : m.car_waiting1 = 0) :
    SMTick4 SM4_wait m
      = (SM4_wait, m) := by
  simp [SMTick4, SMTick4_transitions, SMTick4_actions, SM4_init, SM4_wait, SM4_green,
    SM4_stillgreen, SM4_greener, SM4_yellow, h]

theorem tick4_wait_count (m : Machine) (h : m.car_waiting1 = 1) (hc : m.cnt_SM4 < 2) :
    SMTick4 SM4_wait m
      = (SM4_wait, { m with cnt_SM4 := (m.cnt_SM4 + 1) % 256 }) := by
  simp [SMTick4, SMTick4_transitions, SMTick4_actions, SM4_init, SM4_wait, SM4_green,
    SM4_stillgreen, SM4_greener, SM4_yellow, h, hc]

theorem tick4_wait_grant (m : Machine) (h : m.car_waiting1 = 1) (hc : 2 ≤ m.cnt_SM4) :
    SMTick4 SM4_wait m
      = (SM4_green, { m with PORTD := ((m.PORTD &&& 0xC7) ||| 0x08) % 256 }) := by
  have hn : ¬ m.cnt_SM4 < 2 := Nat.not_lt.mpr hc
  simp [SMTick4, SMTick4_transitions, SMTick4_actions, SM4_init, SM4_wait, SM4_green,
    SM4_stillgreen, SM4_greener, SM4_yellow, h, hc, hn]

theorem tick4_green (m : Machine) :
    SMTick4 SM4_green m
      = (SM4_stillgreen, { m with gtg := 1 }) := by
  simp [SMTick4, SMTick4_transitions, SMTick4_actions, SM4_init, SM4_wait, SM4_green,
    SM4_stillgreen, SM4_greener, SM4_yellow]

theorem tick4_stillgreen (m : Machine) :
    SMTick4 SM4_stillgreen m
      = (SM4_greener, { m with PORTD := (m.PORTD &&& 0x7F) % 256, cnt_SM4 := 0 }) := by
  simp [SMTick4, SMTick4_transitions, SMTick4_actions, SM4_init, SM4_wait, SM4_green,
    SM4_stillgreen, SM4_greener, SM4_yellow]

theorem tick4_greener_dwell (m : Machine) (hc : m.cnt_SM4 < 4) :
    SMTick4 SM4_greener m
      = (SM4_greener, { m with cnt_SM4 := (m.cnt_SM4 + 1) % 256 }) := by
  simp [SMTick4, SMTick4_transitions, SMTick4_actions, SM4_init, SM4_wait, SM4_green,
    SM4_stillgreen, SM4_greener, SM4_yellow, hc]

theorem tick4_greener_end (m : Machine) (hc : 4 ≤ m.cnt_SM4) :
    SMTick4 SM4_greener m
      = (SM4_yellow, { m with PORTD := ((m.PORTD &&& 0xC7) ||| 0x10) % 256, cnt_SM4 := 1 }) := by
  have hn : ¬ m.cnt_SM4 < 4 := Nat.not_lt.mpr hc
  simp [SMTick4, SMTick4_transitions, SMTick4_actions, SM4_init, SM4_wait, SM4_green,
    SM4_stillgreen, SM4_greener, SM4_yellow, hc, hn]

theorem tick4_yellow_dwell (m : Machine) (hc : m.cnt_SM4 < 4) :
    SMTick4 SM4_yellow m
      = (SM4_yellow, { m with cnt_SM4 := (m.cnt_SM4 + 1) % 256 }) := by
  simp [SMTick4, SMTick4_transitions, SMTick4_actions, SM4_init, SM4_wait, SM4_green,
    SM4_stillgreen, SM4_greener, SM4_yellow, hc]

theorem tick4_yellow_end (m : Machine) (hc : 4 ≤ m.cnt_SM4) :
    SMTick4 SM4_yellow m
      = (SM4_wait, { m with PORTD := ((m.PORTD &&& 0xC7) ||| 0x20) % 256, cnt_SM4 := 1,
                            gtg := 0 }) := by
  have hn : ¬ m.cnt_SM4 < 4 := Nat.not_lt.mpr hc
  simp [SMTick4, SMTick4_transitions, SMTick4_actions, SM4_init, SM4_wait, SM4_green,
    SM4_stillgreen, SM4_greener, SM4_yellow, hc, hn]

theorem tick4_wait_other (m : Machine) (h0 : m.car_waiting1 ≠ 0) (h1 : m.car_waiting1 ≠ 1) :
    SMTick4 SM4_wait m
      = (SM4_wait, m) := by
  simp [SMTick4, SMTick4_transitions, SMTick4_actions, SM4_init, SM4_wait, SM4_green,
    SM4_stillgreen, SM4_greener, SM4_yellow, h0, h1]

theorem tick4_default (state : Int) (m : Machine) (h0 : state ≠ SM4_init) (h1 : state ≠ SM4_wait)
    (h2 : state ≠ SM4_green) (h3 : state ≠ SM4_stillgreen) (h4 : state ≠ SM4_greener)
    (h5 : state ≠ SM4_yellow) :
    SMTick4 state m = (SM4_init, m) := by
  simp only [SM4_init, SM4_wait, SM4_green, SM4_stillgreen, SM4_greener,
    SM4_yellow] at h0 h1 h2 h3 h4 h5
  simp [SMTick4, SMTick4_transitions, SMTick4_actions, SM4_init, SM4_wait, SM4_green,
    SM4_stillgreen, SM4_greener, SM4_yellow, h0, h1, h2, h3, h4, h5]

/-- Case analysis of `SMTick1`: a property of its result holds for every state code once it
holds on each branch of the two `switch` statements. -/
theorem tick1_ind (s : Nat) (P : Int → Machine → Int × Machine → Prop)
    (init : ∀ m, P SM1_init m (SM1_wait, { m with adc0_value := s % 2 ^ 16 }))
    (sense : ∀ m, s % 2 ^ 16 < 0x35 →
      P SM1_wait m
        (SM1_sensed_car,
          { m with
              adc0_value := s % 2 ^ 16,
              PORTD := if 10 < m.cnt then (m.PORTD &&& 0xBF) % 256 else m.PORTD,
              cnt := 0, PORTB := 0x01 }))
    (stay : ∀ m, ¬ s % 2 ^ 16 < 0x35 →
      P SM1_wait m
        (SM1_wait,
          { m with
              adc0_value := s % 2 ^ 16,
              PORTD := if 10 < m.cnt then (m.PORTD &&& 0xBF) % 256 else m.PORTD,
              cnt := (m.cnt + 1) % 256 }))
    (sensed : ∀ m,
      P SM1_sensed_car m
        (SM1_moving_car, { m with adc0_value := s % 2 ^ 16, PORTB := (m.PORTB <<< 1) % 256 }))
    (moving : ∀ m, m.PORTB ≠ 0x80 →
      P SM1_moving_car m (SM1_moving_car,
        { m with
            adc0_value := s % 2 ^ 16,
            PORTB := (m.PORTB <<< 1) % 256 }))
    (arrive : ∀ m, m.PORTB = 0x80 →
      P SM1_moving_car m (SM1_moving_car_8, { m with adc0_value := s % 2 ^ 16, cnt := 0 }))
    (hold : ∀ m, m.cnt < 10 →
      P SM1_moving_car_8 m (SM1_moving_car_8,
        { m with
            adc0_value := s % 2 ^ 16,
            cnt := (m.cnt + 1) % 256 }))
    (ready : ∀ m, ¬ m.cnt < 10 →
      P SM1_moving_car_8 m
        (SM1_waited,
          { m with
              adc0_value := s % 2 ^ 16,
              cnt := (m.cnt + 1) % 256,
              car_waiting := 1 }))
    (waiting : ∀ m, m.good_to_go ≠ 1 → P SM1_waited m (SM1_waited,
      { m with
          adc0_value := s % 2 ^ 16,
          car_waiting := 1 }))
    (go : ∀ m, m.good_to_go = 1 →
      P SM1_waited m
        (SM1_wait,
          { m with
              adc0_value := s % 2 ^ 16,
              PORTB := 0,
              PORTD := ((m.PORTD &&& 0xBF) ||| 0x40) % 256,
              car_waiting := 0,
              cnt := 0 }))
    (other : ∀ state m, state ≠ SM1_init → state ≠ SM1_wait → state ≠ SM1_sensed_car →
      state ≠ SM1_moving_car → state ≠ SM1_moving_car_8 → state ≠ SM1_waited →
      P state m (SM1_wait, { m with adc0_value := s % 2 ^ 16 }))
    (state : Int) (m : Machine) : P state m (SMTick1 s state m) := by
  by_cases h0 : state = SM1_init
  · subst h0
    rw [tick1_init]
    exact init m
  by_cases h1 : state = SM1_wait
  · subst h1
    by_cases hs : s % 2 ^ 16 < 0x35
    · rw [tick1_wait_sensed s m hs]
      exact sense m hs
    · rw [tick1_wait_stay s m hs]
      exact stay m hs
  by_cases h2 : state = SM1_sensed_car
  · subst h2
    rw [tick1_sensed]
    exact sensed m
  by_cases h3 : state = SM1_moving_car
  · subst h3
    by_cases hp : m.PORTB = 0x80
    · rw [tick1_moving_end s m hp]
      exact arrive m hp
    · rw [tick1_moving s m hp]
      exact moving m hp
  by_cases h4 : state = SM1_moving_car_8
  · subst h4
    by_cases hc : m.cnt < 10
    · rw [tick1_hold s m hc]
      exact hold m hc
    · rw [tick1_hold_end s m hc]
      exact ready m hc
  by_cases h5 : state = SM1_waited
  · subst h5
    by_cases hg : m.good_to_go = 1
    · rw [tick1_waited_go s m hg]
      exact go m hg
    · rw [tick1_waited_no s m hg]
      exact waiting m hg
  rw [tick1_default s state m h0 h1 h2 h3 h4 h5]
  exact other state m h0 h1 h2 h3 h4 h5

/-- Case analysis of `SMTick2`: a property of its result holds for every state code once it
holds on each branch of the two `switch` statements. -/
theorem tick2_ind (P : Int → Machine → Int × Machine → Prop)
    (init : ∀ m, P SM2_init m (SM2_wait, { m with PORTD := 0x24 }))
    (idle : ∀ m, m.car_waiting ≠ 1 → P SM2_wait m (SM2_wait, m))
    (count : ∀ m, m.car_waiting = 1 → m.cnt_SM2 < 2 →
      P SM2_wait m (SM2_wait, { m with cnt_SM2 := (m.cnt_SM2 + 1) % 256 }))
    (grant : ∀ m, m.car_waiting = 1 → 2 ≤ m.cnt_SM2 →
      P SM2_wait m (SM2_green, { m with PORTD := ((m.PORTD &&& 0xF8) ||| 0x01) % 256 }))
    (green : ∀ m, P SM2_green m (SM2_stillgreen, { m with good_to_go := 1 }))
    (stillgreen : ∀ m,
      P SM2_stillgreen m
        (SM2_greener, { m with PORTD := (m.PORTD &&& 0xBF) % 256, cnt_SM2 := 0 }))
    (greener : ∀ m, m.cnt_SM2 < 4 →
      P SM2_greener m (SM2_greener, { m with cnt_SM2 := (m.cnt_SM2 + 1) % 256 }))
    (toYellow : ∀ m, 4 ≤ m.cnt_SM2 →
      P SM2_greener m
        (SM2_yellow, { m with PORTD := ((m.PORTD &&& 0xF8) ||| 0x02) % 256, cnt_SM2 := 1 }))
    (yellow : ∀ m, m.cnt_SM2 < 4 →
      P SM2_yellow m (SM2_yellow, { m with cnt_SM2 := (m.cnt_SM2 + 1) % 256 }))
    (toRed : ∀ m, 4 ≤ m.cnt_SM2 →
      P SM2_yellow m
        (SM2_wait, { m with PORTD := ((m.PORTD &&& 0xF8) ||| 0x04) % 256, cnt_SM2 := 1,
                            good_to_go := 0 }))
    (other : ∀ state m, state ≠ SM2_init → state ≠ SM2_wait → state ≠ SM2_green →
      state ≠ SM2_stillgreen → state ≠ SM2_greener → state ≠ SM2_yellow →
      P state m (SM2_init, m))
    (state : Int) (m : Machine) : P state m (SMTick2 state m) := by
  by_cases h0 : state = SM2_init
  · subst h0
    rw [tick2_init]
    exact init m
  by_cases h1 : state = SM2_wait
  · subst h1
    by_cases hw : m.car_waiting = 1
    · by_cases hc : m.cnt_SM2 < 2
      · rw [tick2_wait_count m hw hc]
        exact count m hw hc
      · rw [tick2_wait_grant m hw (Nat.le_of_not_lt hc)]
        exact grant m hw (Nat.le_of_not_lt hc)
    · by_cases hz : m.car_waiting = 0
      · rw [tick2_wait_idle m hz]
        exact idle m hw
      · rw [tick2_wait_other m hz hw]
        exact idle m hw
  by_cases h2 : state = SM2_green
  · subst h2
    rw [tick2_green]
    exact green m
  by_cases h3 : state = SM2_stillgreen
  · subst h3
    rw [tick2_stillgreen]
    exact stillgreen m
  by_cases h4 : state = SM2_greener
  · subst h4
    by_cases hc : m.cnt_SM2 < 4
    · rw [tick2_greener_dwell m hc]
      exact greener m hc
    · rw [tick2_greener_end m (Nat.le_of_not_lt hc)]
      exact toYellow m (Nat.le_of_not_lt hc)
  by_cases h5 : state = SM2_yellow
  · subst h5
    by_cases hc : m.cnt_SM2 < 4
    · rw [tick2_yellow_dwell m hc]
      exact yellow m hc
    · rw [tick2_yellow_end m (Nat.le_of_not_lt hc)]
      exact toRed m (Nat.le_of_not_lt hc)
  rw [tick2_default state m h0 h1 h2 h3 h4 h5]
  exact other state m h0 h1 h2 h3 h4 h5

/-- Case analysis of `SMTick3`: a property of its result holds for every state code once it
holds on each branch of the two `switch` statements. -/
theorem tick3_ind (s : Nat) (P : Int → Machine → Int × Machine → Prop)
    (init : ∀ m, P SM3_init m (SM3_wait, { m with adc6_value := s % 2 ^ 16 }))
    (sense : ∀ m, s % 2 ^ 16 < 0x35 →
      P SM3_wait m
        (SM3_sensed_car,
          { m with
              adc6_value := s % 2 ^ 16,
              PORTD := if 10 < m.cnt_SM3 then (m.PORTD &&& 0x7F) % 256 else m.PORTD,
              cnt_SM3 := 0, PORTC := 0x01 }))
    (stay : ∀ m, ¬ s % 2 ^ 16 < 0x35 →
      P SM3_wait m
        (SM3_wait,
          { m with
              adc6_value := s % 2 ^ 16,
              PORTD := if 10 < m.cnt_SM3 then (m.PORTD &&& 0x7F) % 256 else m.PORTD,
              cnt_SM3 := (m.cnt_SM3 + 1) % 256 }))
    (sensed : ∀ m,
      P SM3_sensed_car m
        (SM3_moving_car,
          { m with
              adc6_value := s % 2 ^ 16,
              PORTC := (m.PORTC <<< 1) % 256,
              cnt_SM3 := 0 }))
    (moving : ∀ m, m.PORTC ≠ 0x80 →
      P SM3_moving_car m (SM3_moving_car,
        { m with
            adc6_value := s % 2 ^ 16,
            PORTC := (m.PORTC <<< 1) % 256 }))
    (arrive : ∀ m, m.PORTC = 0x80 →
      P SM3_moving_car m (SM3_moving_car_8, { m with adc6_value := s % 2 ^ 16, cnt_SM3 := 0 }))
    (hold : ∀ m, m.cnt_SM3 < 10 →
      P SM3_moving_car_8 m (SM3_moving_car_8,
        { m with
            adc6_value := s % 2 ^ 16,
            cnt_SM3 := (m.cnt_SM3 + 1) % 256 }))
    (ready : ∀ m, ¬ m.cnt_SM3 < 10 →
      P SM3_moving_car_8 m
        (SM3_waited,
          { m with
              adc6_value := s % 2 ^ 16,
              cnt_SM3 := (m.cnt_SM3 + 1) % 256,
              car_waiting1 := 1 }))
    (waiting : ∀ m, m.gtg ≠ 1 → P SM3_waited m (SM3_waited,
      { m with
          adc6_value := s % 2 ^ 16,
          car_waiting1 := 1 }))
    (go : ∀ m, m.gtg = 1 →
      P SM3_waited m
        (SM3_wait,
          { m with
              adc6_value := s % 2 ^ 16,
              PORTC := 0,
              PORTD := ((m.PORTD &&& 0x7F) ||| 0x80) % 256,
              car_waiting1 := 0,
              cnt_SM3 := 0 }))
    (other : ∀ state m, state ≠ SM3_init → state ≠ SM3_wait → state ≠ SM3_sensed_car →
      state ≠ SM3_moving_car → state ≠ SM3_moving_car_8 → state ≠ SM3_waited →
      P state m (SM3_wait, { m with adc6_value := s % 2 ^ 16 }))
    (state : Int) (m : Machine) : P state m (SMTick3 s state m) := by
  by_cases h0 : state = SM3_init
  · subst h0
    rw [tick3_init]
    exact init m
  by_cases h1 : state = SM3_wait
  · subst h1
    by_cases hs : s % 2 ^ 16 < 0x35
    · rw [tick3_wait_sensed s m hs]
      exact sense m hs
    · rw [tick3_wait_stay s m hs]
      exact stay m hs
  by_cases h2 : state = SM3_sensed_car
  · subst h2
    rw [tick3_sensed]
    exact sensed m
  by_cases h3 : state = SM3_moving_car
  · subst h3
    by_cases hp : m.PORTC = 0x80
    · rw [tick3_moving_end s m hp]
      exact arrive m hp
    · rw [tick3_moving s m hp]
      exact moving m hp
  by_cases h4 : state = SM3_moving_car_8
  · subst h4
    by_cases hc : m.cnt_SM3 < 10
    · rw [tick3_hold s m hc]
      exact hold m hc
    · rw [tick3_hold_end s m hc]
      exact ready m hc
  by_cases h5 : state = SM3_waited
  · subst h5
    by_cases hg : m.gtg = 1
    · rw [tick3_waited_go s m hg]
      exact go m hg
    · rw [tick3_waited_no s m hg]
      exact waiting m hg
  rw [tick3_default s state m h0 h1 h2 h3 h4 h5]
  exact other state m h0 h1 h2 h3 h4 h5

/-- Case analysis of `SMTick4`: a property of its result holds for every state code once it
holds on each branch of the two `switch` statements. -/
theorem tick4_ind (P : Int → Machine → Int × Machine → Prop)
    (init : ∀ m, P SM4_init m (SM4_wait, m))
    (idle : ∀ m, m.car_waiting1 ≠ 1 → P SM4_wait m (SM4_wait, m))
    (count : ∀ m, m.car_waiting1 = 1 → m.cnt_SM4 < 2 →
      P SM4_wait m (SM4_wait, { m with cnt_SM4 := (m.cnt_SM4 + 1) % 256 }))
    (grant : ∀ m, m.car_waiting1 = 1 → 2 ≤ m.cnt_SM4 →
      P SM4_wait m (SM4_green, { m with PORTD := ((m.PORTD &&& 0xC7) ||| 0x08) % 256 }))
    (green : ∀ m, P SM4_green m (SM4_stillgreen, { m with gtg := 1 }))
    (stillgreen : ∀ m,
      P SM4_stillgreen m
        (SM4_greener, { m with PORTD := (m.PORTD &&& 0x7F) % 256, cnt_SM4 := 0 }))
    (greener : ∀ m, m.cnt_SM4 < 4 →
      P SM4_greener m (SM4_greener, { m with cnt_SM4 := (m.cnt_SM4 + 1) % 256 }))
    (toYellow : ∀ m, 4 ≤ m.cnt_SM4 →
      P SM4_greener m
        (SM4_yellow, { m with PORTD := ((m.PORTD &&& 0xC7) ||| 0x10) % 256, cnt_SM4 := 1 }))
    (yellow : ∀ m, m.cnt_SM4 < 4 →
      P SM4_yellow m (SM4_yellow, { m with cnt_SM4 := (m.cnt_SM4 + 1) % 256 }))
    (toRed : ∀ m, 4 ≤ m.cnt_SM4 →
      P SM4_yellow m
        (SM4_wait, { m with PORTD := ((m.PORTD &&& 0xC7) ||| 0x20) % 256, cnt_SM4 := 1,
                            gtg := 0 }))
    (other : ∀ state m, state ≠ SM4_init → state ≠ SM4_wait → state ≠ SM4_green →
      state ≠ SM4_stillgreen → state ≠ SM4_greener → state ≠ SM4_yellow →
      P state m (SM4_init, m))
    (state : Int) (m : Machine) : P state m (SMTick4 state m) := by
  by_cases h0 : state = SM4_init
  · subst h0
    rw [tick4_init]
    exact init m
  by_cases h1 : state = SM4_wait
  · subst h1
    by_cases hw : m.car_waiting1 = 1
    · by_cases hc : m.cnt_SM4 < 2
      · rw [tick4_wait_count m hw hc]
        exact count m hw hc
      · rw [tick4_wait_grant m hw (Nat.le_of_not_lt hc)]
        exact grant m hw (Nat.le_of_not_lt hc)
    · by_cases hz : m.car_waiting1 = 0
      · rw [tick4_wait_idle m hz]
        exact idle m hw
      · rw [tick4_wait_other m hz hw]
        exact idle m hw
  by_cases h2 : state = SM4_green
  · subst h2
    rw [tick4_green]
    exact green m
  by_cases h3 : state = SM4_stillgreen
  · subst h3
    rw [tick4_stillgreen]
    exact stillgreen m
  by_cases h4 : state = SM4_greener
  · subst h4
    by_cases hc : m.cnt_SM4 < 4
    · rw [tick4_greener_dwell m hc]
      exact greener m hc
    · rw [tick4_greener_end m (Nat.le_of_not_lt hc)]
      exact toYellow m (Nat.le_of_not_lt hc)
  by_cases h5 : state = SM4_yellow
  · subst h5
    by_cases hc : m.cnt_SM4 < 4
    · rw [tick4_yellow_dwell m hc]
      exact yellow m hc
    · rw [tick4_yellow_end m (Nat.le_of_not_lt hc)]
      exact toRed m (Nat.le_of_not_lt hc)
  rw [tick4_default state m h0 h1 h2 h3 h4 h5]
  exact other state m h0 h1 h2 h3 h4 h5

/-! ## Frame properties of the tick functions -/

theorem tick1_flags (s : Nat) (state : Int) (m : Machine) :
    (SMTick1 s state m).2.good_to_go = m.good_to_go ∧
    (SMTick1 s state m).2.car_waiting1 = m.car_waiting1 ∧
    (SMTick1 s state m).2.gtg = m.gtg := by
  refine tick1_ind s
    (fun _ m r => r.2.good_to_go = m.good_to_go ∧ r.2.car_waiting1 = m.car_waiting1 ∧
      r.2.gtg = m.gtg) ?_ ?_ ?_ ?_ ?_ ?_ ?_ ?_ ?_ ?_ ?_ state m <;> intros <;> exact ⟨rfl, rfl, rfl⟩

theorem tick2_flags (state : Int) (m : Machine) :
    (SMTick2 state m).2.car_waiting = m.car_waiting ∧
    (SMTick2 state m).2.car_waiting1 = m.car_waiting1 ∧
    (SMTick2 state m).2.gtg = m.gtg := by
  refine tick2_ind
    (fun _ m r => r.2.car_waiting = m.car_waiting ∧ r.2.car_waiting1 = m.car_waiting1 ∧
      r.2.gtg = m.gtg) ?_ ?_ ?_ ?_ ?_ ?_ ?_ ?_ ?_ ?_ ?_ state m <;> intros <;> exact ⟨rfl, rfl, rfl⟩

theorem tick3_flags (s : Nat) (state : Int) (m : Machine) :
    (SMTick3 s state m).2.gtg = m.gtg ∧
    (SMTick3 s state m).2.car_waiting = m.car_waiting ∧
    (SMTick3 s state m).2.good_to_go = m.good_to_go := by
  refine tick3_ind s
    (fun _ m r => r.2.gtg = m.gtg ∧ r.2.car_waiting = m.car_waiting ∧
      r.2.good_to_go = m.good_to_go) ?_ ?_ ?_ ?_ ?_ ?_ ?_ ?_ ?_ ?_ ?_ state m <;> intros <;>
    exact ⟨rfl, rfl, rfl⟩

theorem tick4_flags (state : Int) (m : Machine) :
    (SMTick4 state m).2.car_waiting1 = m.car_waiting1 ∧
    (SMTick4 state m).2.car_waiting = m.car_waiting ∧
    (SMTick4 state m).2.good_to_go = m.good_to_go := by
  refine tick4_ind
    (fun _ m r => r.2.car_waiting1 = m.car_waiting1 ∧ r.2.car_waiting = m.car_waiting ∧
      r.2.good_to_go = m.good_to_go) ?_ ?_ ?_ ?_ ?_ ?_ ?_ ?_ ?_ ?_ ?_ state m <;> intros <;>
    exact ⟨rfl, rfl, rfl⟩

/-- C14. Single-writer handshake flags: for every state code, sensor reading and prior value
of the variables, `SMTick2` leaves `car_waiting` unchanged and `SMTick1` leaves `good_to_go`
unchanged; `SMTick4` leaves `car_waiting1` unchanged and `SMTick3` leaves `gtg` unchanged;
and no tick function changes a flag of the other lane (`SMTick1` and `SMTick2` leave
`car_waiting1` and `gtg` unchanged, `SMTick3` and `SMTick4` leave `car_waiting` and
`good_to_go` unchanged). -/
theorem single_writer_flags (adc : Nat) (state : Int) (m : Machine) :
    ((SMTick2 state m).2.car_waiting = m.car_waiting ∧
      (SMTick1 adc state m).2.good_to_go = m.good_to_go ∧
      (SMTick4 state m).2.car_waiting1 = m.car_waiting1 ∧
      (SMTick3 adc state m).2.gtg = m.gtg) ∧
    ((SMTick1 adc state m).2.car_waiting1 = m.car_waiting1 ∧
      (SMTick1 adc state m).2.gtg = m.gtg ∧
      (SMTick2 state m).2.car_waiting1 = m.car_waiting1 ∧
      (SMTick2 state m).2.gtg = m.gtg) ∧
    ((SMTick3 adc state m).2.car_waiting = m.car_waiting ∧
      (SMTick3 adc state m).2.good_to_go = m.good_to_go ∧
      (SMTick4 state m).2.car_waiting = m.car_waiting ∧
      (SMTick4 state m).2.good_to_go = m.good_to_go) :=
  ⟨⟨(tick2_flags state m).1, (tick1_flags adc state m).1, (tick4_flags state m).1,
      (tick3_flags adc state m).1⟩,
   ⟨(tick1_flags adc state m).2.1, (tick1_flags adc state m).2.2, (tick2_flags state m).2.1,
      (tick2_flags state m).2.2⟩,
   ⟨(tick3_flags adc state m).2.1, (tick3_flags adc state m).2.2, (tick4_flags state m).2.1,
      (tick4_flags state m).2.2⟩⟩

/-! ## Unexpected state codes -/

/-- C13, the claim as stated fails: on the state code 7, outside the six defined codes,
`SMTick1` and `SMTick3` return code 1 (`SM1_wait`, `SM3_wait`), not their Init code 0. -/
theorem self_healing_to_init_fails :
    (SMTick1 0x50 7 initMachine).1 = SM1_wait ∧ (SMTick1 0x50 7 initMachine).1 ≠ SM1_init ∧
    (SMTick3 0x50 7 initMachine).1 = SM3_wait ∧ (SMTick3 0x50 7 initMachine).1 ≠ SM3_init := by
  decide

/-- C13, amended. Self-healing on unexpected state codes: for every state code outside the
six defined codes, `SMTick2` and `SMTick4` return their Init code 0 and change nothing;
`SMTick1` and `SMTick3` return their Idle code 1 (the default branch of their second
`switch`) and change nothing but the stored sensor reading, which is exactly what they
do when called in their Init state. -/
theorem self_healing (adc : Nat) (state : Int) (m : Machine)
    (h0 : state ≠ 0) (h1 : state ≠ 1) (h2 : state ≠ 2) (h3 : state ≠ 3) (h4 : state ≠ 4)
    (h5 : state ≠ 5) :
    SMTick2 state m = (SM2_init, m) ∧ SMTick4 state m = (SM4_init, m) ∧
    SMTick1 adc state m = (SM1_wait, { m with adc0_value := adc % 2 ^ 16 }) ∧
    SMTick3 adc state m = (SM3_wait, { m with adc6_value := adc % 2 ^ 16 }) ∧
    SMTick1 adc state m = SMTick1 adc SM1_init m ∧
    SMTick3 adc state m = SMTick3 adc SM3_init m :=
  ⟨tick2_default state m h0 h1 h2 h3 h4 h5, tick4_default state m h0 h1 h2 h3 h4 h5,
   tick1_default adc state m h0 h1 h2 h3 h4 h5, tick3_default adc state m h0 h1 h2 h3 h4 h5,
   (tick1_default adc state m h0 h1 h2 h3 h4 h5).trans (tick1_init adc m).symm,
   (tick3_default adc state m h0 h1 h2 h3 h4 h5).trans (tick3_init adc m).symm⟩

/-- A witness of `self_healing`: the state code 7 and the reading `0x50` on the initial
registers of `main`. -/
theorem self_healing_witness :
    ((7 : Int) ≠ 0 ∧ (7 : Int) ≠ 1 ∧ (7 : Int) ≠ 2 ∧ (7 : Int) ≠ 3 ∧ (7 : Int) ≠ 4 ∧
      (7 : Int) ≠ 5) ∧
    (SMTick2 7 initMachine = (SM2_init, initMachine) ∧
      SMTick4 7 initMachine = (SM4_init, initMachine) ∧
      SMTick1 0x50 7 initMachine = (SM1_wait, { initMachine with adc0_value := 0x50 % 2 ^ 16 }) ∧
      SMTick3 0x50 7 initMachine = (SM3_wait, { initMachine with adc6_value := 0x50 % 2 ^ 16 }) ∧
      SMTick1 0x50 7 initMachine = SMTick1 0x50 SM1_init initMachine ∧
      SMTick3 0x50 7 initMachine = SMTick3 0x50 SM3_init initMachine) :=
  ⟨by decide,
   self_healing 0x50 7 initMachine (by decide) (by decide) (by decide) (by decide) (by decide)
    (by decide)⟩

/-! ## Writers of the bits of `PORTD` -/

theorem keep_bit (x a b i : Nat) (hi : i < 8) (ha : a.testBit i = true)
    (hb : b.testBit i = false) : (((x &&& a) ||| b) % 256).testBit i = x.testBit i := by
  simp only [show (256 : Nat) = 2 ^ 8 from rfl, Nat.testBit_mod_two_pow, Nat.testBit_or,
    Nat.testBit_and]
  simp [hi, ha, hb]

theorem keep_bit_and (x a i : Nat) (hi : i < 8) (ha : a.testBit i = true) :
    ((x &&& a) % 256).testBit i = x.testBit i := by
  simp only [show (256 : Nat) = 2 ^ 8 from rfl, Nat.testBit_mod_two_pow, Nat.testBit_and]
  simp [hi, ha]

theorem tick1_portd_bits (s : Nat) (state : Int) (m : Machine) (i : Nat) (hi : i < 8)
    (h6 : i ≠ 6) : (SMTick1 s state m).2.PORTD.testBit i = m.PORTD.testBit i := by
  have ha : (0xBF : Nat).testBit i = true := by interval_cases i <;> simp_all [Nat.testBit]
  have hb : (0x40 : Nat).testBit i = false := by interval_cases i <;> simp_all [Nat.testBit]
  refine tick1_ind s (fun _ m r => r.2.PORTD.testBit i = m.PORTD.testBit i)
    ?_ ?_ ?_ ?_ ?_ ?_ ?_ ?_ ?_ ?_ ?_ state m
  · intro m; rfl
  · intro m _
    dsimp only
    split_ifs
    · exact keep_bit_and _ _ i hi ha
    · rfl
  · intro m _
    dsimp only
    split_ifs
    · exact keep_bit_and _ _ i hi ha
    · rfl
  · intro m; rfl
  · intro m _; rfl
  · intro m _; rfl
  · intro m _; rfl
  · intro m _; rfl
  · intro m _; rfl
  · intro m _
    exact keep_bit _ _ _ i hi ha hb
  · intros; rfl

theorem tick3_portd_bits (s : Nat) (state : Int) (m : Machine) (i : Nat) (hi : i < 8)
    (h7 : i ≠ 7) : (SMTick3 s state m).2.PORTD.testBit i = m.PORTD.testBit i := by
  have ha : (0x7F : Nat).testBit i = true := by interval_cases i <;> simp_all [Nat.testBit]
  have hb : (0x80 : Nat).testBit i = false := by interval_cases i <;> simp_all [Nat.testBit]
  refine tick3_ind s (fun _ m r => r.2.PORTD.testBit i = m.PORTD.testBit i)
    ?_ ?_ ?_ ?_ ?_ ?_ ?_ ?_ ?_ ?_ ?_ state m
  · intro m; rfl
  · intro m _
    dsimp only
    split_ifs
    · exact keep_bit_and _ _ i hi ha
    · rfl
  · intro m _
    dsimp only
    split_ifs
    · exact keep_bit_and _ _ i hi ha
    · rfl
  · intro m; rfl
  · intro m _; rfl
  · intro m _; rfl
  · intro m _; rfl
  · intro m _; rfl
  · intro m _; rfl
  · intro m _
    exact keep_bit _ _ _ i hi ha hb
  · intros; rfl

theorem tick2_portd_bits (state : Int) (m : Machine) (hs : state ≠ SM2_init) (i : Nat)
    (hi : i < 8) (h0 : i ≠ 0) (h1 : i ≠ 1) (h2 : i ≠ 2) (h6 : i ≠ 6) :
    (SMTick2 state m).2.PORTD.testBit i = m.PORTD.testBit i := by
  have ha : (0xF8 : Nat).testBit i = true := by interval_cases i <;> simp_all [Nat.testBit]
  have hc : (0xBF : Nat).testBit i = true := by interval_cases i <;> simp_all [Nat.testBit]
  have b1 : (0x01 : Nat).testBit i = false := by interval_cases i <;> simp_all [Nat.testBit]
  have b2 : (0x02 : Nat).testBit i = false := by interval_cases i <;> simp_all [Nat.testBit]
  have b4 : (0x04 : Nat).testBit i = false := by interval_cases i <;> simp_all [Nat.testBit]
  refine tick2_ind
    (fun st m r => st ≠ SM2_init → r.2.PORTD.testBit i = m.PORTD.testBit i)
    ?_ ?_ ?_ ?_ ?_ ?_ ?_ ?_ ?_ ?_ ?_ state m hs
  · intro m h; exact absurd rfl h
  · intro m _ _; rfl
  · intro m _ _ _; rfl
  · intro m _ _ _; exact keep_bit _ _ _ i hi ha b1
  · intro m _; rfl
  · intro m _; exact keep_bit_and _ _ i hi hc
  · intro m _ _; rfl
  · intro m _ _; exact keep_bit _ _ _ i hi ha b2
  · intro m _ _; rfl
  · intro m _ _; exact keep_bit _ _ _ i hi ha b4
  · intro _ m _ _ _ _ _ _ _; rfl

theorem tick4_portd_bits (state : Int) (m : Machine) (i : Nat)
    (hi : i < 8) (h3 : i ≠ 3) (h4 : i ≠ 4) (h5 : i ≠ 5) (h7 : i ≠ 7) :
    (SMTick4 state m).2.PORTD.testBit i = m.PORTD.testBit i := by
  have ha : (0xC7 : Nat).testBit i = true := by interval_cases i <;> simp_all [Nat.testBit]
  have hc : (0x7F : Nat).testBit i = true := by interval_cases i <;> simp_all [Nat.testBit]
  have b1 : (0x08 : Nat).testBit i = false := by interval_cases i <;> simp_all [Nat.testBit]
  have b2 : (0x10 : Nat).testBit i = false := by interval_cases i <;> simp_all [Nat.testBit]
  have b4 : (0x20 : Nat).testBit i = false := by interval_cases i <;> simp_all [Nat.testBit]
  refine tick4_ind (fun _ m r => r.2.PORTD.testBit i = m.PORTD.testBit i)
    ?_ ?_ ?_ ?_ ?_ ?_ ?_ ?_ ?_ ?_ ?_ state m
  · intro m; rfl
  · intro m _; rfl
  · intro m _ _; rfl
  · intro m _ _; exact keep_bit _ _ _ i hi ha b1
  · intro m; rfl
  · intro m; exact keep_bit_and _ _ i hi hc
  · intro m _; rfl
  · intro m _; exact keep_bit _ _ _ i hi ha b2
  · intro m _; rfl
  · intro m _; exact keep_bit _ _ _ i hi ha b4
  · intros; rfl

/-- C15, the claim as stated fails: bit 6 of `PORTD` is changed by two tick functions.
`SMTick1` sets it when a granted vehicle passes, and `SMTick2` clears it on leaving
`SM2_stillgreen`. -/
theorem single_writer_bits_fails :
    (SMTick1 0x20 SM1_waited atLineGranted).2.PORTD.testBit 6 ≠ atLineGranted.PORTD.testBit 6 ∧
    (SMTick2 SM2_stillgreen passShown).2.PORTD.testBit 6 ≠ passShown.PORTD.testBit 6 := by
  decide

/-- C15, amended. Writers of the bits of `PORTD`, over all state codes and prior register
values. Frame: `SMTick1` changes no bit but bit 6 and `SMTick3` no bit but bit 7; `SMTick2`,
called in any state but `SM2_init`, changes no bit but bits 0-2 and bit 6; `SMTick4`
changes no bit but bits 3-5 and bit 7; and `SMTick2` called in `SM2_init` writes the whole
register (`PORTD = 0x24`). Writes: each of bits 0-2 is changed by some call of `SMTick2`
outside `SM2_init`, each of bits 3-5 by some call of `SMTick4`; bit 6 is set by `SMTick1`
(the granted pass from `SM1_waited`) and cleared by `SMTick2` on leaving `SM2_stillgreen`;
bit 7 is set by `SMTick3` (the granted pass from `SM3_waited`) and cleared by `SMTick4` on
leaving `SM4_stillgreen`; and every bit is changed by some call of `SMTick2` in `SM2_init`.
So bits 0-2 are changed by `SMTick2` only and bits 3-5 by `SMTick4` and the Init step of
`SMTick2` only, while each pass-indicator bit has a second writer in the light machine of
its lane. -/
theorem output_bit_writers (adc : Nat) (state : Int) (m : Machine) (i : Nat) (hi : i < 8) :
    (i ≠ 6 → (SMTick1 adc state m).2.PORTD.testBit i = m.PORTD.testBit i) ∧
    (i ≠ 7 → (SMTick3 adc state m).2.PORTD.testBit i = m.PORTD.testBit i) ∧
    (state ≠ SM2_init → i ≠ 0 → i ≠ 1 → i ≠ 2 → i ≠ 6 →
      (SMTick2 state m).2.PORTD.testBit i = m.PORTD.testBit i) ∧
    (i ≠ 3 → i ≠ 4 → i ≠ 5 → i ≠ 7 →
      (SMTick4 state m).2.PORTD.testBit i = m.PORTD.testBit i) ∧
    (SMTick2 SM2_init m).2.PORTD = 0x24 ∧
    (i < 3 → ∃ s r, s ≠ SM2_init ∧
      (SMTick2 s r).2.PORTD.testBit i ≠ r.PORTD.testBit i) ∧
    (3 ≤ i → i < 6 → ∃ s r, (SMTick4 s r).2.PORTD.testBit i ≠ r.PORTD.testBit i) ∧
    (∃ a r, r.PORTD.testBit 6 = false ∧
      (SMTick1 a SM1_waited r).2.PORTD.testBit 6 = true) ∧
    (∃ r, r.PORTD.testBit 6 = true ∧
      (SMTick2 SM2_stillgreen r).2.PORTD.testBit 6 = false) ∧
    (∃ a r, r.PORTD.testBit 7 = false ∧
      (SMTick3 a SM3_waited r).2.PORTD.testBit 7 = true) ∧
    (∃ r, r.PORTD.testBit 7 = true ∧
      (SMTick4 SM4_stillgreen r).2.PORTD.testBit 7 = false) ∧
    (∃ r, (SMTick2 SM2_init r).2.PORTD.testBit i ≠ r.PORTD.testBit i) := by
  refine ⟨tick1_portd_bits adc state m i hi, tick3_portd_bits adc state m i hi,
    fun hs => tick2_portd_bits state m hs i hi, tick4_portd_bits state m i hi,
    by rw [tick2_init], ?_, ?_, ?_, ?_, ?_, ?_, ?_⟩
  · intro h
    interval_cases i
    · exact ⟨SM2_wait, debouncedRequest, by decide, by decide⟩
    · exact ⟨SM2_greener, { initMachine with PORTD := 0x21, good_to_go := 1, cnt_SM2 := 4 },
        by decide, by decide⟩
    · exact ⟨SM2_wait, debouncedRequest, by decide, by decide⟩
  · intro h3 h6
    interval_cases i
    · exact ⟨SM4_wait, { initMachine with PORTD := 0x24, cnt_SM4 := 2, car_waiting1 := 1 },
        by decide⟩
    · exact ⟨SM4_greener, { initMachine with PORTD := 0x0C, gtg := 1, cnt_SM4 := 4 },
        by decide⟩
    · exact ⟨SM4_wait, { initMachine with PORTD := 0x24, cnt_SM4 := 2, car_waiting1 := 1 },
        by decide⟩
  · exact ⟨0x20, atLineGranted, by decide, by decide⟩
  · exact ⟨passShown, by decide, by decide⟩
  · exact ⟨0x20, { initMachine with PORTC := 0x80, PORTD := 0x0C, car_waiting1 := 1, gtg := 1 },
      by decide, by decide⟩
  · exact ⟨{ initMachine with PORTD := 0x8C, gtg := 1, cnt_SM4 := 2 }, by decide, by decide⟩
  · interval_cases i <;> exact ⟨{ initMachine with PORTD := 0xDB }, by decide⟩

/-- A witness of `output_bit_writers`: bit 3 (lane-2 green) across a granted pass of lane 1,
a lane-2 approach call and a lane-1 light call in `SM2_stillgreen`, bit 0 (lane-1 green)
across a lane-2 light call, and a writing call for bit 0 and for bit 4. -/
theorem output_bit_writers_witness :
    (3 < 8 ∧ (3 : Nat) ≠ 6 ∧
      (SMTick1 0x20 SM1_waited atLineGranted).2.PORTD.testBit 3
        = atLineGranted.PORTD.testBit 3) ∧
    ((3 : Nat) ≠ 7 ∧
      (SMTick3 0x20 SM3_wait atLineGranted).2.PORTD.testBit 3
        = atLineGranted.PORTD.testBit 3) ∧
    (SM2_stillgreen ≠ SM2_init ∧
      (SMTick2 SM2_stillgreen passShown).2.PORTD.testBit 3 = passShown.PORTD.testBit 3) ∧
    (0 < 8 ∧ (SMTick4 SM4_stillgreen passShown).2.PORTD.testBit 0 = passShown.PORTD.testBit 0) ∧
    (0 < 3 ∧ ∃ s r, s ≠ SM2_init ∧ (SMTick2 s r).2.PORTD.testBit 0 ≠ r.PORTD.testBit 0) ∧
    (3 ≤ 4 ∧ 4 < 6 ∧ ∃ s r, (SMTick4 s r).2.PORTD.testBit 4 ≠ r.PORTD.testBit 4) :=
  ⟨⟨by decide, by decide,
    (output_bit_writers 0x20 SM1_waited atLineGranted 3 (by decide)).1 (by decide)⟩,
   ⟨by decide,
    (output_bit_writers 0x20 SM3_wait atLineGranted 3 (by decide)).2.1 (by decide)⟩,
   ⟨by decide,
    (output_bit_writers 0x20 SM2_stillgreen passShown 3 (by decide)).2.2.1 (by decide)
      (by decide) (by decide) (by decide) (by decide)⟩,
   ⟨by decide,
    (output_bit_writers 0x20 SM4_stillgreen passShown 0 (by decide)).2.2.2.1 (by decide)
      (by decide) (by decide) (by decide)⟩,
   ⟨by decide,
    (output_bit_writers 0x20 SM2_wait debouncedRequest 0 (by decide)).2.2.2.2.2.1 (by decide)⟩,
   ⟨by decide, by decide,
    (output_bit_writers 0x20 SM4_greener passShown 4 (by decide)).2.2.2.2.2.2.1 (by decide)
      (by decide)⟩⟩

/-! ## Dwell lengths of the light machine -/

/-- C12, evaluation of the code. From the call of `SMTick2` in `SM2_stillgreen` (call 1, which
enters `SM2_greener` with `cnt_SM2 = 0`), calls 2 to 5 return `SM2_greener` (4 further
calls) and call 6 switches lane 1 to yellow and enters `SM2_yellow`, with `cnt_SM2 = 1`
since the counter is incremented after its reset; then only calls 7 to 9 return
`SM2_yellow` (3 further calls, not 4) and call 10 already switches lane 1 to red, clears
`good_to_go` and returns `SM2_wait`, again with `cnt_SM2 = 1`. -/
theorem dwell_lengths (cw : Nat → Nat) (m : Machine) :
    ((lightRun cw 1 (SM2_stillgreen, m)).1 = SM2_greener ∧
      (lightRun cw 1 (SM2_stillgreen, m)).2.cnt_SM2 = 0) ∧
    ((lightRun cw 2 (SM2_stillgreen, m)).1 = SM2_greener ∧
      (lightRun cw 3 (SM2_stillgreen, m)).1 = SM2_greener ∧
      (lightRun cw 4 (SM2_stillgreen, m)).1 = SM2_greener ∧
      (lightRun cw 5 (SM2_stillgreen, m)).1 = SM2_greener) ∧
    ((lightRun cw 6 (SM2_stillgreen, m)).1 = SM2_yellow ∧
      (lightRun cw 6 (SM2_stillgreen, m)).2.cnt_SM2 = 1 ∧
      (lightRun cw 6 (SM2_stillgreen, m)).2.PORTD &&& 0x07 = 0x02) ∧
    ((lightRun cw 7 (SM2_stillgreen, m)).1 = SM2_yellow ∧
      (lightRun cw 8 (SM2_stillgreen, m)).1 = SM2_yellow ∧
      (lightRun cw 9 (SM2_stillgreen, m)).1 = SM2_yellow) ∧
    ((lightRun cw 10 (SM2_stillgreen, m)).1 = SM2_wait ∧
      (lightRun cw 10 (SM2_stillgreen, m)).2.cnt_SM2 = 1 ∧
      (lightRun cw 10 (SM2_stillgreen, m)).2.PORTD &&& 0x07 = 0x04 ∧
      (lightRun cw 10 (SM2_stillgreen, m)).2.good_to_go = 0) := by
  have a1 : (lightRun cw 1 (SM2_stillgreen, m)).1 = SM2_greener ∧
    (lightRun cw 1 (SM2_stillgreen, m)).2.cnt_SM2 = 0 := by
    rw [lightRun_succ]
    simp only [lightRun]
    rw [tick2_stillgreen]
    exact ⟨rfl, rfl⟩
  have a2 : (lightRun cw 2 (SM2_stillgreen, m)).1 = SM2_greener ∧
    (lightRun cw 2 (SM2_stillgreen, m)).2.cnt_SM2 = 1 := by
    rw [lightRun_succ, a1.1, tick2_greener_dwell _ (by simp [a1.2])]
    exact ⟨rfl, by simp [a1.2]⟩
  have a3 : (lightRun cw 3 (SM2_stillgreen, m)).1 = SM2_greener ∧
    (lightRun cw 3 (SM2_stillgreen, m)).2.cnt_SM2 = 2 := by
    rw [lightRun_succ, a2.1, tick2_greener_dwell _ (by simp [a2.2])]
    exact ⟨rfl, by simp [a2.2]⟩
  have a4 : (lightRun cw 4 (SM2_stillgreen, m)).1 = SM2_greener ∧
    (lightRun cw 4 (SM2_stillgreen, m)).2.cnt_SM2 = 3 := by
    rw [lightRun_succ, a3.1, tick2_greener_dwell _ (by simp [a3.2])]
    exact ⟨rfl, by simp [a3.2]⟩
  have a5 : (lightRun cw 5 (SM2_stillgreen, m)).1 = SM2_greener ∧
    (lightRun cw 5 (SM2_stillgreen, m)).2.cnt_SM2 = 4 := by
    rw [lightRun_succ, a4.1, tick2_greener_dwell _ (by simp [a4.2])]
    exact ⟨rfl, by simp [a4.2]⟩
  have a6 : (lightRun cw 6 (SM2_stillgreen, m)).1 = SM2_yellow ∧
    (lightRun cw 6 (SM2_stillgreen, m)).2.cnt_SM2 = 1 ∧
      (lightRun cw 6 (SM2_stillgreen, m)).2.PORTD &&& 0x07 = 0x02 := by
    rw [lightRun_succ, a5.1, tick2_greener_end _ (by simp [a5.2])]
    exact ⟨rfl, rfl, phase_set _ 2 (by decide)⟩
  have a7 : (lightRun cw 7 (SM2_stillgreen, m)).1 = SM2_yellow ∧
    (lightRun cw 7 (SM2_stillgreen, m)).2.cnt_SM2 = 2 := by
    rw [lightRun_succ, a6.1, tick2_yellow_dwell _ (by simp [a6.2.1])]
    exact ⟨rfl, by simp [a6.2.1]⟩
  have a8 : (lightRun cw 8 (SM2_stillgreen, m)).1 = SM2_yellow ∧
    (lightRun cw 8 (SM2_stillgreen, m)).2.cnt_SM2 = 3 := by
    rw [lightRun_succ, a7.1, tick2_yellow_dwell _ (by simp [a7.2])]
    exact ⟨rfl, by simp [a7.2]⟩
  have a9 : (lightRun cw 9 (SM2_stillgreen, m)).1 = SM2_yellow ∧
    (lightRun cw 9 (SM2_stillgreen, m)).2.cnt_SM2 = 4 := by
    rw [lightRun_succ, a8.1, tick2_yellow_dwell _ (by simp [a8.2])]
    exact ⟨rfl, by simp [a8.2]⟩
  have a10 : (lightRun cw 10 (SM2_stillgreen, m)).1 = SM2_wait ∧
    (lightRun cw 10 (SM2_stillgreen, m)).2.cnt_SM2 = 1 ∧
      (lightRun cw 10 (SM2_stillgreen, m)).2.PORTD &&& 0x07 = 0x04 ∧
      (lightRun cw 10 (SM2_stillgreen, m)).2.good_to_go = 0 := by
    rw [lightRun_succ, a9.1, tick2_yellow_end _ (by simp [a9.2])]
    exact ⟨rfl, rfl, phase_set _ 4 (by decide), rfl⟩
  exact ⟨a1, ⟨a2.1, a3.1, a4.1, a5.1⟩, a6, ⟨a7.1, a8.1, a9.1⟩, a10⟩

/-! ## The two approach machines run the same logic -/

theorem pass_bit6_clear (x : Nat) : ((x &&& 0xBF) % 256).testBit 6 = false := by
  simp only [show (256 : Nat) = 2 ^ 8 from rfl, Nat.testBit_mod_two_pow, Nat.testBit_and]
  simp [Nat.testBit]

theorem pass_bit7_clear (x : Nat) : ((x &&& 0x7F) % 256).testBit 7 = false := by
  simp only [show (256 : Nat) = 2 ^ 8 from rfl, Nat.testBit_mod_two_pow, Nat.testBit_and]
  simp [Nat.testBit]

theorem pass_bit6_set (x : Nat) : (((x &&& 0xBF) ||| 0x40) % 256).testBit 6 = true := by
  simp only [show (256 : Nat) = 2 ^ 8 from rfl, Nat.testBit_mod_two_pow, Nat.testBit_and,
    Nat.testBit_or]
  simp [Nat.testBit]

theorem pass_bit7_set (x : Nat) : (((x &&& 0x7F) ||| 0x80) % 256).testBit 7 = true := by
  simp only [show (256 : Nat) = 2 ^ 8 from rfl, Nat.testBit_mod_two_pow, Nat.testBit_and,
    Nat.testBit_or]
  simp [Nat.testBit]

theorem wait_ne_sensed : SM1_wait ≠ SM1_sensed_car := by decide

theorem moving_ne_sensed : SM1_moving_car ≠ SM1_sensed_car := by decide

theorem moving8_ne_sensed : SM1_moving_car_8 ≠ SM1_sensed_car := by decide

theorem waited_ne_sensed : SM1_waited ≠ SM1_sensed_car := by decide

theorem lane_step (s : Nat) (state : Int) (m : Machine) :
    ∀ m3 : Machine, m.PORTB = m3.PORTC → m.PORTD.testBit 6 = m3.PORTD.testBit 7 →
      m.car_waiting = m3.car_waiting1 → m.cnt = m3.cnt_SM3 → m.good_to_go = m3.gtg →
      (state = SM1_sensed_car → m.cnt = 0) →
      LaneRel (SMTick1 s state m) (SMTick3 s state m3) ∧
      ((SMTick1 s state m).1 = SM1_sensed_car → (SMTick1 s state m).2.cnt = 0) := by
  refine tick1_ind s
    (fun st m r => ∀ m3 : Machine, m.PORTB = m3.PORTC →
      m.PORTD.testBit 6 = m3.PORTD.testBit 7 →
      m.car_waiting = m3.car_waiting1 → m.cnt = m3.cnt_SM3 → m.good_to_go = m3.gtg →
      (st = SM1_sensed_car → m.cnt = 0) →
      LaneRel r (SMTick3 s st m3) ∧ (r.1 = SM1_sensed_car → r.2.cnt = 0))
    ?_ ?_ ?_ ?_ ?_ ?_ ?_ ?_ ?_ ?_ ?_ state m
  · intro m m3 hB hD hw hc _ _
    have e : SMTick3 s SM1_init m3 = _ := tick3_init s m3
    rw [e]
    exact ⟨⟨rfl, hB, hD, hw, hc⟩, fun h => absurd h wait_ne_sensed⟩
  · intro m hs m3 _ hD hw hc _ _
    have e : SMTick3 s SM1_wait m3 = _ := tick3_wait_sensed s m3 hs
    rw [e]
    refine ⟨⟨rfl, rfl, ?_, hw, rfl⟩, fun _ => rfl⟩
    dsimp only
    rw [hc]
    split_ifs
    · rw [pass_bit6_clear, pass_bit7_clear]
    · exact hD
  · intro m hs m3 hB hD hw hc _ _
    have e : SMTick3 s SM1_wait m3 = _ := tick3_wait_stay s m3 hs
    rw [e]
    refine ⟨⟨rfl, hB, ?_, hw, ?_⟩, fun h => absurd h wait_ne_sensed⟩
    · dsimp only
      rw [hc]
      split_ifs
      · rw [pass_bit6_clear, pass_bit7_clear]
      · exact hD
    · dsimp only
      rw [hc]
  · intro m m3 hB hD hw _ _ h0
    have e : SMTick3 s SM1_sensed_car m3 = _ := tick3_sensed s m3
    rw [e]
    refine ⟨⟨rfl, ?_, hD, hw, h0 rfl⟩, fun h => absurd h moving_ne_sensed⟩
    dsimp only
    rw [hB]
  · intro m hp m3 hB hD hw hc _ _
    have e : SMTick3 s SM1_moving_car m3 = _ := tick3_moving s m3 (by rw [← hB]; exact hp)
    rw [e]
    refine ⟨⟨rfl, ?_, hD, hw, hc⟩, fun h => absurd h moving_ne_sensed⟩
    dsimp only
    rw [hB]
  · intro m hp m3 hB hD hw _ _ _
    have e : SMTick3 s SM1_moving_car m3 = _ := tick3_moving_end s m3 (by rw [← hB]; exact hp)
    rw [e]
    exact ⟨⟨rfl, hB, hD, hw, rfl⟩, fun h => absurd h moving8_ne_sensed⟩
  · intro m hcnt m3 hB hD hw hc _ _
    have e : SMTick3 s SM1_moving_car_8 m3 = _ := tick3_hold s m3 (by rw [← hc]; exact hcnt)
    rw [e]
    refine ⟨⟨rfl, hB, hD, hw, ?_⟩, fun h => absurd h moving8_ne_sensed⟩
    dsimp only
    rw [hc]
  · intro m hcnt m3 hB hD _ hc _ _
    have e : SMTick3 s SM1_moving_car_8 m3 = _ :=
      tick3_hold_end s m3 (by rw [← hc]; exact hcnt)
    rw [e]
    refine ⟨⟨rfl, hB, hD, rfl, ?_⟩, fun h => absurd h waited_ne_sensed⟩
    dsimp only
    rw [hc]
  · intro m hg' m3 hB hD _ hc hg _
    have e : SMTick3 s SM1_waited m3 = _ := tick3_waited_no s m3 (by rw [← hg]; exact hg')
    rw [e]
    exact ⟨⟨rfl, hB, hD, rfl, hc⟩, fun h => absurd h waited_ne_sensed⟩
  · intro m hg' m3 _ _ _ _ hg _
    have e : SMTick3 s SM1_waited m3 = _ := tick3_waited_go s m3 (by rw [← hg]; exact hg')
    rw [e]
    refine ⟨⟨rfl, rfl, ?_, rfl, rfl⟩, fun h => absurd h wait_ne_sensed⟩
    dsimp only
    rw [pass_bit6_set, pass_bit7_set]
  · intro st m h0 h1 h2 h3 h4 h5 m3 hB hD hw hc _ _
    rw [tick3_default s st m3 h0 h1 h2 h3 h4 h5]
    exact ⟨⟨rfl, hB, hD, hw, hc⟩, fun h => absurd h wait_ne_sensed⟩

theorem lane_runs (env : Nat → Nat × Nat) (m1 m3 : Machine) (hB : m1.PORTB = m3.PORTC)
    (hD : m1.PORTD.testBit 6 = m3.PORTD.testBit 7) (hw : m1.car_waiting = m3.car_waiting1)
    (hc : m1.cnt = m3.cnt_SM3) (n : Nat) :
    LaneRel (approachRun env n (SM1_init, m1)) (approachRun3 env n (SM3_init, m3)) ∧
    ((approachRun env n (SM1_init, m1)).1 = SM1_sensed_car →
      (approachRun env n (SM1_init, m1)).2.cnt = 0) := by
  induction n with
  | zero =>
    exact ⟨⟨rfl, hB, hD, hw, hc⟩, fun h => absurd h (show SM1_init ≠ SM1_sensed_car by decide)⟩
  | succ n ih =>
    obtain ⟨⟨r1, r2, r3, r4, r5⟩, aux⟩ := ih
    have e3 : approachRun3 env (n + 1) (SM3_init, m3)
        = SMTick3 (env n).1 (approachRun env n (SM1_init, m1)).1
            { (approachRun3 env n (SM3_init, m3)).2 with gtg := (env n).2 } := by
      rw [r1]
      rfl
    rw [approachRun_succ, e3]
    exact lane_step (env n).1 _ _ _ r2 r3 r4 r5 rfl aux

/-- C20. Both lanes run the same approach logic: started in their Init states on registers
that correspond under the lane renaming (`PORTB` for `PORTC`, bit 6 of `PORTD` for bit 7,
`car_waiting` for `car_waiting1`, `cnt` for `cnt_SM3`; in particular all zero), and given
the same sensor reading and the same value of `good_to_go` and `gtg` before each call,
`SMTick1` and `SMTick3` return the same state codes and leave equal position indicators,
pass-indicator bits, `car_waiting` and `car_waiting1`, and counters after every call. -/
theorem lanes_same_logic (env : Nat → Nat × Nat) (m1 m3 : Machine) (hB : m1.PORTB = m3.PORTC)
    (hD : m1.PORTD.testBit 6 = m3.PORTD.testBit 7) (hw : m1.car_waiting = m3.car_waiting1)
    (hc : m1.cnt = m3.cnt_SM3) (n : Nat) :
    (approachRun env n (SM1_init, m1)).1 = (approachRun3 env n (SM3_init, m3)).1 ∧
    (approachRun env n (SM1_init, m1)).2.PORTB = (approachRun3 env n (SM3_init, m3)).2.PORTC ∧
    (approachRun env n (SM1_init, m1)).2.PORTD.testBit 6
      = (approachRun3 env n (SM3_init, m3)).2.PORTD.testBit 7 ∧
    (approachRun env n (SM1_init, m1)).2.car_waiting
      = (approachRun3 env n (SM3_init, m3)).2.car_waiting1 ∧
    (approachRun env n (SM1_init, m1)).2.cnt = (approachRun3 env n (SM3_init, m3)).2.cnt_SM3 :=
  (lane_runs env m1 m3 hB hD hw hc n).1

/-- A witness of `lanes_same_logic`: both machines on the initial registers of `main`, with
a vehicle in front of the sensor and passage granted from call 30 on, after 40 calls. -/
theorem lanes_same_logic_witness :
    (initMachine.PORTB = initMachine.PORTC ∧
      initMachine.PORTD.testBit 6 = initMachine.PORTD.testBit 7 ∧
      initMachine.car_waiting = initMachine.car_waiting1 ∧
      initMachine.cnt = initMachine.cnt_SM3) ∧
    ((approachRun (fun k => (0x20, if k < 30 then 0 else 1)) 40 (SM1_init, initMachine)).1
        = (approachRun3 (fun k => (0x20, if k < 30 then 0 else 1)) 40 (SM3_init, initMachine)).1 ∧
      (approachRun (fun k => (0x20, if k < 30 then 0 else 1)) 40 (SM1_init, initMachine)).2.PORTB
        = (approachRun3 (fun k => (0x20, if k < 30 then 0 else 1)) 40
            (SM3_init, initMachine)).2.PORTC ∧
      (approachRun (fun k => (0x20, if k < 30 then 0 else 1)) 40
          (SM1_init, initMachine)).2.PORTD.testBit 6
        = (approachRun3 (fun k => (0x20, if k < 30 then 0 else 1)) 40
            (SM3_init, initMachine)).2.PORTD.testBit 7 ∧
      (approachRun (fun k => (0x20, if k < 30 then 0 else 1)) 40
          (SM1_init, initMachine)).2.car_waiting
        = (approachRun3 (fun k => (0x20, if k < 30 then 0 else 1)) 40
            (SM3_init, initMachine)).2.car_waiting1 ∧
      (approachRun (fun k => (0x20, if k < 30 then 0 else 1)) 40 (SM1_init, initMachine)).2.cnt
        = (approachRun3 (fun k => (0x20, if k < 30 then 0 else 1)) 40
            (SM3_init, initMachine)).2.cnt_SM3) :=
  ⟨⟨rfl, rfl, rfl, rfl⟩,
   lanes_same_logic (fun k => (0x20, if k < 30 then 0 else 1)) initMachine initMachine rfl rfl
    rfl rfl 40⟩

/-! ## The complete system: one pulse on the task array of `main` -/

theorem mainTasks_eq :
    mainTasks 1 10 1 10 = sysTasks SM1_init SM2_init SM3_init SM4_init 1 10 1 10 := rfl

theorem schedTask_eq (read_adc : Nat → Nat) (P : Nat)
    (F : (Nat → Nat) → Int → Machine → Int × Machine) (st : Int) (e : Nat) (m : Machine) :
    schedTask read_adc { state := st, period := P, elapsedTime := e, TickFct := F } m
      = ({ state := (stepTask P (F read_adc) st e m).1, period := P,
           elapsedTime := nextElapsed P e, TickFct := F },
         (stepTask P (F read_adc) st e m).2) := by
  unfold schedTask stepTask nextElapsed
  split_ifs <;> rfl

theorem pulse_sysTasks (read_adc : Nat → Nat) (st1 st2 st3 st4 : Int) (e1 e2 e3 e4 : Nat)
    (m : Machine) :
    pulse read_adc (sysTasks st1 st2 st3 st4 e1 e2 e3 e4) m
      = (sysTasks
          (stepTask 1 (SMTick1 (read_adc 0)) st1 e1 m).1
          (stepTask 10 SMTick2 st2 e2 (stepTask 1 (SMTick1 (read_adc 0)) st1 e1 m).2).1
          (stepTask 1 (SMTick3 (read_adc 6)) st3 e3
            (stepTask 10 SMTick2 st2 e2 (stepTask 1 (SMTick1 (read_adc 0)) st1 e1 m).2).2).1
          (stepTask 10 SMTick4 st4 e4
            (stepTask 1 (SMTick3 (read_adc 6)) st3 e3
              (stepTask 10 SMTick2 st2 e2
                (stepTask 1 (SMTick1 (read_adc 0)) st1 e1 m).2).2).2).1
          (nextElapsed 1 e1) (nextElapsed 10 e2) (nextElapsed 1 e3) (nextElapsed 10 e4),
         (stepTask 10 SMTick4 st4 e4
            (stepTask 1 (SMTick3 (read_adc 6)) st3 e3
              (stepTask 10 SMTick2 st2 e2
                (stepTask 1 (SMTick1 (read_adc 0)) st1 e1 m).2).2).2).2) := by
  simp only [sysTasks, pulse, schedTask_eq]

theorem runPulses_succ {I W : Type} (inps : Nat → I) (n : Nat) (s : List (task I W) × W) :
    runPulses inps (n + 1) s = pulse (inps n) (runPulses inps n s).1 (runPulses inps n s).2 :=
  rfl

theorem runPulses_shape (read_adc : Nat → Nat → Nat) (n : Nat) :
    ∃ st1 st2 st3 st4 e1 e2 e3 e4,
      (runPulses read_adc n (mainTasks 1 10 1 10, initMachine)).1
        = sysTasks st1 st2 st3 st4 e1 e2 e3 e4 := by
  induction n with
  | zero => exact ⟨_, _, _, _, _, _, _, _, mainTasks_eq⟩
  | succ n ih =>
    obtain ⟨st1, st2, st3, st4, e1, e2, e3, e4, h⟩ := ih
    rw [runPulses_succ, h, pulse_sysTasks]
    exact ⟨_, _, _, _, _, _, _, _, rfl⟩

/-! ## The phase groups are framed by the other machines -/

theorem field_of_bits (x y f : Nat) (h : ∀ i, f.testBit i = true → x.testBit i = y.testBit i) :
    x &&& f = y &&& f := by
  apply Nat.eq_of_testBit_eq
  intro i
  simp only [Nat.testBit_and]
  by_cases hf : f.testBit i = true
  · rw [h i hf]
  · simp [hf]

theorem bits_of_07 (i : Nat) (h : (0x07 : Nat).testBit i = true) : i < 3 := by
  by_contra hc
  by_cases h8 : i < 8
  · interval_cases i <;> simp_all [Nat.testBit]
  · rw [bits_small 7 i (by decide) h8] at h
    exact absurd h (by decide)

theorem bits_of_38 (i : Nat) (h : (0x38 : Nat).testBit i = true) : 3 ≤ i ∧ i < 6 := by
  by_contra hc
  by_cases h8 : i < 8
  · interval_cases i <;> simp_all [Nat.testBit]
  · rw [bits_small 0x38 i (by decide) h8] at h
    exact absurd h (by decide)

theorem tick1_fields (s : Nat) (state : Int) (m : Machine) :
    (SMTick1 s state m).2.PORTD &&& 0x07 = m.PORTD &&& 0x07 ∧
    (SMTick1 s state m).2.PORTD &&& 0x38 = m.PORTD &&& 0x38 := by
  constructor
  · refine field_of_bits _ _ _ (fun i hf => ?_)
    have := bits_of_07 i hf
    exact tick1_portd_bits s state m i (by omega) (by omega)
  · refine field_of_bits _ _ _ (fun i hf => ?_)
    have := bits_of_38 i hf
    exact tick1_portd_bits s state m i (by omega) (by omega)

theorem tick3_fields (s : Nat) (state : Int) (m : Machine) :
    (SMTick3 s state m).2.PORTD &&& 0x07 = m.PORTD &&& 0x07 ∧
    (SMTick3 s state m).2.PORTD &&& 0x38 = m.PORTD &&& 0x38 := by
  constructor
  · refine field_of_bits _ _ _ (fun i hf => ?_)
    have := bits_of_07 i hf
    exact tick3_portd_bits s state m i (by omega) (by omega)
  · refine field_of_bits _ _ _ (fun i hf => ?_)
    have := bits_of_38 i hf
    exact tick3_portd_bits s state m i (by omega) (by omega)

theorem tick2_field2 (state : Int) (m : Machine) (hs : state ≠ SM2_init) :
    (SMTick2 state m).2.PORTD &&& 0x38 = m.PORTD &&& 0x38 := by
  refine field_of_bits _ _ _ (fun i hf => ?_)
  have := bits_of_38 i hf
  exact tick2_portd_bits state m hs i (by omega) (by omega) (by omega) (by omega) (by omega)

theorem tick4_field1 (state : Int) (m : Machine) :
    (SMTick4 state m).2.PORTD &&& 0x07 = m.PORTD &&& 0x07 := by
  refine field_of_bits _ _ _ (fun i hf => ?_)
  have := bits_of_07 i hf
  exact tick4_portd_bits state m i (by omega) (by omega) (by omega) (by omega) (by omega)

theorem phase2_set (x v : Nat) (hv : v = 0x08 ∨ v = 0x10 ∨ v = 0x20) :
    ((x &&& 0xC7) ||| v) % 256 &&& 0x38 = v := by
  apply Nat.eq_of_testBit_eq
  intro i
  simp only [Nat.testBit_and, Nat.testBit_or, show (256 : Nat) = 2 ^ 8 from rfl,
    Nat.testBit_mod_two_pow]
  by_cases h : i < 8
  · rcases hv with rfl | rfl | rfl <;> interval_cases i <;> simp [Nat.testBit]
  · have hv' : v < 256 := by rcases hv with rfl | rfl | rfl <;> decide
    simp [h, bits_small 0x38 i (by decide) h, bits_small v i hv' h]

theorem phase1_keep_7F (x : Nat) : (x &&& 0x7F) % 256 &&& 0x07 = x &&& 0x07 := by
  refine field_of_bits _ _ _ (fun i hf => ?_)
  have := bits_of_07 i hf
  exact keep_bit_and x _ i (by omega) (by interval_cases i <;> simp [Nat.testBit])

theorem phase2_keep_7F (x : Nat) : (x &&& 0x7F) % 256 &&& 0x38 = x &&& 0x38 := by
  refine field_of_bits _ _ _ (fun i hf => ?_)
  have := bits_of_38 i hf
  exact keep_bit_and x _ i (by omega) (by
    have h3 := this.1
    have h6 := this.2
    interval_cases i <;> simp [Nat.testBit])

/-! ## Invariants of the light machines -/

theorem tick2_light1 (state : Int) (m : Machine) (h : Light1Inv state m) :
    Light1Inv (toSChar (SMTick2 state m).1) (SMTick2 state m).2 ∧
    toSChar (SMTick2 state m).1 ≠ SM2_init := by
  have p1 := fun x => phase_set x 1 (by decide)
  have p2 := fun x => phase_set x 2 (by decide)
  refine tick2_ind
    (fun st m r => Light1Inv st m → Light1Inv (toSChar r.1) r.2 ∧ toSChar r.1 ≠ SM2_init)
    ?_ ?_ ?_ ?_ ?_ ?_ ?_ ?_ ?_ ?_ ?_ state m h
  · intro m
    simp [Light1Inv, toSChar, SM2_init, SM2_wait]
  · intro m _
    simp [Light1Inv, toSChar, SM2_init, SM2_wait]
  · intro m _ _
    simp [Light1Inv, toSChar, SM2_init, SM2_wait]
  · intro m _ _
    simp only [Light1Inv, toSChar, SM2_init, SM2_wait, SM2_green]
    simp [p1]
  · intro m
    simp only [Light1Inv, toSChar, SM2_init, SM2_wait, SM2_green, SM2_stillgreen]
    simp
  · intro m
    simp only [Light1Inv, toSChar, SM2_init, SM2_wait, SM2_green, SM2_stillgreen, SM2_greener]
    simp [phase_keep]
  · intro m _
    simp only [Light1Inv, toSChar, SM2_init, SM2_wait, SM2_green, SM2_stillgreen, SM2_greener]
    simp
  · intro m _
    simp only [Light1Inv, toSChar, SM2_init, SM2_wait, SM2_green, SM2_stillgreen, SM2_greener,
      SM2_yellow]
    simp [p2]
    exact fun h _ => h
  · intro m _
    simp only [Light1Inv, toSChar, SM2_init, SM2_wait, SM2_green, SM2_stillgreen, SM2_greener,
      SM2_yellow]
    simp
  · intro m _
    simp only [Light1Inv, toSChar, SM2_init, SM2_wait, SM2_green, SM2_stillgreen, SM2_greener,
      SM2_yellow]
    simp
  · intro st m h0 h1 h2 h3 h4 h5 hI
    simp only [Light1Inv, h0, h1, h2, h3, h4, h5, or_self, if_false] at hI

theorem tick4_light2 (state : Int) (m : Machine) (h : Light2Inv state m) :
    Light2Inv (toSChar (SMTick4 state m).1) (SMTick4 state m).2 ∧
    toSChar (SMTick4 state m).1 ≠ SM4_init := by
  have p1 := fun x => phase2_set x 0x08 (Or.inl rfl)
  have p2 := fun x => phase2_set x 0x10 (Or.inr (Or.inl rfl))
  refine tick4_ind
    (fun st m r => Light2Inv st m → Light2Inv (toSChar r.1) r.2 ∧ toSChar r.1 ≠ SM4_init)
    ?_ ?_ ?_ ?_ ?_ ?_ ?_ ?_ ?_ ?_ ?_ state m h
  · intro m
    simp [Light2Inv, toSChar, SM4_init, SM4_wait]
  · intro m _
    simp [Light2Inv, toSChar, SM4_init, SM4_wait]
  · intro m _ _
    simp [Light2Inv, toSChar, SM4_init, SM4_wait]
  · intro m _ _
    simp only [Light2Inv, toSChar, SM4_init, SM4_wait, SM4_green]
    simp [p1]
  · intro m
    simp only [Light2Inv, toSChar, SM4_init, SM4_wait, SM4_green, SM4_stillgreen]
    simp
  · intro m
    simp only [Light2Inv, toSChar, SM4_init, SM4_wait, SM4_green, SM4_stillgreen, SM4_greener]
    simp [phase2_keep_7F]
  · intro m _
    simp only [Light2Inv, toSChar, SM4_init, SM4_wait, SM4_green, SM4_stillgreen, SM4_greener]
    simp
  · intro m _
    simp only [Light2Inv, toSChar, SM4_init, SM4_wait, SM4_green, SM4_stillgreen, SM4_greener,
      SM4_yellow]
    simp [p2]
    exact fun h _ => h
  · intro m _
    simp only [Light2Inv, toSChar, SM4_init, SM4_wait, SM4_green, SM4_stillgreen, SM4_greener,
      SM4_yellow]
    simp
  · intro m _
    simp only [Light2Inv, toSChar, SM4_init, SM4_wait, SM4_green, SM4_stillgreen, SM4_greener,
      SM4_yellow]
    simp
  · intro st m h0 h1 h2 h3 h4 h5 hI
    simp only [Light2Inv, h0, h1, h2, h3, h4, h5, or_self, if_false] at hI

theorem light1_frame (st : Int) (m m' : Machine) (h : Light1Inv st m)
    (hg : m'.good_to_go = m.good_to_go) (hp : m'.PORTD &&& 0x07 = m.PORTD &&& 0x07) :
    Light1Inv st m' := by
  unfold Light1Inv at h ⊢
  rw [hg, hp]
  exact h

theorem light2_frame (st : Int) (m m' : Machine) (h : Light2Inv st m)
    (hg : m'.gtg = m.gtg) (hp : m'.PORTD &&& 0x38 = m.PORTD &&& 0x38) :
    Light2Inv st m' := by
  unfold Light2Inv at h ⊢
  rw [hg, hp]
  exact h

theorem light1_granted (st : Int) (m : Machine) (h : Light1Inv st m) (hg : m.good_to_go = 1) :
    m.PORTD &&& 0x07 = 0x01 ∨ m.PORTD &&& 0x07 = 0x02 := by
  unfold Light1Inv at h
  split_ifs at h
  · rw [hg] at h
    exact absurd h (by decide)
  · rw [hg] at h
    exact absurd h.1 (by decide)
  · exact Or.inl h.2
  · exact Or.inr h.2

theorem light2_granted (st : Int) (m : Machine) (h : Light2Inv st m) (hg : m.gtg = 1) :
    m.PORTD &&& 0x38 = 0x08 ∨ m.PORTD &&& 0x38 = 0x10 := by
  unfold Light2Inv at h
  split_ifs at h
  · rw [hg] at h
    exact absurd h (by decide)
  · rw [hg] at h
    exact absurd h.1 (by decide)
  · exact Or.inl h.2
  · exact Or.inr h.2

/-! ## Phase encoding -/

theorem tick1_valid (s : Nat) (state : Int) (m : Machine) (h : PhasesValid m) :
    PhasesValid (SMTick1 s state m).2 := by
  unfold PhasesValid at h ⊢
  rw [(tick1_fields s state m).1, (tick1_fields s state m).2]
  exact h

theorem tick3_valid (s : Nat) (state : Int) (m : Machine) (h : PhasesValid m) :
    PhasesValid (SMTick3 s state m).2 := by
  unfold PhasesValid at h ⊢
  rw [(tick3_fields s state m).1, (tick3_fields s state m).2]
  exact h

theorem tick2_phase1 (state : Int) (m : Machine)
    (h : state = SM2_init ∨
      (m.PORTD &&& 0x07 = 0x01 ∨ m.PORTD &&& 0x07 = 0x02 ∨ m.PORTD &&& 0x07 = 0x04)) :
    (SMTick2 state m).2.PORTD &&& 0x07 = 0x01 ∨ (SMTick2 state m).2.PORTD &&& 0x07 = 0x02 ∨
      (SMTick2 state m).2.PORTD &&& 0x07 = 0x04 := by
  have p1 := fun x => phase_set x 1 (by decide)
  have p2 := fun x => phase_set x 2 (by decide)
  have p4 := fun x => phase_set x 4 (by decide)
  refine tick2_ind
    (fun st m r => (st = SM2_init ∨
        (m.PORTD &&& 0x07 = 0x01 ∨ m.PORTD &&& 0x07 = 0x02 ∨ m.PORTD &&& 0x07 = 0x04)) →
      (r.2.PORTD &&& 0x07 = 0x01 ∨ r.2.PORTD &&& 0x07 = 0x02 ∨ r.2.PORTD &&& 0x07 = 0x04))
    ?_ ?_ ?_ ?_ ?_ ?_ ?_ ?_ ?_ ?_ ?_ state m h
  · intro m _
    exact Or.inr (Or.inr (show (0x24 : Nat) &&& 0x07 = 0x04 by decide))
  · intro m _ h
    exact h.resolve_left (by decide)
  · intro m _ _ h
    exact h.resolve_left (by decide)
  · intro m _ _ _
    exact Or.inl (p1 _)
  · intro m h
    exact h.resolve_left (by decide)
  · intro m h
    have h' := h.resolve_left (by decide)
    dsimp only
    rw [phase_keep]
    exact h'
  · intro m _ h
    exact h.resolve_left (by decide)
  · intro m _ _
    exact Or.inr (Or.inl (p2 _))
  · intro m _ h
    exact h.resolve_left (by decide)
  · intro m _ _
    exact Or.inr (Or.inr (p4 _))
  · intro st m h0 _ _ _ _ _ h
    exact h.resolve_left h0

theorem tick4_phase2 (state : Int) (m : Machine)
    (h : m.PORTD &&& 0x38 = 0x08 ∨ m.PORTD &&& 0x38 = 0x10 ∨ m.PORTD &&& 0x38 = 0x20) :
    (SMTick4 state m).2.PORTD &&& 0x38 = 0x08 ∨ (SMTick4 state m).2.PORTD &&& 0x38 = 0x10 ∨
      (SMTick4 state m).2.PORTD &&& 0x38 = 0x20 := by
  have p1 := fun x => phase2_set x 0x08 (Or.inl rfl)
  have p2 := fun x => phase2_set x 0x10 (Or.inr (Or.inl rfl))
  have p4 := fun x => phase2_set x 0x20 (Or.inr (Or.inr rfl))
  refine tick4_ind
    (fun _ m r =>
      (m.PORTD &&& 0x38 = 0x08 ∨ m.PORTD &&& 0x38 = 0x10 ∨ m.PORTD &&& 0x38 = 0x20) →
      (r.2.PORTD &&& 0x38 = 0x08 ∨ r.2.PORTD &&& 0x38 = 0x10 ∨ r.2.PORTD &&& 0x38 = 0x20))
    ?_ ?_ ?_ ?_ ?_ ?_ ?_ ?_ ?_ ?_ ?_ state m h
  · intro m h
    exact h
  · intro m _ h
    exact h
  · intro m _ _ h
    exact h
  · intro m _ _ _
    exact Or.inl (p1 _)
  · intro m h
    exact h
  · intro m h
    dsimp only
    rw [phase2_keep_7F]
    exact h
  · intro m _ h
    exact h
  · intro m _ _
    exact Or.inr (Or.inl (p2 _))
  · intro m _ h
    exact h
  · intro m _ _
    exact Or.inr (Or.inr (p4 _))
  · intro st m _ _ _ _ _ _ h
    exact h

theorem tick2_valid (state : Int) (m : Machine) (h : state = SM2_init ∨ PhasesValid m) :
    PhasesValid (SMTick2 state m).2 := by
  by_cases hs : state = SM2_init
  · subst hs
    rw [tick2_init]
    exact ⟨Or.inr (Or.inr (show (0x24 : Nat) &&& 0x07 = 0x04 by decide)),
      Or.inr (Or.inr (show (0x24 : Nat) &&& 0x38 = 0x20 by decide))⟩
  · have hv := h.resolve_left hs
    refine ⟨tick2_phase1 state m (Or.inr hv.1), ?_⟩
    rw [tick2_field2 state m hs]
    exact hv.2

theorem tick4_valid (state : Int) (m : Machine) (h : PhasesValid m) :
    PhasesValid (SMTick4 state m).2 := by
  refine ⟨?_, tick4_phase2 state m h.2⟩
  rw [tick4_field1]
  exact h.1

theorem stepTask_valid (P : Nat) (f : Int → Machine → Int × Machine) (st : Int) (e : Nat)
    (m : Machine) (hf : PhasesValid m → PhasesValid (f st m).2) (h : PhasesValid m) :
    PhasesValid (stepTask P f st e m).2 := by
  unfold stepTask
  split_ifs
  · exact hf h
  · exact h

/-! ## The complete system: invariants over all runs -/

theorem step1_frame (s : Nat) (st : Int) (e : Nat) (m : Machine) :
    (stepTask 1 (SMTick1 s) st e m).2.good_to_go = m.good_to_go ∧
    (stepTask 1 (SMTick1 s) st e m).2.gtg = m.gtg ∧
    (stepTask 1 (SMTick1 s) st e m).2.PORTD &&& 0x07 = m.PORTD &&& 0x07 ∧
    (stepTask 1 (SMTick1 s) st e m).2.PORTD &&& 0x38 = m.PORTD &&& 0x38 := by
  unfold stepTask
  split_ifs
  · exact ⟨(tick1_flags s st m).1, (tick1_flags s st m).2.2, (tick1_fields s st m).1,
      (tick1_fields s st m).2⟩
  · exact ⟨rfl, rfl, rfl, rfl⟩

theorem step3_frame (s : Nat) (st : Int) (e : Nat) (m : Machine) :
    (stepTask 1 (SMTick3 s) st e m).2.good_to_go = m.good_to_go ∧
    (stepTask 1 (SMTick3 s) st e m).2.gtg = m.gtg ∧
    (stepTask 1 (SMTick3 s) st e m).2.PORTD &&& 0x07 = m.PORTD &&& 0x07 ∧
    (stepTask 1 (SMTick3 s) st e m).2.PORTD &&& 0x38 = m.PORTD &&& 0x38 := by
  unfold stepTask
  split_ifs
  · exact ⟨(tick3_flags s st m).2.2, (tick3_flags s st m).1, (tick3_fields s st m).1,
      (tick3_fields s st m).2⟩
  · exact ⟨rfl, rfl, rfl, rfl⟩

theorem step2_lights (st2 st4 : Int) (e : Nat) (m : Machine) (h1 : Light1Inv st2 m)
    (h2 : Light2Inv st4 m) (hcpl : st2 = SM2_init → st4 = SM4_init) :
    Light1Inv (stepTask 10 SMTick2 st2 e m).1 (stepTask 10 SMTick2 st2 e m).2 ∧
    Light2Inv st4 (stepTask 10 SMTick2 st2 e m).2 ∧
    (e = 10 → (stepTask 10 SMTick2 st2 e m).1 ≠ SM2_init) ∧
    (e ≠ 10 → (stepTask 10 SMTick2 st2 e m).1 = st2) := by
  unfold stepTask
  split_ifs with he
  · refine ⟨(tick2_light1 st2 m h1).1, ?_, fun _ => (tick2_light1 st2 m h1).2,
      fun h => absurd he h⟩
    by_cases hs : st2 = SM2_init
    · have h4 := hcpl hs
      subst hs
      subst h4
      have hg : m.gtg = 0 := by simpa [Light2Inv] using h2
      have : (SMTick2 SM2_init m).2.gtg = 0 := by rw [(tick2_flags SM2_init m).2.2]; exact hg
      simpa [Light2Inv] using this
    · exact light2_frame st4 m _ h2 (tick2_flags st2 m).2.2 (tick2_field2 st2 m hs)
  · exact ⟨h1, h2, fun h => absurd h he, fun _ => rfl⟩

theorem step4_lights (st2 st4 : Int) (e : Nat) (m : Machine) (h1 : Light1Inv st2 m)
    (h2 : Light2Inv st4 m) :
    Light1Inv st2 (stepTask 10 SMTick4 st4 e m).2 ∧
    Light2Inv (stepTask 10 SMTick4 st4 e m).1 (stepTask 10 SMTick4 st4 e m).2 ∧
    (e ≠ 10 → (stepTask 10 SMTick4 st4 e m).1 = st4) := by
  unfold stepTask
  split_ifs with he
  · exact ⟨light1_frame st2 m _ h1 (tick4_flags st4 m).2.2 (tick4_field1 st4 m),
      (tick4_light2 st4 m h2).1, fun h => absurd he h⟩
  · exact ⟨h1, h2, fun _ => rfl⟩

theorem pulse_lights (read_adc : Nat → Nat) (st1 st2 st3 st4 : Int) (e1 e2 e3 : Nat)
    (m : Machine) (a b c d : Int × Machine)
    (ha : a = stepTask 1 (SMTick1 (read_adc 0)) st1 e1 m)
    (hb : b = stepTask 10 SMTick2 st2 e2 a.2)
    (hc : c = stepTask 1 (SMTick3 (read_adc 6)) st3 e3 b.2)
    (hd : d = stepTask 10 SMTick4 st4 e2 c.2)
    (h1 : Light1Inv st2 m) (h2 : Light2Inv st4 m) (hcpl : st2 = SM2_init → st4 = SM4_init) :
    (Light1Inv st2 a.2 ∧ Light2Inv st4 a.2) ∧ (Light1Inv b.1 b.2 ∧ Light2Inv st4 b.2) ∧
    (Light1Inv b.1 c.2 ∧ Light2Inv st4 c.2) ∧ (Light1Inv b.1 d.2 ∧ Light2Inv d.1 d.2) ∧
    (b.1 = SM2_init → d.1 = SM4_init) := by
  have fa := step1_frame (read_adc 0) st1 e1 m
  rw [← ha] at fa
  have a1 : Light1Inv st2 a.2 := light1_frame st2 m a.2 h1 fa.1 fa.2.2.1
  have a2 : Light2Inv st4 a.2 := light2_frame st4 m a.2 h2 fa.2.1 fa.2.2.2
  have fb := step2_lights st2 st4 e2 a.2 a1 a2 hcpl
  rw [← hb] at fb
  have fc := step3_frame (read_adc 6) st3 e3 b.2
  rw [← hc] at fc
  have c1 : Light1Inv b.1 c.2 := light1_frame b.1 b.2 c.2 fb.1 fc.1 fc.2.2.1
  have c2 : Light2Inv st4 c.2 := light2_frame st4 b.2 c.2 fb.2.1 fc.2.1 fc.2.2.2
  have fd := step4_lights b.1 st4 e2 c.2 c1 c2
  rw [← hd] at fd
  refine ⟨⟨a1, a2⟩, ⟨fb.1, fb.2.1⟩, ⟨c1, c2⟩, ⟨fd.1, fd.2.1⟩, ?_⟩
  intro hinit
  by_cases he : e2 = 10
  · exact absurd hinit (fb.2.2.1 he)
  · rw [fd.2.2 he]
    rw [fb.2.2.2 he] at hinit
    exact hcpl hinit

theorem runPulses_lights (read_adc : Nat → Nat → Nat) (n : Nat) :
    ∃ st1 st2 st3 st4 e1 e2 e3,
      (runPulses read_adc n (mainTasks 1 10 1 10, initMachine)).1
        = sysTasks st1 st2 st3 st4 e1 e2 e3 e2 ∧
      Light1Inv st2 (runPulses read_adc n (mainTasks 1 10 1 10, initMachine)).2 ∧
      Light2Inv st4 (runPulses read_adc n (mainTasks 1 10 1 10, initMachine)).2 ∧
      (st2 = SM2_init → st4 = SM4_init) := by
  induction n with
  | zero =>
    refine ⟨_, _, _, _, _, _, _, mainTasks_eq, ?_, ?_, fun _ => rfl⟩
    · simp [runPulses, Light1Inv, initMachine]
    · simp [runPulses, Light2Inv, initMachine]
  | succ n ih =>
    obtain ⟨st1, st2, st3, st4, e1, e2, e3, hts, h1, h2, hcpl⟩ := ih
    rw [runPulses_succ, hts, pulse_sysTasks]
    have key := pulse_lights (read_adc n) st1 st2 st3 st4 e1 e2 e3 _ _ _ _ _ rfl rfl rfl rfl
      h1 h2 hcpl
    exact ⟨_, _, _, _, _, _, _, rfl, key.2.2.2.1.1, key.2.2.2.1.2, key.2.2.2.2⟩

theorem pulse_take_sysTasks (read_adc : Nat → Nat) (st1 st2 st3 st4 : Int) (e1 e2 e3 e4 : Nat)
    (m : Machine) (j : Nat) (a b c d : Int × Machine)
    (ha : a = stepTask 1 (SMTick1 (read_adc 0)) st1 e1 m)
    (hb : b = stepTask 10 SMTick2 st2 e2 a.2)
    (hc : c = stepTask 1 (SMTick3 (read_adc 6)) st3 e3 b.2)
    (hd : d = stepTask 10 SMTick4 st4 e4 c.2) :
    (pulse read_adc ((sysTasks st1 st2 st3 st4 e1 e2 e3 e4).take j) m).2 = m ∨
    (pulse read_adc ((sysTasks st1 st2 st3 st4 e1 e2 e3 e4).take j) m).2 = a.2 ∨
    (pulse read_adc ((sysTasks st1 st2 st3 st4 e1 e2 e3 e4).take j) m).2 = b.2 ∨
    (pulse read_adc ((sysTasks st1 st2 st3 st4 e1 e2 e3 e4).take j) m).2 = c.2 ∨
    (pulse read_adc ((sysTasks st1 st2 st3 st4 e1 e2 e3 e4).take j) m).2 = d.2 := by
  subst ha hb hc hd
  rcases j with _ | _ | _ | _ | j
  · left
    simp [sysTasks, pulse]
  · right; left
    simp [sysTasks, pulse, schedTask_eq]
  · right; right; left
    simp [sysTasks, pulse, schedTask_eq]
  · right; right; right; left
    simp [sysTasks, pulse, schedTask_eq]
  · right; right; right; right
    simp [sysTasks, pulse, schedTask_eq]

theorem pulse_valid (read_adc : Nat → Nat) (st1 st2 st3 st4 : Int) (e1 e2 e3 e4 : Nat)
    (m : Machine) (a b c d : Int × Machine)
    (ha : a = stepTask 1 (SMTick1 (read_adc 0)) st1 e1 m)
    (hb : b = stepTask 10 SMTick2 st2 e2 a.2)
    (hc : c = stepTask 1 (SMTick3 (read_adc 6)) st3 e3 b.2)
    (hd : d = stepTask 10 SMTick4 st4 e4 c.2)
    (h : PhasesValid m) :
    PhasesValid a.2 ∧ PhasesValid b.2 ∧ PhasesValid c.2 ∧ PhasesValid d.2 := by
  have va : PhasesValid a.2 := by
    rw [ha]
    exact stepTask_valid _ _ _ _ _ (tick1_valid _ _ _) h
  have vb : PhasesValid b.2 := by
    rw [hb]
    exact stepTask_valid _ _ _ _ _ (fun h' => tick2_valid _ _ (Or.inr h')) va
  have vc : PhasesValid c.2 := by
    rw [hc]
    exact stepTask_valid _ _ _ _ _ (tick3_valid _ _ _) vb
  have vd : PhasesValid d.2 := by
    rw [hd]
    exact stepTask_valid _ _ _ _ _ (tick4_valid _ _) vc
  exact ⟨va, vb, vc, vd⟩

theorem runPulses_valid (read_adc : Nat → Nat → Nat) (n : Nat) :
    PhasesValid (runPulses read_adc (n + 1) (mainTasks 1 10 1 10, initMachine)).2 := by
  induction n with
  | zero =>
    rw [runPulses_succ]
    simp only [runPulses]
    rw [mainTasks_eq, pulse_sysTasks]
    have vb : PhasesValid
        (stepTask 10 SMTick2 SM2_init 10
          (stepTask 1 (SMTick1 (read_adc 0 0)) SM1_init 1 initMachine).2).2 := by
      unfold stepTask
      simp only [if_true]
      exact tick2_valid _ _ (Or.inl rfl)
    exact stepTask_valid _ _ _ _ _ (tick4_valid _ _)
      (stepTask_valid _ _ _ _ _ (tick3_valid _ _ _) vb)
  | succ n ih =>
    obtain ⟨st1, st2, st3, st4, e1, e2, e3, e4, hts⟩ := runPulses_shape read_adc (n + 1)
    rw [runPulses_succ, hts, pulse_sysTasks]
    exact (pulse_valid (read_adc (n + 1)) st1 st2 st3 st4 e1 e2 e3 e4 _ _ _ _ _
      rfl rfl rfl rfl ih).2.2.2

/-- C16. Phase encoding is mutually exclusive: in the complete system (`mainSetup`, that is
the task array of `main` with periods 1, 10, 1, 10 on the initial registers), for any
sensor readings, in every state reached after the first scheduler pulse (after `n ≥ 1`
pulses and the first `j` tasks of the next one) each lane shows exactly one phase: bits
0-2 of `PORTD` are `0x01`, `0x02` or `0x04` and bits 3-5 are `0x08`, `0x10` or `0x20`. -/
theorem phases_exclusive (read_adc : Nat → Nat → Nat) (n j : Nat) (hn : 1 ≤ n) :
    mainSetup = some (50, mainTasks 1 10 1 10, initMachine) ∧
    ((reachedRegs read_adc n j).PORTD &&& 0x07 = 0x01 ∨
      (reachedRegs read_adc n j).PORTD &&& 0x07 = 0x02 ∨
      (reachedRegs read_adc n j).PORTD &&& 0x07 = 0x04) ∧
    ((reachedRegs read_adc n j).PORTD &&& 0x38 = 0x08 ∨
      (reachedRegs read_adc n j).PORTD &&& 0x38 = 0x10 ∨
      (reachedRegs read_adc n j).PORTD &&& 0x38 = 0x20) := by
  refine ⟨mainSetup_eq, ?_⟩
  obtain ⟨k, rfl⟩ : ∃ k, n = k + 1 := ⟨n - 1, by omega⟩
  have hv := runPulses_valid read_adc k
  obtain ⟨st1, st2, st3, st4, e1, e2, e3, e4, hts⟩ := runPulses_shape read_adc (k + 1)
  have key := pulse_valid (read_adc (k + 1)) st1 st2 st3 st4 e1 e2 e3 e4 _ _ _ _ _
    rfl rfl rfl rfl hv
  unfold reachedRegs
  rw [hts]
  rcases pulse_take_sysTasks (read_adc (k + 1)) st1 st2 st3 st4 e1 e2 e3 e4
    (runPulses read_adc (k + 1) (mainTasks 1 10 1 10, initMachine)).2 j _ _ _ _
    rfl rfl rfl rfl with h | h | h | h | h <;> rw [h]
  · exact hv
  · exact key.1
  · exact key.2.1
  · exact key.2.2.1
  · exact key.2.2.2

/-- A witness of `phases_exclusive`: after the first pulse both lanes show red. -/
theorem phases_exclusive_witness :
    1 ≤ 1 ∧
    ((reachedRegs carsWaiting 1 0).PORTD &&& 0x07 = 0x01 ∨
      (reachedRegs carsWaiting 1 0).PORTD &&& 0x07 = 0x02 ∨
      (reachedRegs carsWaiting 1 0).PORTD &&& 0x07 = 0x04) ∧
    ((reachedRegs carsWaiting 1 0).PORTD &&& 0x38 = 0x08 ∨
      (reachedRegs carsWaiting 1 0).PORTD &&& 0x38 = 0x10 ∨
      (reachedRegs carsWaiting 1 0).PORTD &&& 0x38 = 0x20) :=
  ⟨le_refl 1, (phases_exclusive carsWaiting 1 0 (le_refl 1)).2⟩

/-- C19. A vehicle is never authorised against a red light: in the complete system
(`mainSetup`), for any sensor readings, in every state reached (after any number `n` of
scheduler pulses and the first `j` tasks of the next one), `good_to_go = 1` implies that
lane 1 shows green or yellow (bits 0-2 of `PORTD` are `0x01` or `0x02`), and `gtg = 1`
implies that lane 2 shows green or yellow (bits 3-5 are `0x08` or `0x10`). So whenever
`SMTick1` or `SMTick3` is called and takes its grant branch, its own light is not red. -/
theorem granted_never_red (read_adc : Nat → Nat → Nat) (n j : Nat) :
    mainSetup = some (50, mainTasks 1 10 1 10, initMachine) ∧
    ((reachedRegs read_adc n j).good_to_go = 1 →
      (reachedRegs read_adc n j).PORTD &&& 0x07 = 0x01 ∨
      (reachedRegs read_adc n j).PORTD &&& 0x07 = 0x02) ∧
    ((reachedRegs read_adc n j).gtg = 1 →
      (reachedRegs read_adc n j).PORTD &&& 0x38 = 0x08 ∨
      (reachedRegs read_adc n j).PORTD &&& 0x38 = 0x10) := by
  refine ⟨mainSetup_eq, ?_⟩
  obtain ⟨st1, st2, st3, st4, e1, e2, e3, hts, h1, h2, hcpl⟩ := runPulses_lights read_adc n
  have key := pulse_lights (read_adc n) st1 st2 st3 st4 e1 e2 e3 _ _ _ _ _ rfl rfl rfl rfl
    h1 h2 hcpl
  unfold reachedRegs
  rw [hts]
  rcases pulse_take_sysTasks (read_adc n) st1 st2 st3 st4 e1 e2 e3 e2
    (runPulses read_adc n (mainTasks 1 10 1 10, initMachine)).2 j _ _ _ _
    rfl rfl rfl rfl with h | h | h | h | h <;> rw [h]
  · exact ⟨light1_granted _ _ h1, light2_granted _ _ h2⟩
  · exact ⟨light1_granted _ _ key.1.1, light2_granted _ _ key.1.2⟩
  · exact ⟨light1_granted _ _ key.2.1.1, light2_granted _ _ key.2.1.2⟩
  · exact ⟨light1_granted _ _ key.2.2.1.1, light2_granted _ _ key.2.2.1.2⟩
  · exact ⟨light1_granted _ _ key.2.2.2.1.1, light2_granted _ _ key.2.2.2.1.2⟩

/-! ## The complete system: the run with a vehicle in front of both sensors -/

theorem runPulses_add {I W : Type} (inps : Nat → I) (a b : Nat) (s : List (task I W) × W) :
    runPulses inps (a + b) s = runPulses (fun k => inps (a + k)) b (runPulses inps a s) := by
  induction b with
  | zero => rfl
  | succ b ih => rw [← Nat.add_assoc, runPulses_succ, ih, runPulses_succ]

theorem carsWaiting_shift (a : Nat) : (fun k => carsWaiting (a + k)) = carsWaiting := rfl

section

set_option maxRecDepth 4000

theorem cars_10 :
    runPulses carsWaiting 10 (mainTasks 1 10 1 10, initMachine)
      = (sysTasks 4 1 4 1 1 10 1 10,
        { PORTB := 128, PORTC := 128, PORTD := 36, car_waiting := 0, car_waiting1 := 0,
          good_to_go := 0, gtg := 0, cnt := 0, cnt_SM2 := 0, cnt_SM3 := 0, cnt_SM4 := 0,
          adc0_value := 32, adc6_value := 32 }) := by
  rfl

theorem cars_20 :
    runPulses carsWaiting 20 (mainTasks 1 10 1 10, initMachine)
      = (sysTasks 4 1 4 1 1 10 1 10,
        { PORTB := 128, PORTC := 128, PORTD := 36, car_waiting := 0, car_waiting1 := 0,
          good_to_go := 0, gtg := 0, cnt := 10, cnt_SM2 := 0, cnt_SM3 := 10, cnt_SM4 := 0,
          adc0_value := 32, adc6_value := 32 }) := by
  rw [show (20 : Nat) = 10 + 10 from rfl, runPulses_add, cars_10, carsWaiting_shift]
  rfl

theorem cars_30 :
    runPulses carsWaiting 30 (mainTasks 1 10 1 10, initMachine)
      = (sysTasks 5 1 5 1 1 10 1 10,
        { PORTB := 128, PORTC := 128, PORTD := 36, car_waiting := 1, car_waiting1 := 1,
          good_to_go := 0, gtg := 0, cnt := 11, cnt_SM2 := 1, cnt_SM3 := 11, cnt_SM4 := 1,
          adc0_value := 32, adc6_value := 32 }) := by
  rw [show (30 : Nat) = 20 + 10 from rfl, runPulses_add, cars_20, carsWaiting_shift]
  rfl

theorem cars_40 :
    runPulses carsWaiting 40 (mainTasks 1 10 1 10, initMachine)
      = (sysTasks 5 1 5 1 1 10 1 10,
        { PORTB := 128, PORTC := 128, PORTD := 36, car_waiting := 1, car_waiting1 := 1,
          good_to_go := 0, gtg := 0, cnt := 11, cnt_SM2 := 2, cnt_SM3 := 11, cnt_SM4 := 2,
          adc0_value := 32, adc6_value := 32 }) := by
  rw [show (40 : Nat) = 30 + 10 from rfl, runPulses_add, cars_30, carsWaiting_shift]
  rfl

theorem cars_41 :
    runPulses carsWaiting 41 (mainTasks 1 10 1 10, initMachine)
      = (sysTasks 5 2 5 2 1 1 1 1,
        { PORTB := 128, PORTC := 128, PORTD := 9, car_waiting := 1, car_waiting1 := 1,
          good_to_go := 0, gtg := 0, cnt := 11, cnt_SM2 := 2, cnt_SM3 := 11, cnt_SM4 := 2,
          adc0_value := 32, adc6_value := 32 }) := by
  rw [show (41 : Nat) = 40 + 1 from rfl, runPulses_add, cars_40, carsWaiting_shift]
  rfl

theorem cars_50 :
    runPulses carsWaiting 50 (mainTasks 1 10 1 10, initMachine)
      = (sysTasks 5 2 5 2 1 10 1 10,
        { PORTB := 128, PORTC := 128, PORTD := 9, car_waiting := 1, car_waiting1 := 1,
          good_to_go := 0, gtg := 0, cnt := 11, cnt_SM2 := 2, cnt_SM3 := 11, cnt_SM4 := 2,
          adc0_value := 32, adc6_value := 32 }) := by
  rw [show (50 : Nat) = 40 + 10 from rfl, runPulses_add, cars_40, carsWaiting_shift]
  rfl

theorem cars_51 :
    runPulses carsWaiting 51 (mainTasks 1 10 1 10, initMachine)
      = (sysTasks 5 3 5 3 1 1 1 1,
        { PORTB := 128, PORTC := 128, PORTD := 9, car_waiting := 1, car_waiting1 := 1,
          good_to_go := 1, gtg := 1, cnt := 11, cnt_SM2 := 2, cnt_SM3 := 11, cnt_SM4 := 2,
          adc0_value := 32, adc6_value := 32 }) := by
  rw [show (51 : Nat) = 50 + 1 from rfl, runPulses_add, cars_50, carsWaiting_shift]
  rfl

theorem cars_60 :
    runPulses carsWaiting 60 (mainTasks 1 10 1 10, initMachine)
      = (sysTasks 3 3 3 3 1 10 1 10,
        { PORTB := 128, PORTC := 128, PORTD := 201, car_waiting := 0, car_waiting1 := 0,
          good_to_go := 1, gtg := 1, cnt := 0, cnt_SM2 := 2, cnt_SM3 := 0, cnt_SM4 := 2,
          adc0_value := 32, adc6_value := 32 }) := by
  rw [show (60 : Nat) = 50 + 10 from rfl, runPulses_add, cars_50, carsWaiting_shift]
  rfl

theorem cars_70 :
    runPulses carsWaiting 70 (mainTasks 1 10 1 10, initMachine)
      = (sysTasks 4 4 4 4 1 10 1 10,
        { PORTB := 128, PORTC := 128, PORTD := 9, car_waiting := 0, car_waiting1 := 0,
          good_to_go := 1, gtg := 1, cnt := 9, cnt_SM2 := 0, cnt_SM3 := 9, cnt_SM4 := 0,
          adc0_value := 32, adc6_value := 32 }) := by
  rw [show (70 : Nat) = 60 + 10 from rfl, runPulses_add, cars_60, carsWaiting_shift]
  rfl

theorem cars_80 :
    runPulses carsWaiting 80 (mainTasks 1 10 1 10, initMachine)
      = (sysTasks 3 4 3 4 1 10 1 10,
        { PORTB := 64, PORTC := 64, PORTD := 201, car_waiting := 0, car_waiting1 := 0,
          good_to_go := 1, gtg := 1, cnt := 0, cnt_SM2 := 1, cnt_SM3 := 0, cnt_SM4 := 1,
          adc0_value := 32, adc6_value := 32 }) := by
  rw [show (80 : Nat) = 70 + 10 from rfl, runPulses_add, cars_70, carsWaiting_shift]
  rfl

theorem cars_90 :
    runPulses carsWaiting 90 (mainTasks 1 10 1 10, initMachine)
      = (sysTasks 4 4 4 4 1 10 1 10,
        { PORTB := 128, PORTC := 128, PORTD := 201, car_waiting := 0, car_waiting1 := 0,
          good_to_go := 1, gtg := 1, cnt := 8, cnt_SM2 := 2, cnt_SM3 := 8, cnt_SM4 := 2,
          adc0_value := 32, adc6_value := 32 }) := by
  rw [show (90 : Nat) = 80 + 10 from rfl, runPulses_add, cars_80, carsWaiting_shift]
  rfl

theorem cars_100 :
    runPulses carsWaiting 100 (mainTasks 1 10 1 10, initMachine)
      = (sysTasks 3 4 3 4 1 10 1 10,
        { PORTB := 32, PORTC := 32, PORTD := 201, car_waiting := 0, car_waiting1 := 0,
          good_to_go := 1, gtg := 1, cnt := 0, cnt_SM2 := 3, cnt_SM3 := 0, cnt_SM4 := 3,
          adc0_value := 32, adc6_value := 32 }) := by
  rw [show (100 : Nat) = 90 + 10 from rfl, runPulses_add, cars_90, carsWaiting_shift]
  rfl

theorem cars_110 :
    runPulses carsWaiting 110 (mainTasks 1 10 1 10, initMachine)
      = (sysTasks 4 4 4 4 1 10 1 10,
        { PORTB := 128, PORTC := 128, PORTD := 201, car_waiting := 0, car_waiting1 := 0,
          good_to_go := 1, gtg := 1, cnt := 7, cnt_SM2 := 4, cnt_SM3 := 7, cnt_SM4 := 4,
          adc0_value := 32, adc6_value := 32 }) := by
  rw [show (110 : Nat) = 100 + 10 from rfl, runPulses_add, cars_100, carsWaiting_shift]
  rfl

theorem cars_111 :
    runPulses carsWaiting 111 (mainTasks 1 10 1 10, initMachine)
      = (sysTasks 4 5 4 5 1 1 1 1,
        { PORTB := 128, PORTC := 128, PORTD := 210, car_waiting := 0, car_waiting1 := 0,
          good_to_go := 1, gtg := 1, cnt := 8, cnt_SM2 := 1, cnt_SM3 := 8, cnt_SM4 := 1,
          adc0_value := 32, adc6_value := 32 }) := by
  rw [show (111 : Nat) = 110 + 1 from rfl, runPulses_add, cars_110, carsWaiting_shift]
  rfl

end

theorem reachedRegs_zero (read_adc : Nat → Nat → Nat) (n : Nat) :
    reachedRegs read_adc n 0 = (runPulses read_adc n (mainTasks 1 10 1 10, initMachine)).2 := by
  simp [reachedRegs, pulse]

/-- A witness of `granted_never_red`: with a vehicle in front of both sensors, after 51
pulses both grants are set and both lanes show green. -/
theorem granted_never_red_witness :
    ((reachedRegs carsWaiting 51 0).good_to_go = 1 ∧
      ((reachedRegs carsWaiting 51 0).PORTD &&& 0x07 = 0x01 ∨
        (reachedRegs carsWaiting 51 0).PORTD &&& 0x07 = 0x02)) ∧
    ((reachedRegs carsWaiting 51 0).gtg = 1 ∧
      ((reachedRegs carsWaiting 51 0).PORTD &&& 0x38 = 0x08 ∨
        (reachedRegs carsWaiting 51 0).PORTD &&& 0x38 = 0x10)) := by
  have hg : (reachedRegs carsWaiting 51 0).good_to_go = 1 := by
    rw [reachedRegs_zero, cars_51]
  have hg2 : (reachedRegs carsWaiting 51 0).gtg = 1 := by
    rw [reachedRegs_zero, cars_51]
  exact ⟨⟨hg, (granted_never_red carsWaiting 51 0).2.1 hg⟩,
    ⟨hg2, (granted_never_red carsWaiting 51 0).2.2 hg2⟩⟩

/-- C17. No cross-lane arbitration: in the complete system (`mainSetup`), when both sensors
read `0x20` at every pulse, after 41 scheduler pulses lane 1 and lane 2 display green at
once: bit 0 and bit 3 of `PORTD` are both set, the lane-1 phase is `0x01` and the lane-2
phase is `0x08`. -/
theorem both_lanes_green :
    mainSetup = some (50, mainTasks 1 10 1 10, initMachine) ∧
    (runPulses carsWaiting 41 (mainTasks 1 10 1 10, initMachine)).2.PORTD.testBit 0 = true ∧
    (runPulses carsWaiting 41 (mainTasks 1 10 1 10, initMachine)).2.PORTD.testBit 3 = true ∧
    (runPulses carsWaiting 41 (mainTasks 1 10 1 10, initMachine)).2.PORTD &&& 0x07 = 0x01 ∧
    (runPulses carsWaiting 41 (mainTasks 1 10 1 10, initMachine)).2.PORTD &&& 0x38 = 0x08 := by
  refine ⟨mainSetup_eq, ?_⟩
  rw [cars_41]
  decide

/-- C18, evaluation of the code. In the run of the complete system with both sensors
reading `0x20` at every pulse, pulse 110 (a multiple of 10, so `SMTick2` and `SMTick4` are
called) finds both light machines in their `greener` state and leaves them in their
`yellow` state, a dwelling state they have just entered; the debounce counters `cnt_SM2`
and `cnt_SM4` are then 1, not 0. -/
theorem counter_after_entry :
    (runPulses carsWaiting 110 (mainTasks 1 10 1 10, initMachine)).1.map (fun t => t.state)
      = [SM1_moving_car_8, SM2_greener, SM3_moving_car_8, SM4_greener] ∧
    (runPulses carsWaiting 111 (mainTasks 1 10 1 10, initMachine)).1.map (fun t => t.state)
      = [SM1_moving_car_8, SM2_yellow, SM3_moving_car_8, SM4_yellow] ∧
    (runPulses carsWaiting 111 (mainTasks 1 10 1 10, initMachine)).2.cnt_SM2 = 1 ∧
    (runPulses carsWaiting 111 (mainTasks 1 10 1 10, initMachine)).2.cnt_SM4 = 1 := by
  rw [cars_110, cars_111]
  exact ⟨rfl, rfl, rfl, rfl⟩

end TrafficLight
